import Mathlib

/-!
# Verification of the flight-path core renderers

Shallow embedding of the flight-path repository's core components:

* `Planes`   — `src/planes/PlanesShader.ts` (instanced object animator,
  return-mode state machine).  JavaScript numbers are modelled as exact
  rationals, so all of this part is computable.
* `FlightM`  — the `Flight` façade (speed smoothing).
* `Geom`     — `src/common/Utils.ts` (`latLngToVector3`),
  `src/flights/FlightUtils.ts` (control-point generation and
  normalization) and the three.js vector / Catmull-Rom primitives they
  delegate to, over the reals.
* `CurvesM`  — `src/curves/Curves.ts` (batched curve renderer).

JavaScript `%` (truncated remainder) is modelled by `jsMod`; the
`_wrapProgress` helper of `PlanesShader` composes it with the negative
fixup the source applies, which for a positive period coincides with the
floor modulus (proved in `wrapProgress_eq`).
-/

namespace Spec2Proof

/-- Truncation toward zero of a rational, as JS `Math.trunc` /
the implicit truncation in `a % b = a - b * trunc (a / b)`. -/
def jsTrunc (q : ℚ) : ℤ :=
  if 0 ≤ q then ⌊q⌋ else -⌊-q⌋

/-- JavaScript `a % b` on numbers (truncated remainder). -/
def jsMod (a b : ℚ) : ℚ :=
  a - b * (jsTrunc (a / b) : ℤ)

/-- `PlanesShader._wrapProgress(value, period)`: JS `%` followed by a
`+= period` fixup for negative remainders; returns 0 for a non-positive
period. -/
def wrapProgress (value period : ℚ) : ℚ :=
  if period ≤ 0 then 0
  else
    let r := jsMod value period
    if r < 0 then r + period else r

/-- For a positive period, `_wrapProgress` computes the floor modulus. -/
theorem wrapProgress_eq (v p : ℚ) (hp : 0 < p) :
    wrapProgress v p = v - p * ⌊v / p⌋ := by
  have hple : ¬ p ≤ 0 := not_le.mpr hp
  have hpne : p ≠ 0 := ne_of_gt hp
  by_cases hint : ∃ z : ℤ, v / p = (z : ℚ)
  · rcases hint with ⟨z, hz⟩
    have hv : v = p * z := by
      field_simp at hz
      linarith [hz]
    have hfl : ⌊v / p⌋ = z := by rw [hz, Int.floor_intCast]
    have htr : jsTrunc (v / p) = z := by
      by_cases h0 : 0 ≤ v / p
      · rw [jsTrunc, if_pos h0, hfl]
      · rw [jsTrunc, if_neg h0, hz, ← Int.cast_neg, Int.floor_intCast]
        omega
    have hr : jsMod v p = 0 := by
      rw [jsMod, htr, hv]; ring
    rw [wrapProgress]
    rw [if_neg hple]
    simp only [hr, hfl]
    rw [if_neg (by norm_num)]
    rw [hv]; ring
  · set x := v / p with hx
    set n := ⌊x⌋ with hn
    have hxn : (n : ℚ) ≤ x := Int.floor_le x
    have hxne : x ≠ (n : ℚ) := fun h => hint ⟨n, h⟩
    have hxlt : (n : ℚ) < x := lt_of_le_of_ne hxn (Ne.symm hxne)
    have hxup : x < (n : ℚ) + 1 := Int.lt_floor_add_one x
    have hvn : p * (n : ℚ) < v := by
      have := mul_lt_mul_of_pos_left hxlt hp
      rwa [hx, mul_div_cancel₀ v hpne] at this
    have hvup : v < p * ((n : ℚ) + 1) := by
      have := mul_lt_mul_of_pos_left hxup hp
      rwa [hx, mul_div_cancel₀ v hpne] at this
    by_cases h0 : 0 ≤ x
    · have htr : jsTrunc x = n := by rw [jsTrunc, if_pos h0]
      have hr : jsMod v p = v - p * n := by rw [jsMod, hx] at *; rw [htr]
      have hrnn : ¬ (v - p * (n : ℚ) < 0) := by push_neg; linarith
      rw [wrapProgress, if_neg hple]
      simp only [← hx, hr]
      rw [if_neg hrnn]
    · have hflneg : ⌊-x⌋ = -n - 1 := by
        rw [Int.floor_eq_iff]
        constructor
        · push_cast; linarith
        · push_cast; linarith
      have htr : jsTrunc x = n + 1 := by
        rw [jsTrunc, if_neg h0, hflneg]; ring
      have hr : jsMod v p = v - p * ((n : ℚ) + 1) := by
        rw [jsMod, hx] at *
        rw [htr]; push_cast; ring
      have hrneg : v - p * ((n : ℚ) + 1) < 0 := by linarith
      rw [wrapProgress, if_neg hple]
      simp only [← hx, hr]
      rw [if_pos hrneg]
      ring

theorem wrapProgress_nonneg (v p : ℚ) (hp : 0 < p) : 0 ≤ wrapProgress v p := by
  rw [wrapProgress_eq v p hp]
  have h := Int.floor_le (v / p)
  have := mul_le_mul_of_nonneg_left h hp.le
  rw [mul_div_cancel₀ v (ne_of_gt hp)] at this
  linarith

theorem wrapProgress_lt (v p : ℚ) (hp : 0 < p) : wrapProgress v p < p := by
  rw [wrapProgress_eq v p hp]
  have h := Int.lt_floor_add_one (v / p)
  have := mul_lt_mul_of_pos_left h hp
  rw [mul_div_cancel₀ v (ne_of_gt hp)] at this
  linarith

theorem wrapProgress_eq_self (v p : ℚ) (hp : 0 < p) (h0 : 0 ≤ v) (h1 : v < p) :
    wrapProgress v p = v := by
  rw [wrapProgress_eq v p hp]
  have : ⌊v / p⌋ = 0 := by
    rw [Int.floor_eq_iff]
    push_cast
    constructor
    · positivity
    · rw [zero_add, div_lt_one hp]
      linarith
  rw [this]
  push_cast; ring

/-- Shifting the argument by an integer multiple of the period does not
change the wrapped value. -/
theorem wrapProgress_int_shift (v p : ℚ) (k : ℤ) (hp : 0 < p) :
    wrapProgress (v + p * k) p = wrapProgress v p := by
  rw [wrapProgress_eq _ p hp, wrapProgress_eq v p hp]
  have : (v + p * k) / p = v / p + k := by
    rw [add_div, mul_comm p (k : ℚ), mul_div_assoc, div_self (ne_of_gt hp),
      mul_one]
  rw [this, Int.floor_add_int]
  push_cast
  ring

/-- A three.js `Vector3` with rational coordinates, used for the packed
control-point uploads of `PlanesShader` (which never does geometry on
them on the CPU side). -/
structure Vec3Q where
  x : ℚ
  y : ℚ
  z : ℚ
deriving DecidableEq

/-- Point update of a flattened `Float32Array` modelled as `ℕ → ℚ`. -/
def updQ (f : ℕ → ℚ) (n : ℕ) (a : ℚ) : ℕ → ℚ :=
  fun j => if j = n then a else f j

/-- Write four consecutive entries starting at `base`. -/
def upd4 (f : ℕ → ℚ) (base : ℕ) (a b c d : ℚ) : ℕ → ℚ :=
  fun j =>
    if j = base then a
    else if j = base + 1 then b
    else if j = base + 2 then c
    else if j = base + 3 then d
    else f j

namespace Planes

/-- CPU-visible state of `PlanesShader` (`src/planes/PlanesShader.ts`).
The `animationParams` array (stride 4: phase, speed, tiltMode, visible)
is modelled by the four per-instance functions `phase`, `speed`,
`tiltMode`, `visibleFlag`; the GPU `time` uniform by `time`. -/
@[ext]
structure State where
  maxPanes : ℕ
  time : ℚ
  phase : ℕ → ℚ
  speed : ℕ → ℚ
  tiltMode : ℕ → ℚ
  visibleFlag : ℕ → ℚ
  cp1 : ℕ → ℚ
  cp2 : ℕ → ℚ
  cp3 : ℕ → ℚ
  instanceColors : ℕ → ℚ
  instanceScales : ℕ → ℚ
  instanceElevations : ℕ → ℚ
  instanceUvTransforms : ℕ → ℚ
  activePanes : ℕ
  returnModePreferred : Bool
  returnModeEnabled : Bool
  pending : ℕ → Bool

/-- Constructor plus `initialize()`.  `maxPanesOpt = 0` models an absent
`options.maxPanes` (the source uses `options.maxPanes || 1000`); `rand`
supplies the `Math.random()` initial phases. -/
def init (maxPanesOpt : ℕ) (returnMode : Bool) (baseElevation : ℚ)
    (rand : ℕ → ℚ) : State where
  maxPanes := if maxPanesOpt = 0 then 1000 else maxPanesOpt
  time := 0
  phase := rand
  speed := fun _ => 1/10
  tiltMode := fun _ => 0
  visibleFlag := fun _ => 0
  cp1 := fun _ => 0
  cp2 := fun _ => 0
  cp3 := fun _ => 0
  instanceColors := fun _ => 1
  instanceScales := fun _ => 0
  instanceElevations := fun _ => baseElevation
  instanceUvTransforms := fun j => if j % 4 = 2 ∨ j % 4 = 3 then 1 else 0
  activePanes := 0
  returnModePreferred := returnMode
  returnModeEnabled := returnMode
  pending := fun _ => false

/-- `setCurveControlPoints(index, controlPoints)`.  The second component
records whether `console.warn` fired: an out-of-range index returns
silently, fewer than 4 points warns; both are no-ops. -/
def setCurveControlPoints (s : State) (index : ℤ)
    (controlPoints : List Vec3Q) : State × Bool :=
  if index < 0 ∨ (s.maxPanes : ℤ) ≤ index then (s, false)
  else if controlPoints.length < 4 then (s, true)
  else
    let i := index.toNat
    let cp : ℕ → Vec3Q := fun k => controlPoints.getD k ⟨0, 0, 0⟩
    ({ s with
        cp1 := upd4 s.cp1 (i * 4) (cp 0).x (cp 0).y (cp 0).z (cp 1).x
        cp2 := upd4 s.cp2 (i * 4) (cp 1).y (cp 1).z (cp 2).x (cp 2).y
        cp3 := upd4 s.cp3 (i * 4) (cp 2).z (cp 3).x (cp 3).y (cp 3).z
        visibleFlag := updQ s.visibleFlag i 1 }, false)

/-- `setReturnMode(enabled)`.  Enabling clears every pending flag and
turns the mode on immediately; disabling marks instances currently on
their return leg (`cycle > 1 + 1e-4`) as pending and snaps instances at
the forward/return boundary back by one cycle unit. -/
def setReturnMode (s : State) (enabled : Bool) : State :=
  if enabled then
    { s with
        returnModePreferred := true
        pending := fun _ => false
        returnModeEnabled := true }
  else
    let t := s.time
    let cyc : ℕ → ℚ := fun i => wrapProgress (t * s.speed i + s.phase i) 2
    { s with
        returnModePreferred := false
        pending := fun i =>
          if i < s.activePanes ∧ ¬ s.visibleFlag i < 1/2 then
            decide (1 + 1/10000 < cyc i)
          else s.pending i
        phase := fun i =>
          if i < s.activePanes ∧ ¬ s.visibleFlag i < 1/2 ∧
              ¬ 1 + 1/10000 < cyc i ∧ 1 - 1/10000 < cyc i then
            wrapProgress (s.phase i - 1) 2
          else s.phase i }

/-- `_reconcileReturnMode()`, run at the end of every `update`.  The
per-instance loop only touches data of its own index, so it is modelled
pointwise; `anyPending` is the loop's accumulator. -/
def reconcileReturnMode (s : State) : State :=
  if s.returnModePreferred then
    if s.returnModeEnabled then s else { s with returnModeEnabled := true }
  else if s.returnModeEnabled then
    let t := s.time
    let cyc : ℕ → ℚ := fun i => wrapProgress (t * s.speed i + s.phase i) 2
    let anyPending : Bool :=
      (List.range s.activePanes).any fun i =>
        !decide (s.visibleFlag i < 1/2) && s.pending i &&
          !decide (cyc i ≤ 1 - 1/10000)
    { s with
        pending := fun i =>
          if i < s.activePanes ∧ ¬ s.visibleFlag i < 1/2 ∧
              s.pending i = true ∧ cyc i ≤ 1 - 1/10000 then false
          else s.pending i
        phase := fun i =>
          if i < s.activePanes ∧ ¬ s.visibleFlag i < 1/2 then
            if s.pending i then
              if cyc i ≤ 1 - 1/10000 then wrapProgress (-t * s.speed i) 2
              else s.phase i
            else
              if 1 + 1/10000 < cyc i then wrapProgress (s.phase i - 1) 2
              else s.phase i
          else s.phase i
        returnModeEnabled := anyPending }
  else s

/-- `update(deltaTime)`: advance the shared time uniform, then reconcile
the return-mode state machine. -/
def update (s : State) (deltaTime : ℚ) : State :=
  reconcileReturnMode { s with time := s.time + deltaTime }

/-- `hidePane(index)`: clears only the visible flag. -/
def hidePane (s : State) (index : ℤ) : State :=
  if index < 0 ∨ (s.maxPanes : ℤ) ≤ index then s
  else { s with visibleFlag := updQ s.visibleFlag index.toNat 0 }

/-- `setActivePaneCount(count)`: clamps to `maxPanes` and clears the
pending flags of instances dropped from the reconciliation range. -/
def setActivePaneCount (s : State) (count : ℕ) : State :=
  let newCount := min count s.maxPanes
  { s with
      pending := fun i =>
        if newCount ≤ i ∧ i < s.activePanes then false else s.pending i
      activePanes := newCount }

/-- `setAnimationSpeed(index, speed)`: re-derives the phase so that the
progress at the current global time is unchanged. -/
def setAnimationSpeed (s : State) (index : ℤ) (speed : ℚ) : State :=
  if index < 0 ∨ (s.maxPanes : ℤ) ≤ index then s
  else
    let i := index.toNat
    let t := s.time
    let period : ℚ := if s.returnModeEnabled then 2 else 1
    let currentProgress := wrapProgress (t * s.speed i + s.phase i) period
    let newPhase := wrapProgress (currentProgress - t * speed) period
    { s with
        speed := updQ s.speed i speed
        phase := updQ s.phase i newPhase }

end Planes

/-- Pending flag after one `update`, in the drain phase
(`preferred = false`, `enabled = true`): an instance inside the
reconciliation range and visible keeps its flag unless its cycle has
fallen back to `≤ 1 - 1e-4`. -/
theorem update_pending_eq (s : Planes.State) (dt : ℚ)
    (hpref : s.returnModePreferred = false)
    (hen : s.returnModeEnabled = true) (i : ℕ) :
    (Planes.update s dt).pending i =
      if i < s.activePanes ∧ ¬ s.visibleFlag i < 1/2 ∧ s.pending i = true ∧
          wrapProgress ((s.time + dt) * s.speed i + s.phase i) 2 ≤ 1 - 1/10000
        then false else s.pending i := by
  simp only [Planes.update, Planes.reconcileReturnMode, hpref, hen]
  norm_num

/-- Phase after one `update` in the drain phase: pending instances are
restarted when their return leg completes and untouched otherwise;
non-pending instances are rewound by one cycle unit if they would start
a new return leg. -/
theorem update_phase_eq (s : Planes.State) (dt : ℚ)
    (hpref : s.returnModePreferred = false)
    (hen : s.returnModeEnabled = true) (i : ℕ) :
    (Planes.update s dt).phase i =
      if i < s.activePanes ∧ ¬ s.visibleFlag i < 1/2 then
        if s.pending i then
          if wrapProgress ((s.time + dt) * s.speed i + s.phase i) 2 ≤ 1 - 1/10000
            then wrapProgress (-(s.time + dt) * s.speed i) 2
          else s.phase i
        else
          if 1 + 1/10000 < wrapProgress ((s.time + dt) * s.speed i + s.phase i) 2
            then wrapProgress (s.phase i - 1) 2
          else s.phase i
      else s.phase i := by
  simp only [Planes.update, Planes.reconcileReturnMode, hpref, hen]
  norm_num

/-- Enabled flag after one `update` in the drain phase: exactly the
loop accumulator `anyPending`. -/
theorem update_enabled_eq (s : Planes.State) (dt : ℚ)
    (hpref : s.returnModePreferred = false)
    (hen : s.returnModeEnabled = true) :
    (Planes.update s dt).returnModeEnabled =
      ((List.range s.activePanes).any fun i =>
        !decide (s.visibleFlag i < 1/2) && s.pending i &&
          !decide (wrapProgress ((s.time + dt) * s.speed i + s.phase i) 2 ≤
            1 - 1/10000)) := by
  simp only [Planes.update, Planes.reconcileReturnMode, hpref, hen]
  norm_num

/-- `update` changes neither the reconciliation range, visibility,
speeds, nor either mode-preference flag. -/
theorem update_fixed_fields (s : Planes.State) (dt : ℚ) :
    (Planes.update s dt).activePanes = s.activePanes ∧
    (Planes.update s dt).visibleFlag = s.visibleFlag ∧
    (Planes.update s dt).speed = s.speed ∧
    (Planes.update s dt).returnModePreferred = s.returnModePreferred ∧
    (Planes.update s dt).time = s.time + dt ∧
    (Planes.update s dt).maxPanes = s.maxPanes ∧
    (Planes.update s dt).tiltMode = s.tiltMode ∧
    (Planes.update s dt).cp1 = s.cp1 ∧
    (Planes.update s dt).cp2 = s.cp2 ∧
    (Planes.update s dt).cp3 = s.cp3 ∧
    (Planes.update s dt).instanceColors = s.instanceColors ∧
    (Planes.update s dt).instanceScales = s.instanceScales ∧
    (Planes.update s dt).instanceElevations = s.instanceElevations ∧
    (Planes.update s dt).instanceUvTransforms = s.instanceUvTransforms := by
  cases hp : s.returnModePreferred <;> cases he : s.returnModeEnabled <;>
    simp [Planes.update, Planes.reconcileReturnMode, hp, he]

/-- C1 (amended return-mode drain invariant).  The claim as stated fails
because `hidePane` does not clear the pending flag, yet hidden
instances are skipped by the reconciliation loop (see
`c1_counterexample`).  Amended: in the drain phase
(`preferred = false`, `enabled = true`), after any `update(deltaTime)`
(i) `returnModeEnabled` stays true if and only if some *visible*
instance *inside the active count* still has its pending flag set, so
the flag drops only in the update that clears the last such pending
flag; (ii) a visible active pending flag is cleared only when that
instance's cycle `(time × speed + phase) mod 2` has fallen back into
`[0, 1 - 1e-4] ⊆ [0, 1)`; and (iii) no instance whose pending flag is
set and survives the update is rewound: its phase is unchanged. -/
theorem c1_return_mode_drain (s : Planes.State) (dt : ℚ)
    (hpref : s.returnModePreferred = false)
    (hen : s.returnModeEnabled = true) :
    ((Planes.update s dt).returnModeEnabled = true ↔
      ∃ i, i < s.activePanes ∧ ¬ s.visibleFlag i < 1/2 ∧
        (Planes.update s dt).pending i = true) ∧
    (∀ i, i < s.activePanes → ¬ s.visibleFlag i < 1/2 →
      s.pending i = true → (Planes.update s dt).pending i = false →
        0 ≤ wrapProgress ((s.time + dt) * s.speed i + s.phase i) 2 ∧
        wrapProgress ((s.time + dt) * s.speed i + s.phase i) 2 ≤ 1 - 1/10000) ∧
    (∀ i, s.pending i = true → (Planes.update s dt).pending i = true →
      (Planes.update s dt).phase i = s.phase i) := by
  refine ⟨?_, ?_, ?_⟩
  · rw [update_enabled_eq s dt hpref hen]
    rw [List.any_eq_true]
    constructor
    · rintro ⟨i, hmem, hfi⟩
      rw [List.mem_range] at hmem
      simp only [Bool.and_eq_true, Bool.not_eq_true', decide_eq_false_iff_not,
        decide_eq_true_eq] at hfi
      obtain ⟨⟨hvis, hpend⟩, hcyc⟩ := hfi
      refine ⟨i, hmem, hvis, ?_⟩
      rw [update_pending_eq s dt hpref hen i]
      rw [if_neg (by tauto)]
      exact hpend
    · rintro ⟨i, hi, hvis, hpend'⟩
      rw [update_pending_eq s dt hpref hen i] at hpend'
      refine ⟨i, List.mem_range.mpr hi, ?_⟩
      by_cases hc : wrapProgress ((s.time + dt) * s.speed i + s.phase i) 2 ≤
          1 - 1/10000
      · by_cases hp : s.pending i = true
        · rw [if_pos ⟨hi, hvis, hp, hc⟩] at hpend'
          exact absurd hpend' (by simp)
        · rw [if_neg (by tauto)] at hpend'
          exact absurd hpend' hp
      · have hp : s.pending i = true := by
          rwa [if_neg (by tauto)] at hpend'
        simp only [Bool.and_eq_true, Bool.not_eq_true', decide_eq_false_iff_not,
          decide_eq_true_eq]
        exact ⟨⟨hvis, hp⟩, hc⟩
  · intro i hi hvis hpend hpend'
    rw [update_pending_eq s dt hpref hen i] at hpend'
    by_cases hc : wrapProgress ((s.time + dt) * s.speed i + s.phase i) 2 ≤
        1 - 1/10000
    · exact ⟨wrapProgress_nonneg _ 2 (by norm_num), hc⟩
    · rw [if_neg (by tauto)] at hpend'
      exact absurd hpend' (by simp [hpend])
  · intro i hpend hpend'
    rw [update_pending_eq s dt hpref hen i] at hpend'
    rw [update_phase_eq s dt hpref hen i]
    by_cases hproc : i < s.activePanes ∧ ¬ s.visibleFlag i < 1/2
    · rw [if_pos hproc, if_pos hpend]
      by_cases hc : wrapProgress ((s.time + dt) * s.speed i + s.phase i) 2 ≤
          1 - 1/10000
      · rw [if_pos ⟨hproc.1, hproc.2, hpend, hc⟩] at hpend'
        exact absurd hpend' (by simp)
      · rw [if_neg hc]
    · rw [if_neg hproc]

/-- The control point used in the concrete traces. -/
def paneCP : Vec3Q := ⟨1, 2, 3⟩

/-- Concrete drain-phase state: one visible active instance with speed
0.1 and phase 0 in round-trip mode, a disable request issued at global
time 15 (cycle 1.5, mid return leg). -/
def drainStart : Planes.State :=
  Planes.setReturnMode
    (Planes.update
      (Planes.setActivePaneCount
        (Planes.setCurveControlPoints (Planes.init 1 true 0 fun _ => 0) 0
          [paneCP, paneCP, paneCP, paneCP]).1 1) 15) false

/-- The same trace continued with `hidePane(0)` and one more update. -/
def c1CexState : Planes.State :=
  Planes.update (Planes.hidePane drainStart 0) 1

/-- Fully evaluated form of `drainStart`. -/
def drainStartN : Planes.State where
  maxPanes := 1
  time := 15
  phase := fun _ => 0
  speed := fun _ => 1/10
  tiltMode := fun _ => 0
  visibleFlag := updQ (fun _ => 0) 0 1
  cp1 := upd4 (fun _ => 0) 0 1 2 3 1
  cp2 := upd4 (fun _ => 0) 0 2 3 1 2
  cp3 := upd4 (fun _ => 0) 0 3 1 2 3
  instanceColors := fun _ => 1
  instanceScales := fun _ => 0
  instanceElevations := fun _ => 0
  instanceUvTransforms := fun j => if j % 4 = 2 ∨ j % 4 = 3 then 1 else 0
  activePanes := 1
  returnModePreferred := false
  returnModeEnabled := true
  pending := fun i => decide (i = 0)

/-- The cycle of the traced instance at global time 15 is 1.5. -/
theorem drain_cycle_15 : wrapProgress ((3 : ℚ)/2) 2 = 3/2 :=
  wrapProgress_eq_self (3/2) 2 (by norm_num) (by norm_num) (by norm_num)

theorem drainStart_eq : drainStart = drainStartN := by
  have hstep :
      (Planes.setCurveControlPoints (Planes.init 1 true 0 fun _ => 0) 0
        [paneCP, paneCP, paneCP, paneCP]).1 =
      { Planes.init 1 true 0 (fun _ => 0) with
          cp1 := upd4 (Planes.init 1 true 0 fun _ => 0).cp1 0 1 2 3 1
          cp2 := upd4 (Planes.init 1 true 0 fun _ => 0).cp2 0 2 3 1 2
          cp3 := upd4 (Planes.init 1 true 0 fun _ => 0).cp3 0 3 1 2 3
          visibleFlag :=
            updQ (Planes.init 1 true 0 fun _ => 0).visibleFlag 0 1 } := by
    rw [Planes.setCurveControlPoints, if_neg (by decide), if_neg (by decide)]
    rfl
  unfold drainStart
  rw [hstep]
  unfold Planes.setReturnMode Planes.update Planes.reconcileReturnMode
    Planes.setActivePaneCount Planes.init
  norm_num
  ext i
  · rfl
  · rfl
  · -- phase
    simp only [drainStartN]
    rw [if_neg]
    rintro ⟨-, -, hnot, -⟩
    rw [drain_cycle_15] at hnot
    norm_num at hnot
  · rfl
  · rfl
  · rfl
  · rfl
  · rfl
  · rfl
  · rfl
  · rfl
  · rfl
  · rfl
  · rfl
  · rfl
  · rfl
  · -- pending
    simp only [drainStartN]
    by_cases h0 : i = 0
    · subst h0
      rw [drain_cycle_15]
      norm_num [updQ]
    · simp [h0]

/-- Counterexample to C1 as stated: in this reachable state the
instance's pending flag is still set and its cycle (1.6) is still
strictly inside the return leg, yet `returnModeEnabled` has already
dropped to false — because the instance was hidden while pending, and
`hidePane` does not clear pending flags while `_reconcileReturnMode`
skips invisible instances.  The claim requires `returnModeEnabled` to
stay true until every pending flag is cleared, so this state refutes
it. -/
theorem c1_counterexample :
    c1CexState.pending 0 = true ∧
    c1CexState.returnModeEnabled = false ∧
    1 < wrapProgress (c1CexState.time * c1CexState.speed 0 +
      c1CexState.phase 0) 2 := by
  have hhide : Planes.hidePane drainStart 0 =
      { drainStartN with visibleFlag := updQ drainStartN.visibleFlag 0 0 } := by
    rw [drainStart_eq, Planes.hidePane, if_neg (by decide)]
    rfl
  have hcs : c1CexState = Planes.update
      { drainStartN with visibleFlag := updQ drainStartN.visibleFlag 0 0 } 1 := by
    unfold c1CexState
    rw [hhide]
  have hpref : ({ drainStartN with
      visibleFlag := updQ drainStartN.visibleFlag 0 0 } :
      Planes.State).returnModePreferred = false := rfl
  have hen : ({ drainStartN with
      visibleFlag := updQ drainStartN.visibleFlag 0 0 } :
      Planes.State).returnModeEnabled = true := rfl
  have hvis : updQ drainStartN.visibleFlag 0 0 0 < 1/2 := by
    show (0 : ℚ) < 1/2
    norm_num
  refine ⟨?_, ?_, ?_⟩
  · rw [hcs, update_pending_eq _ 1 hpref hen 0]
    rw [if_neg (by rintro ⟨-, hv, -⟩; exact hv hvis)]
    rfl
  · rw [hcs, update_enabled_eq _ 1 hpref hen]
    show ((List.range 1).any _) = false
    simp only [show List.range 1 = [0] from rfl, List.any_cons, List.any_nil,
      Bool.or_false]
    rw [decide_eq_true hvis]
    rfl
  · have htime : c1CexState.time = 16 := by
      rw [hcs, (update_fixed_fields _ 1).2.2.2.2.1]
      show (15 : ℚ) + 1 = 16
      norm_num
    have hspeed : c1CexState.speed 0 = 1/10 := by
      rw [hcs, (update_fixed_fields _ 1).2.2.1]
      rfl
    have hphase : c1CexState.phase 0 = 0 := by
      rw [hcs, update_phase_eq _ 1 hpref hen 0]
      rw [if_neg (by rintro ⟨-, hv⟩; exact hv hvis)]
      rfl
    rw [htime, hspeed, hphase]
    rw [show (16 : ℚ) * (1/10) + 0 = 8/5 by norm_num]
    rw [wrapProgress_eq_self (8/5) 2 (by norm_num) (by norm_num) (by norm_num)]
    norm_num

/-- Witness for the amended C1 at the concrete drain-phase state. -/
theorem c1_witness :
    (drainStart.returnModePreferred = false ∧
      drainStart.returnModeEnabled = true) ∧
    ((Planes.update drainStart 1).returnModeEnabled = true ↔
      ∃ i, i < drainStart.activePanes ∧ ¬ drainStart.visibleFlag i < 1/2 ∧
        (Planes.update drainStart 1).pending i = true) :=
  ⟨⟨by rw [drainStart_eq]; rfl, by rw [drainStart_eq]; rfl⟩,
    (c1_return_mode_drain drainStart 1 (by rw [drainStart_eq]; rfl)
      (by rw [drainStart_eq]; rfl)).1⟩

/-- C3 (concrete return-mode drain trace).  `drainStart` is the state of
a single active visible instance with speed 0.1 and phase 0 in
round-trip mode after a `setReturnMode(false)` request at global time 15
(cycle 1.5, mid return leg):
(i) the request set the instance's pending flag and left
`returnModeEnabled` true;
(ii) any update that keeps the global time below 20 changes nothing but
the time — in particular the pending flag stays set and the mode stays
enabled;
(iii) the update that takes the global time into `[20, 25]` (the cycle
wraps back to `time/10 - 2 ∈ [0, 1/2]`) clears the pending flag, drops
`returnModeEnabled` to false, and restarts the phase to
`(−time × speed) mod 2`. -/
theorem c3_concrete_drain_trace :
    (drainStart.pending 0 = true ∧ drainStart.returnModeEnabled = true ∧
      drainStart.time = 15 ∧ drainStart.speed 0 = 1/10 ∧
      drainStart.phase 0 = 0 ∧ drainStart.activePanes = 1) ∧
    (∀ t dt : ℚ, 15 ≤ t → 0 < dt → t + dt < 20 →
      Planes.update { drainStart with time := t } dt =
        { drainStart with time := t + dt }) ∧
    (∀ t dt : ℚ, 15 ≤ t → t < 20 → 20 ≤ t + dt → t + dt ≤ 25 →
      (Planes.update { drainStart with time := t } dt).pending 0 = false ∧
      (Planes.update { drainStart with time := t } dt).returnModeEnabled
        = false ∧
      (Planes.update { drainStart with time := t } dt).phase 0 =
        wrapProgress (-(t + dt) * (1/10)) 2 ∧
      (Planes.update { drainStart with time := t } dt).time = t + dt) := by
  rw [drainStart_eq]
  refine ⟨⟨rfl, rfl, rfl, rfl, rfl, rfl⟩, ?_, ?_⟩
  · intro t dt h1 h2 h3
    set sMid : Planes.State := { drainStartN with time := t } with hsMid
    have hpref : sMid.returnModePreferred = false := rfl
    have hen : sMid.returnModeEnabled = true := rfl
    have hspeed0 : sMid.speed 0 = 1/10 := rfl
    have hphase0 : sMid.phase 0 = 0 := rfl
    have htime : sMid.time = t := rfl
    have hcyc : wrapProgress ((sMid.time + dt) * sMid.speed 0 + sMid.phase 0) 2
        = (t + dt)/10 := by
      rw [htime, hspeed0, hphase0,
        show (t + dt) * ((1:ℚ)/10) + 0 = (t + dt)/10 by ring]
      exact wrapProgress_eq_self _ 2 (by norm_num) (by linarith) (by linarith)
    have hnle : ¬ wrapProgress ((sMid.time + dt) * sMid.speed 0 + sMid.phase 0) 2
        ≤ 1 - 1/10000 := by
      rw [hcyc]
      intro hle
      linarith
    have hfix := update_fixed_fields sMid dt
    refine Planes.State.ext ?_ ?_ ?_ ?_ ?_ ?_ ?_ ?_ ?_ ?_ ?_ ?_ ?_ ?_ ?_ ?_ ?_
    · exact hfix.2.2.2.2.2.1
    · rw [hfix.2.2.2.2.1]
    · funext i
      rw [update_phase_eq sMid dt hpref hen i]
      rcases Nat.eq_zero_or_pos i with h0 | hpos
      · subst h0
        rw [if_pos ⟨show (0:ℕ) < 1 by norm_num,
          show ¬ (1:ℚ) < 1/2 by norm_num⟩]
        rw [if_pos (show sMid.pending 0 = true from rfl)]
        rw [if_neg hnle]
      · rw [if_neg]
        rintro ⟨hlt, -⟩
        have : i < 1 := hlt
        omega
    · funext i
      exact congrFun hfix.2.2.1 i
    · funext i
      exact congrFun hfix.2.2.2.2.2.2.1 i
    · funext i
      exact congrFun hfix.2.1 i
    · funext i
      exact congrFun hfix.2.2.2.2.2.2.2.1 i
    · funext i
      exact congrFun hfix.2.2.2.2.2.2.2.2.1 i
    · funext i
      exact congrFun hfix.2.2.2.2.2.2.2.2.2.1 i
    · funext i
      exact congrFun hfix.2.2.2.2.2.2.2.2.2.2.1 i
    · funext i
      exact congrFun hfix.2.2.2.2.2.2.2.2.2.2.2.1 i
    · funext i
      exact congrFun hfix.2.2.2.2.2.2.2.2.2.2.2.2.1 i
    · funext i
      exact congrFun hfix.2.2.2.2.2.2.2.2.2.2.2.2.2 i
    · exact hfix.1
    · exact hfix.2.2.2.1
    · rw [update_enabled_eq sMid dt hpref hen]
      show ((List.range 1).any _) = true
      simp only [show List.range 1 = [0] from rfl, List.any_cons, List.any_nil,
        Bool.or_false]
      have hA : ¬ drainStartN.visibleFlag 0 < 1/2 := by
        show ¬ (1:ℚ) < 1/2
        norm_num
      have hC : ¬ wrapProgress ((t + dt) * drainStartN.speed 0 +
          drainStartN.phase 0) 2 ≤ 1 - 1/10000 := hnle
      rw [decide_eq_false hA, decide_eq_false hC]
      rfl
    · funext i
      rw [update_pending_eq sMid dt hpref hen i]
      rw [if_neg]
      rintro ⟨hlt, -, -, hle⟩
      have h1' : i < 1 := hlt
      have h0 : i = 0 := by omega
      subst h0
      exact hnle hle
  · intro t dt h1 h2 h3 h4
    set sMid : Planes.State := { drainStartN with time := t } with hsMid
    have hpref : sMid.returnModePreferred = false := rfl
    have hen : sMid.returnModeEnabled = true := rfl
    have hspeed0 : sMid.speed 0 = 1/10 := rfl
    have hphase0 : sMid.phase 0 = 0 := rfl
    have htime : sMid.time = t := rfl
    have hcyc : wrapProgress ((sMid.time + dt) * sMid.speed 0 + sMid.phase 0) 2
        = (t + dt)/10 - 2 := by
      rw [htime, hspeed0, hphase0,
        show (t + dt) * ((1:ℚ)/10) + 0 = ((t + dt)/10 - 2) + 2 * ((1 : ℤ) : ℚ)
          by push_cast; ring]
      rw [wrapProgress_int_shift _ 2 1 (by norm_num)]
      exact wrapProgress_eq_self _ 2 (by norm_num) (by linarith) (by linarith)
    have hle : wrapProgress ((sMid.time + dt) * sMid.speed 0 + sMid.phase 0) 2
        ≤ 1 - 1/10000 := by
      rw [hcyc]
      linarith
    refine ⟨?_, ?_, ?_, ?_⟩
    · rw [update_pending_eq sMid dt hpref hen 0]
      rw [if_pos ⟨show (0:ℕ) < 1 by norm_num, show ¬ (1:ℚ) < 1/2 by norm_num,
        rfl, hle⟩]
    · rw [update_enabled_eq sMid dt hpref hen]
      show ((List.range 1).any _) = false
      simp only [show List.range 1 = [0] from rfl, List.any_cons, List.any_nil,
        Bool.or_false]
      have hA : ¬ drainStartN.visibleFlag 0 < 1/2 := by
        show ¬ (1:ℚ) < 1/2
        norm_num
      have hC : wrapProgress ((t + dt) * drainStartN.speed 0 +
          drainStartN.phase 0) 2 ≤ 1 - 1/10000 := hle
      rw [decide_eq_false hA, decide_eq_true hC]
      rfl
    · rw [update_phase_eq sMid dt hpref hen 0]
      rw [if_pos ⟨show (0:ℕ) < 1 by norm_num,
        show ¬ (1:ℚ) < 1/2 by norm_num⟩]
      rw [if_pos (show sMid.pending 0 = true from rfl)]
      rw [if_pos hle, htime, hspeed0]
    · rw [(update_fixed_fields sMid dt).2.2.2.2.1, htime]

/-- Witness for C3: a mid-drain update at time 15 by 2.5 keeps the state
(up to time), and the update from 17.5 by 2.5 (reaching time 20) clears
the pending flag and disables the mode. -/
theorem c3_witness :
    ((15 : ℚ) ≤ 15 ∧ (0 : ℚ) < 5/2 ∧ (15 : ℚ) + 5/2 < 20 ∧
      (15 : ℚ) ≤ 35/2 ∧ (35 : ℚ)/2 < 20 ∧ (20 : ℚ) ≤ 35/2 + 5/2 ∧
      (35 : ℚ)/2 + 5/2 ≤ 25) ∧
    (Planes.update { drainStart with time := 15 } (5/2) =
      { drainStart with time := 15 + 5/2 }) ∧
    ((Planes.update { drainStart with time := 35/2 } (5/2)).pending 0 = false ∧
      (Planes.update { drainStart with time := 35/2 } (5/2)).returnModeEnabled
        = false ∧
      (Planes.update { drainStart with time := 35/2 } (5/2)).phase 0 =
        wrapProgress (-(35/2 + 5/2) * (1/10)) 2 ∧
      (Planes.update { drainStart with time := 35/2 } (5/2)).time
        = 35/2 + 5/2) :=
  ⟨⟨by norm_num, by norm_num, by norm_num, by norm_num, by norm_num,
      by norm_num, by norm_num⟩,
    c3_concrete_drain_trace.2.1 15 (5/2) (by norm_num) (by norm_num)
      (by norm_num),
    c3_concrete_drain_trace.2.2 (35/2) (5/2) (by norm_num) (by norm_num)
      (by norm_num) (by norm_num)⟩

namespace FlightM

/-- The speed-smoothing-relevant state of a `Flight`
(`src/flights/Flight.ts`): the active speed, the requested target, the
CPU-side animation clock, and the flags guarding `update`'s CPU path. -/
structure FlightState where
  animationSpeed : ℚ
  animationSpeedTarget : ℚ
  animationTime : ℚ
  isShaderBasedPanes : Bool
  hasCachedCurve : Bool
  returnFlight : Bool

/-- `Flight.setAnimationSpeed(speed, options)`: records the target, and
with `immediate` also jumps the active speed (the forwarding to the
merged renderer is external to this state). -/
def setAnimationSpeed (s : FlightState) (speed : ℚ) (immediate : Bool) :
    FlightState :=
  if immediate then
    { s with animationSpeedTarget := speed, animationSpeed := speed }
  else { s with animationSpeedTarget := speed }

/-- `Flight._applyAnimationSpeedSmoothing(deltaTime)`.  JS
`deltaTime ? Math.min(1, deltaTime * 6) : 1` is the factor; a difference
below 1e-5 snaps immediately, and after moving, a remainder below 1e-4
snaps to the target. -/
def applyAnimationSpeedSmoothing (s : FlightState) (deltaTime : ℚ) :
    FlightState :=
  if |s.animationSpeedTarget - s.animationSpeed| < 1/100000 then
    { s with animationSpeed := s.animationSpeedTarget }
  else if |s.animationSpeedTarget - (s.animationSpeed +
      (s.animationSpeedTarget - s.animationSpeed) *
        (if deltaTime = 0 then 1 else min 1 (deltaTime * 6)))| < 1/10000 then
    { s with animationSpeed := s.animationSpeedTarget }
  else
    { s with animationSpeed := s.animationSpeed +
        (s.animationSpeedTarget - s.animationSpeed) *
          (if deltaTime = 0 then 1 else min 1 (deltaTime * 6)) }

/-- `Flight.update(deltaTime)`: runs the speed smoothing, then (CPU
pane path only) advances the per-flight animation clock. -/
def flightUpdate (s : FlightState) (deltaTime : ℚ) : FlightState :=
  let s1 := applyAnimationSpeedSmoothing s deltaTime
  if s1.isShaderBasedPanes then s1
  else if s1.hasCachedCurve then
    { s1 with
        animationTime := s1.animationTime + deltaTime * s1.animationSpeed }
  else s1

end FlightM

/-- The per-update smoothed speed exactly as claim C9 words it: move by
the fraction `min(1, deltaTime × 6)` of the remaining difference, then
snap to the target once within 1e-4 of it. -/
def claimSmoothedSpeed (speed target deltaTime : ℚ) : ℚ :=
  if |target - (speed + (target - speed) * min 1 (deltaTime * 6))| < 1/10000
  then target
  else speed + (target - speed) * min 1 (deltaTime * 6)

theorem flightUpdate_speed (s : FlightM.FlightState) (dt : ℚ) :
    (FlightM.flightUpdate s dt).animationSpeed =
      (FlightM.applyAnimationSpeedSmoothing s dt).animationSpeed := by
  rw [FlightM.flightUpdate]
  by_cases h1 : (FlightM.applyAnimationSpeedSmoothing s dt).isShaderBasedPanes
  · simp [h1]
  · by_cases h2 : (FlightM.applyAnimationSpeedSmoothing s dt).hasCachedCurve
    · simp [h1, h2]
    · simp [h1, h2]

/-- Counterexample to C9 as stated: with active speed 0, target 1 and
`update(0)`, the claim's formula moves by the fraction
`min(1, 0 × 6) = 0` and so leaves the speed at 0, but the source treats
`deltaTime = 0` as falsy and uses factor 1, jumping the active speed all
the way to the target. -/
theorem c9_counterexample :
    (FlightM.applyAnimationSpeedSmoothing
      ⟨0, 1, 0, true, false, false⟩ 0).animationSpeed = 1 ∧
    claimSmoothedSpeed 0 1 0 = 0 := by
  constructor
  · norm_num [FlightM.applyAnimationSpeedSmoothing]
  · norm_num [claimSmoothedSpeed]

/-- C9 (amended).  For every positive `deltaTime`, `Flight.update`
moves the active speed exactly as the claim describes — by the fraction
`min(1, deltaTime × 6)` of the remaining difference, snapping once
within 1e-4 of the target (the source's extra 1e-5 pre-snap agrees with
this formula) — and `setAnimationSpeed` with `immediate` jumps the
active speed at once while without it only the target changes.  Only
`deltaTime = 0` behaves differently (see `c9_counterexample`). -/
theorem c9_speed_smoothing (s : FlightM.FlightState) (dt : ℚ)
    (hdt : 0 < dt) :
    (FlightM.flightUpdate s dt).animationSpeed =
      claimSmoothedSpeed s.animationSpeed s.animationSpeedTarget dt ∧
    (∀ target : ℚ,
      (FlightM.setAnimationSpeed s target true).animationSpeed = target ∧
      (FlightM.setAnimationSpeed s target true).animationSpeedTarget
        = target ∧
      (FlightM.setAnimationSpeed s target false).animationSpeed
        = s.animationSpeed ∧
      (FlightM.setAnimationSpeed s target false).animationSpeedTarget
        = target) := by
  constructor
  · rw [flightUpdate_speed]
    rw [FlightM.applyAnimationSpeedSmoothing, claimSmoothedSpeed]
    rw [if_neg (ne_of_gt hdt)]
    have hf1 : (0:ℚ) < min 1 (dt * 6) := lt_min (by norm_num) (by linarith)
    have hf2 : min 1 (dt * 6) ≤ 1 := min_le_left _ _
    by_cases hsmall :
        |s.animationSpeedTarget - s.animationSpeed| < 1/100000
    · rw [if_pos hsmall]
      rw [if_pos ?hsnap]
      case hsnap =>
        have hrw : s.animationSpeedTarget - (s.animationSpeed +
            (s.animationSpeedTarget - s.animationSpeed) * min 1 (dt * 6)) =
            (s.animationSpeedTarget - s.animationSpeed) *
              (1 - min 1 (dt * 6)) := by ring
        rw [hrw, abs_mul]
        have h1 : |1 - min 1 (dt * 6)| = 1 - min 1 (dt * 6) :=
          abs_of_nonneg (by linarith)
        rw [h1]
        nlinarith [abs_nonneg (s.animationSpeedTarget - s.animationSpeed)]
    · rw [if_neg hsmall]
      by_cases hsnap : |s.animationSpeedTarget - (s.animationSpeed +
          (s.animationSpeedTarget - s.animationSpeed) * min 1 (dt * 6))|
          < 1/10000
      · rw [if_pos hsnap, if_pos hsnap]
      · rw [if_neg hsnap, if_neg hsnap]
  · intro target
    refine ⟨?_, ?_, ?_, ?_⟩ <;>
      simp [FlightM.setAnimationSpeed]

/-- Witness for the amended C9 at a concrete state and `deltaTime`. -/
theorem c9_witness :
    (0 : ℚ) < 1/12 ∧
    (FlightM.flightUpdate ⟨1/10, 1/2, 0, true, false, false⟩
        (1/12)).animationSpeed =
      claimSmoothedSpeed (1/10) (1/2) (1/12) :=
  ⟨by norm_num,
    (c9_speed_smoothing ⟨1/10, 1/2, 0, true, false, false⟩ (1/12)
      (by norm_num)).1⟩

/-- Wrapping `a + wrapProgress (b - a) p` recovers `wrapProgress b p`:
the re-derived phase cancels the time term exactly. -/
theorem wrapProgress_add_wrap (a b p : ℚ) (hp : 0 < p) :
    wrapProgress (a + wrapProgress (b - a) p) p = wrapProgress b p := by
  rw [wrapProgress_eq (b - a) p hp]
  have h : a + (b - a - p * ⌊(b - a) / p⌋) = b + p * ((-⌊(b - a) / p⌋ : ℤ) : ℚ) := by
    push_cast; ring
  rw [h, wrapProgress_int_shift b p (-⌊(b - a) / p⌋) hp]

/-- C2 (speed-change continuity of `PlanesShader.setAnimationSpeed`):
for an in-range index, the wrapped progress
`(time × speed + phase) mod period` — with period 2 in round-trip mode
and 1 otherwise — is exactly the same before and after the call (hence
within the 1e-4 tolerance), the call stores the new speed, and the phase
is re-derived as `(currentProgress − time × newSpeed) mod period`. -/
theorem c2_setAnimationSpeed_continuity (s : Planes.State) (index : ℤ)
    (newSpeed : ℚ) (h0 : 0 ≤ index) (h1 : index < (s.maxPanes : ℤ)) :
    (Planes.setAnimationSpeed s index newSpeed).time = s.time ∧
    ((Planes.setAnimationSpeed s index newSpeed).speed index.toNat = newSpeed) ∧
    ((Planes.setAnimationSpeed s index newSpeed).phase index.toNat =
      wrapProgress
        (wrapProgress (s.time * s.speed index.toNat + s.phase index.toNat)
            (if s.returnModeEnabled then 2 else 1) -
          s.time * newSpeed)
        (if s.returnModeEnabled then 2 else 1)) ∧
    (wrapProgress
        ((Planes.setAnimationSpeed s index newSpeed).time *
            (Planes.setAnimationSpeed s index newSpeed).speed index.toNat +
          (Planes.setAnimationSpeed s index newSpeed).phase index.toNat)
        (if s.returnModeEnabled then 2 else 1) =
      wrapProgress (s.time * s.speed index.toNat + s.phase index.toNat)
        (if s.returnModeEnabled then 2 else 1)) ∧
    |wrapProgress
        ((Planes.setAnimationSpeed s index newSpeed).time *
            (Planes.setAnimationSpeed s index newSpeed).speed index.toNat +
          (Planes.setAnimationSpeed s index newSpeed).phase index.toNat)
        (if s.returnModeEnabled then 2 else 1) -
      wrapProgress (s.time * s.speed index.toNat + s.phase index.toNat)
        (if s.returnModeEnabled then 2 else 1)| < 1/10000 := by
  have hguard : ¬ (index < 0 ∨ (s.maxPanes : ℤ) ≤ index) := by
    push_neg
    exact ⟨h0, h1⟩
  have hp : (0 : ℚ) < if s.returnModeEnabled then 2 else 1 := by
    by_cases h : s.returnModeEnabled <;> simp [h]
  set p : ℚ := if s.returnModeEnabled then 2 else 1 with hpdef
  have hupd :
      Planes.setAnimationSpeed s index newSpeed =
        { s with
            speed := updQ s.speed index.toNat newSpeed
            phase := updQ s.phase index.toNat
              (wrapProgress
                (wrapProgress (s.time * s.speed index.toNat + s.phase index.toNat) p -
                  s.time * newSpeed) p) } := by
    rw [Planes.setAnimationSpeed, if_neg hguard]
  rw [hupd]
  refine ⟨rfl, by simp [updQ], by simp [updQ], ?_, ?_⟩
  · simp only [updQ, if_pos]
    rw [wrapProgress_add_wrap (s.time * newSpeed)
      (wrapProgress (s.time * s.speed index.toNat + s.phase index.toNat) p) p hp]
    rw [wrapProgress_eq_self _ p hp
      (wrapProgress_nonneg _ p hp) (wrapProgress_lt _ p hp)]
  · simp only [updQ, if_pos]
    rw [wrapProgress_add_wrap (s.time * newSpeed)
      (wrapProgress (s.time * s.speed index.toNat + s.phase index.toNat) p) p hp]
    rw [wrapProgress_eq_self _ p hp
      (wrapProgress_nonneg _ p hp) (wrapProgress_lt _ p hp)]
    simp only [sub_self, abs_zero]
    norm_num

/-- Witness for C2 at a concrete state and index. -/
theorem c2_witness :
    ((0 : ℤ) ≤ 0 ∧ (0 : ℤ) < ((Planes.init 2 false 0 fun _ => 0).maxPanes : ℤ)) ∧
    ((Planes.setAnimationSpeed (Planes.init 2 false 0 fun _ => 0) 0 3).speed
        (0 : ℤ).toNat = 3) :=
  ⟨⟨by decide, by decide⟩,
    (c2_setAnimationSpeed_continuity (Planes.init 2 false 0 fun _ => 0) 0 3
      (by decide) (by decide)).2.1⟩

namespace Geom

/-- A three.js `Vector3` over the reals (JS numbers are modelled as
exact reals in the geometry pipeline). -/
structure Vec3 where
  x : ℝ
  y : ℝ
  z : ℝ

namespace Vec3

def add (a b : Vec3) : Vec3 := ⟨a.x + b.x, a.y + b.y, a.z + b.z⟩

def sub (a b : Vec3) : Vec3 := ⟨a.x - b.x, a.y - b.y, a.z - b.z⟩

def smul (k : ℝ) (a : Vec3) : Vec3 := ⟨k * a.x, k * a.y, k * a.z⟩

def dot (a b : Vec3) : ℝ := a.x * b.x + a.y * b.y + a.z * b.z

def cross (a b : Vec3) : Vec3 :=
  ⟨a.y * b.z - a.z * b.y, a.z * b.x - a.x * b.z, a.x * b.y - a.y * b.x⟩

def lengthSq (a : Vec3) : ℝ := dot a a

noncomputable def length (a : Vec3) : ℝ := Real.sqrt (lengthSq a)

noncomputable def distanceToSquared (a b : Vec3) : ℝ := lengthSq (sub a b)

/-- three.js `normalize()`: `divideScalar(this.length() || 1)` — the
zero vector is left unchanged. -/
noncomputable def normalizeJS (a : Vec3) : Vec3 :=
  smul (1 / (if length a = 0 then 1 else length a)) a

/-- three.js `lerp(v, alpha)`. -/
def lerp (a b : Vec3) (alpha : ℝ) : Vec3 := add a (smul alpha (sub b a))

end Vec3

def zero3 : Vec3 := ⟨0, 0, 0⟩

/-- `latLngToVector3` from `src/common/Utils.ts`: spherical conversion
followed by the `(x, y, z) ↦ (z, y, -x)` remap compensating the globe's
−90° rotation about the vertical axis. -/
noncomputable def latLngToVector3 (lat lng radius : ℝ) : Vec3 :=
  let phi := ((90 - lat) * Real.pi) / 180
  let theta := ((-lng + 180) * Real.pi) / 180
  let x := radius * Real.sin phi * Real.cos theta
  let y := radius * Real.cos phi
  let z := radius * Real.sin phi * Real.sin theta
  ⟨z, y, -x⟩

/-- The projection exactly as the spec words it: polar angle
`(90 − lat)·π/180`, azimuth `(180 − lng)·π/180`, standard
spherical-to-Cartesian conversion, then the axis remap
`(x, y, z) ↦ (z, y, −x)`. -/
noncomputable def specGeoProjection (lat lng radius : ℝ) : Vec3 :=
  let phi := ((90 - lat) * Real.pi) / 180
  let theta := ((180 - lng) * Real.pi) / 180
  let p : Vec3 := ⟨radius * Real.sin phi * Real.cos theta,
    radius * Real.cos phi, radius * Real.sin phi * Real.sin theta⟩
  ⟨p.z, p.y, -p.x⟩

/-- `FlightUtils.cloneControlPoints` (clones are identity in a
value-based model). -/
def cloneControlPoints (points : List Vec3) : List Vec3 := points.map id

/-- `FlightUtils.ensureMinimumCurveAltitude`: points with
`0 < length < radius + minAltitude` are renormalized to length
`radius + minAltitude`; all others (including the zero vector) are
returned unchanged. -/
noncomputable def ensureMinimumCurveAltitude (points : List Vec3)
    (radius minAltitude : ℝ) : List Vec3 :=
  points.map fun point =>
    if 0 < Vec3.length point ∧ Vec3.length point < radius + minAltitude then
      Vec3.smul (radius + minAltitude) (Vec3.normalizeJS point)
    else point

/-- three.js `CubicPoly` state. -/
structure CubicPoly where
  c0 : ℝ
  c1 : ℝ
  c2 : ℝ
  c3 : ℝ

def cpCalc (p : CubicPoly) (t : ℝ) : ℝ :=
  p.c0 + p.c1 * t + p.c2 * t ^ 2 + p.c3 * t ^ 3

/-- three.js `CubicPoly.init(x0, x1, t0, t1)` (Hermite form). -/
def cpInit (x0 x1 t0 t1 : ℝ) : CubicPoly :=
  ⟨x0, t0, -3 * x0 + 3 * x1 - 2 * t0 - t1, 2 * x0 - 2 * x1 + t0 + t1⟩

/-- three.js `CubicPoly.initNonuniformCatmullRom`. -/
noncomputable def cpInitNonuniform (x0 x1 x2 x3 dt0 dt1 dt2 : ℝ) :
    CubicPoly :=
  let t1 := ((x1 - x0) / dt0 - (x2 - x0) / (dt0 + dt1) + (x2 - x1) / dt1) * dt1
  let t2 := ((x2 - x1) / dt1 - (x3 - x1) / (dt1 + dt2) + (x3 - x2) / dt2) * dt1
  cpInit x1 x2 t1 t2

/-- three.js `CatmullRomCurve3.getPoint(t)` for an open curve with the
default `centripetal` type (`pow = 0.25` on squared distances, with the
1e-4 knot fallbacks), as constructed by `FlightUtils` and `Curves`. -/
noncomputable def crGetPoint (points : List Vec3) (t : ℝ) : Vec3 :=
  let l := points.length
  let p := ((l : ℝ) - 1) * t
  let ip0 : ℤ := ⌊p⌋
  let w0 := p - ip0
  let ip : ℤ := if w0 = 0 ∧ ip0 = (l : ℤ) - 1 then (l : ℤ) - 2 else ip0
  let w : ℝ := if w0 = 0 ∧ ip0 = (l : ℤ) - 1 then 1 else w0
  let p0 := if 0 < ip then points.getD ((ip - 1).toNat % l) zero3
    else Vec3.add (Vec3.sub (points.getD 0 zero3) (points.getD 1 zero3))
      (points.getD 0 zero3)
  let p1 := points.getD (ip.toNat % l) zero3
  let p2 := points.getD ((ip + 1).toNat % l) zero3
  let p3 := if ip + 2 < (l : ℤ) then points.getD ((ip + 2).toNat % l) zero3
    else Vec3.add (Vec3.sub (points.getD (l - 1) zero3)
      (points.getD (l - 2) zero3)) (points.getD (l - 1) zero3)
  let dt0' := Real.rpow (Vec3.distanceToSquared p0 p1) 0.25
  let dt1' := Real.rpow (Vec3.distanceToSquared p1 p2) 0.25
  let dt2' := Real.rpow (Vec3.distanceToSquared p2 p3) 0.25
  let dt1 := if dt1' < 1/10000 then 1 else dt1'
  let dt0 := if dt0' < 1/10000 then dt1 else dt0'
  let dt2 := if dt2' < 1/10000 then dt1 else dt2'
  ⟨cpCalc (cpInitNonuniform p0.x p1.x p2.x p3.x dt0 dt1 dt2) w,
   cpCalc (cpInitNonuniform p0.y p1.y p2.y p3.y dt0 dt1 dt2) w,
   cpCalc (cpInitNonuniform p0.z p1.z p2.z p3.z dt0 dt1 dt2) w⟩

/-- three.js `Curve.getPoints(divisions)`. -/
noncomputable def crGetPoints (points : List Vec3) (divisions : ℕ) :
    List Vec3 :=
  (List.range (divisions + 1)).map fun d => crGetPoint points ((d : ℝ) / divisions)

/-- `FlightUtils.normalizeControlPoints`: a 4-point input only gets the
altitude floor; otherwise a centripetal Catmull-Rom through the input is
sampled at 0, 0.333, 0.666, 1 and then floored. -/
noncomputable def normalizeControlPoints (points : List Vec3)
    (radius minAltitude : ℝ) : List Vec3 :=
  let sourcePoints := if points.length ≠ 0 then cloneControlPoints points else []
  if sourcePoints.length = 4 then
    ensureMinimumCurveAltitude sourcePoints radius minAltitude
  else if sourcePoints.length = 0 then []
  else
    let sampled := [crGetPoint sourcePoints 0, crGetPoint sourcePoints 0.333,
      crGetPoint sourcePoints 0.666, crGetPoint sourcePoints 1]
    ensureMinimumCurveAltitude sampled radius minAltitude

/-- A geographic coordinate pair. -/
structure Geolocation where
  lat : ℝ
  lng : ℝ

/-- `FlightUtils.generateParabolicControlPoints`.  `rnd1`/`rnd2` stand
for the `randomDirection()` fallbacks taken only when departure and
arrival project to (nearly) the same point. -/
noncomputable def generateParabolicControlPoints (departure arrival : Geolocation)
    (radius takeoffOffset minCurveAltitude minCruiseAltitude
      maxCruiseAltitude : ℝ) (rnd1 rnd2 : Vec3) : List Vec3 :=
  let surfaceOffset := max takeoffOffset minCurveAltitude
  let cruiseMin := max minCruiseAltitude (surfaceOffset + 5)
  let origin := latLngToVector3 departure.lat departure.lng radius
  let destination := latLngToVector3 arrival.lat arrival.lng radius
  let startSurface := Vec3.smul (radius + surfaceOffset) (Vec3.normalizeJS origin)
  let endSurface :=
    Vec3.smul (radius + surfaceOffset) (Vec3.normalizeJS destination)
  let distance := Vec3.length (Vec3.sub startSurface endSurface)
  let maxDistance := radius * Real.pi
  let distFrac := min (distance / (maxDistance * 0.3)) 1
  let cruiseAltitude :=
    cruiseMin + (maxCruiseAltitude - cruiseMin) * Real.rpow distFrac 0.7
  let climbPoint1 := Vec3.smul (radius + cruiseAltitude * 0.4)
    (Vec3.normalizeJS (Vec3.lerp startSurface endSurface 0.2))
  let climbPoint2 := Vec3.smul (radius + cruiseAltitude * 0.75)
    (Vec3.normalizeJS (Vec3.lerp startSurface endSurface 0.35))
  let cruisePeak := Vec3.smul (radius + cruiseAltitude * 0.85)
    (Vec3.normalizeJS (Vec3.lerp startSurface endSurface 0.5))
  let descentPoint1 := Vec3.smul (radius + cruiseAltitude * 0.75)
    (Vec3.normalizeJS (Vec3.lerp startSurface endSurface 0.65))
  let descentPoint2 := Vec3.smul (radius + cruiseAltitude * 0.4)
    (Vec3.normalizeJS (Vec3.lerp startSurface endSurface 0.8))
  let startNormal := Vec3.normalizeJS startSurface
  let pathDirStart0 := Vec3.sub endSurface startSurface
  let pathDirStart :=
    if Vec3.lengthSq pathDirStart0 < 1/1000000 then rnd1 else pathDirStart0
  let tangentStart0 := Vec3.sub pathDirStart
    (Vec3.smul (Vec3.dot pathDirStart startNormal) startNormal)
  let tangentStart1 :=
    if Vec3.lengthSq tangentStart0 < 1/1000000 then
      (if Vec3.lengthSq (Vec3.cross startNormal ⟨0, 1, 0⟩) < 1/1000000 then
        (⟨1, 0, 0⟩ : Vec3)
      else Vec3.cross startNormal ⟨0, 1, 0⟩)
    else tangentStart0
  let tangentStart := Vec3.normalizeJS tangentStart1
  let tangentDistance := radius * 0.08
  let surfaceLength := Vec3.length startSurface
  let startTangentPoint := Vec3.smul surfaceLength (Vec3.normalizeJS
    (Vec3.add startSurface (Vec3.smul tangentDistance tangentStart)))
  let endNormal := Vec3.normalizeJS endSurface
  let pathDirEnd0 := Vec3.sub startSurface endSurface
  let pathDirEnd :=
    if Vec3.lengthSq pathDirEnd0 < 1/1000000 then rnd2 else pathDirEnd0
  let tangentEnd0 := Vec3.sub pathDirEnd
    (Vec3.smul (Vec3.dot pathDirEnd endNormal) endNormal)
  let tangentEnd1 :=
    if Vec3.lengthSq tangentEnd0 < 1/1000000 then
      (if Vec3.lengthSq (Vec3.cross endNormal ⟨0, 1, 0⟩) < 1/1000000 then
        (⟨1, 0, 0⟩ : Vec3)
      else Vec3.cross endNormal ⟨0, 1, 0⟩)
    else tangentEnd0
  let tangentEnd := Vec3.normalizeJS tangentEnd1
  let endSurfaceLength := Vec3.length endSurface
  let endTangentPoint := Vec3.smul endSurfaceLength (Vec3.normalizeJS
    (Vec3.add endSurface (Vec3.smul tangentDistance tangentEnd)))
  let controlPoints := [startSurface, startTangentPoint, climbPoint1,
    climbPoint2, cruisePeak, descentPoint1, descentPoint2, endTangentPoint,
    endSurface]
  ensureMinimumCurveAltitude controlPoints radius minCurveAltitude

end Geom

theorem getD_map_lt {α β : Type} (f : α → β) (l : List α) (i : ℕ)
    (h : i < l.length) (d : β) (d' : α) :
    (l.map f).getD i d = f (l.getD i d') := by
  rw [List.getD_eq_getElem?_getD, List.getD_eq_getElem?_getD,
    List.getElem?_map, List.getElem?_eq_getElem h]
  rfl

theorem Vec3.lengthSq_nonneg (a : Geom.Vec3) : 0 ≤ Geom.Vec3.lengthSq a := by
  unfold Geom.Vec3.lengthSq Geom.Vec3.dot
  nlinarith [sq_nonneg a.x, sq_nonneg a.y, sq_nonneg a.z]

theorem Vec3.length_nonneg (a : Geom.Vec3) : 0 ≤ Geom.Vec3.length a :=
  Real.sqrt_nonneg _

theorem Vec3.length_smul (k : ℝ) (a : Geom.Vec3) :
    Geom.Vec3.length (Geom.Vec3.smul k a) = |k| * Geom.Vec3.length a := by
  unfold Geom.Vec3.length Geom.Vec3.lengthSq Geom.Vec3.dot Geom.Vec3.smul
  rw [show k * a.x * (k * a.x) + k * a.y * (k * a.y) + k * a.z * (k * a.z) =
    k ^ 2 * (a.x * a.x + a.y * a.y + a.z * a.z) by ring]
  rw [Real.sqrt_mul (sq_nonneg k), Real.sqrt_sq_eq_abs]

theorem Vec3.length_zero3 : Geom.Vec3.length Geom.zero3 = 0 := by
  unfold Geom.Vec3.length Geom.Vec3.lengthSq Geom.Vec3.dot Geom.zero3
  norm_num

theorem Vec3.smul_smul (k k' : ℝ) (a : Geom.Vec3) :
    Geom.Vec3.smul k (Geom.Vec3.smul k' a) = Geom.Vec3.smul (k * k') a := by
  simp only [Geom.Vec3.smul, Geom.Vec3.mk.injEq]
  refine ⟨by ring, by ring, by ring⟩

/-- `normalizeControlPoints` on a 4-point input is just the altitude
floor. -/
theorem normalize_four_eq (pts : List Geom.Vec3) (r alt : ℝ)
    (hlen : pts.length = 4) :
    Geom.normalizeControlPoints pts r alt =
      Geom.ensureMinimumCurveAltitude pts r alt := by
  have hne : pts.length ≠ 0 := by omega
  have hclone : Geom.cloneControlPoints pts = pts := List.map_id pts
  unfold Geom.normalizeControlPoints
  rw [if_pos hne, hclone, if_pos hlen]

/-- One entry of `ensureMinimumCurveAltitude`. -/
theorem ensureMin_getD (pts : List Geom.Vec3) (r alt : ℝ) (i : ℕ)
    (h : i < pts.length) :
    (Geom.ensureMinimumCurveAltitude pts r alt).getD i Geom.zero3 =
      if 0 < Geom.Vec3.length (pts.getD i Geom.zero3) ∧
          Geom.Vec3.length (pts.getD i Geom.zero3) < r + alt then
        Geom.Vec3.smul (r + alt)
          (Geom.Vec3.normalizeJS (pts.getD i Geom.zero3))
      else pts.getD i Geom.zero3 := by
  unfold Geom.ensureMinimumCurveAltitude
  exact getD_map_lt _ pts i h Geom.zero3 Geom.zero3

/-- C8 (geographic projection): `latLngToVector3` coincides everywhere
with the projection exactly as the spec words it — polar angle
`(90 − lat)·π/180`, azimuth `(180 − lng)·π/180`, standard
spherical-to-Cartesian conversion, then the `(x, y, z) ↦ (z, y, −x)`
axis remap compensating the −90° rotation about the vertical axis. -/
theorem c8_geographic_projection (lat lng radius : ℝ) :
    Geom.latLngToVector3 lat lng radius =
      Geom.specGeoProjection lat lng radius := by
  unfold Geom.latLngToVector3 Geom.specGeoProjection
  rw [show (-lng + 180) = (180 - lng) by ring]

/-- Counterexample to C7 as stated: the zero vector is below the
altitude floor (`0 < 3 + 2`) but `normalizeControlPoints` on an
already-4-point input returns it unchanged at distance 0, not pushed to
distance `radius + minAltitude = 5`. -/
theorem c7_counterexample :
    (Geom.normalizeControlPoints
      [Geom.zero3, Geom.zero3, Geom.zero3, Geom.zero3] 3 2).getD 0 Geom.zero3
      = Geom.zero3 ∧
    Geom.Vec3.length Geom.zero3 < 3 + 2 ∧
    Geom.Vec3.length Geom.zero3 ≠ 3 + 2 := by
  refine ⟨?_, ?_, ?_⟩
  · rw [normalize_four_eq _ 3 2 (by norm_num)]
    rw [ensureMin_getD _ 3 2 0 (by norm_num)]
    rw [if_neg (by
      rintro ⟨h0, -⟩
      rw [show ([Geom.zero3, Geom.zero3, Geom.zero3,
          Geom.zero3].getD 0 Geom.zero3) = Geom.zero3 from rfl,
        Vec3.length_zero3] at h0
      exact lt_irrefl 0 h0)]
    rfl
  · rw [Vec3.length_zero3]; norm_num
  · rw [Vec3.length_zero3]; norm_num

/-- C7 (amended): `normalizeControlPoints` on an already-4-point input
returns 4 points in the same order with only the altitude floor
enforced: a point already at distance ≥ `radius + minAltitude` is
unchanged, and a point with distance strictly between 0 and the floor is
pushed radially outward (a positive multiple of itself) to distance
exactly `radius + minAltitude`.  The zero vector (distance 0) is the one
below-floor point that is not pushed (see `c7_counterexample` and claim
C10). -/
theorem c7_normalize_four_points (pts : List Geom.Vec3)
    (radius minAltitude : ℝ) (hlen : pts.length = 4) :
    (Geom.normalizeControlPoints pts radius minAltitude).length = 4 ∧
    ∀ i, i < 4 →
      (radius + minAltitude ≤ Geom.Vec3.length (pts.getD i Geom.zero3) →
        (Geom.normalizeControlPoints pts radius minAltitude).getD i Geom.zero3
          = pts.getD i Geom.zero3) ∧
      (0 < Geom.Vec3.length (pts.getD i Geom.zero3) →
        Geom.Vec3.length (pts.getD i Geom.zero3) < radius + minAltitude →
        (Geom.normalizeControlPoints pts radius minAltitude).getD i Geom.zero3
            = Geom.Vec3.smul
              ((radius + minAltitude) / Geom.Vec3.length (pts.getD i Geom.zero3))
              (pts.getD i Geom.zero3) ∧
          0 < (radius + minAltitude) / Geom.Vec3.length (pts.getD i Geom.zero3) ∧
          Geom.Vec3.length
            ((Geom.normalizeControlPoints pts radius minAltitude).getD i
              Geom.zero3) = radius + minAltitude) := by
  rw [normalize_four_eq pts radius minAltitude hlen]
  constructor
  · unfold Geom.ensureMinimumCurveAltitude
    rw [List.length_map, hlen]
  · intro i hi
    have hilt : i < pts.length := by omega
    constructor
    · intro habove
      rw [ensureMin_getD pts radius minAltitude i hilt]
      rw [if_neg]
      rintro ⟨-, hlt⟩
      linarith
    · intro h0 hlt
      have hlen0 : Geom.Vec3.length (pts.getD i Geom.zero3) ≠ 0 :=
        ne_of_gt h0
      have hrw : (Geom.ensureMinimumCurveAltitude pts radius
          minAltitude).getD i Geom.zero3 =
          Geom.Vec3.smul
            ((radius + minAltitude) / Geom.Vec3.length (pts.getD i Geom.zero3))
            (pts.getD i Geom.zero3) := by
        rw [ensureMin_getD pts radius minAltitude i hilt, if_pos ⟨h0, hlt⟩]
        unfold Geom.Vec3.normalizeJS
        rw [if_neg hlen0, Vec3.smul_smul]
        rw [show (radius + minAltitude) *
          (1 / Geom.Vec3.length (pts.getD i Geom.zero3)) =
          (radius + minAltitude) / Geom.Vec3.length (pts.getD i Geom.zero3)
          by ring]
      have hcpos : 0 < (radius + minAltitude) /
          Geom.Vec3.length (pts.getD i Geom.zero3) := by
        apply div_pos (by linarith) h0
      refine ⟨hrw, hcpos, ?_⟩
      rw [hrw, Vec3.length_smul, abs_of_pos hcpos]
      exact div_mul_cancel₀ _ hlen0

/-- Witness for the amended C7 at a concrete 4-point list. -/
theorem c7_witness :
    ([(⟨5, 0, 0⟩ : Geom.Vec3), ⟨0, 3, 0⟩, ⟨0, 0, 6⟩,
        ⟨4, 3, 0⟩] : List Geom.Vec3).length = 4 ∧
    (Geom.normalizeControlPoints
      [⟨5, 0, 0⟩, ⟨0, 3, 0⟩, ⟨0, 0, 6⟩, ⟨4, 3, 0⟩] 3 2).length = 4 :=
  ⟨rfl,
    (c7_normalize_four_points
      [⟨5, 0, 0⟩, ⟨0, 3, 0⟩, ⟨0, 0, 6⟩, ⟨4, 3, 0⟩] 3 2 rfl).1⟩

/-- C10 (implicit altitude-floor edge case): `ensureMinimumCurveAltitude`
leaves a zero-length point unchanged — the floor is enforced only for
points with `0 < distance < radius + minAltitude` — so
`normalizeControlPoints` (and `generateParabolicControlPoints`, which
also finish with `ensureMinimumCurveAltitude`) do not guarantee the
minimum-distance floor for every input point: the zero vector stays at
distance 0 below a positive floor. -/
theorem c10_zero_point_not_lifted (pts : List Geom.Vec3)
    (radius minAltitude : ℝ) (i : ℕ) (hi : i < pts.length)
    (hz : pts.getD i Geom.zero3 = Geom.zero3) :
    (Geom.ensureMinimumCurveAltitude pts radius minAltitude).getD i Geom.zero3
      = Geom.zero3 ∧
    (pts.length = 4 →
      (Geom.normalizeControlPoints pts radius minAltitude).getD i Geom.zero3
        = Geom.zero3) ∧
    (0 < radius + minAltitude →
      Geom.Vec3.length
        ((Geom.ensureMinimumCurveAltitude pts radius minAltitude).getD i
          Geom.zero3) < radius + minAltitude) := by
  have hmain : (Geom.ensureMinimumCurveAltitude pts radius
      minAltitude).getD i Geom.zero3 = Geom.zero3 := by
    rw [ensureMin_getD pts radius minAltitude i hi, hz]
    rw [if_neg]
    rintro ⟨h0, -⟩
    rw [Vec3.length_zero3] at h0
    exact lt_irrefl 0 h0
  refine ⟨hmain, ?_, ?_⟩
  · intro hlen
    rw [normalize_four_eq pts radius minAltitude hlen]
    exact hmain
  · intro hpos
    rw [hmain, Vec3.length_zero3]
    exact hpos

namespace CurvesM

/-- Truncation toward zero on the reals (JS `%` on numbers). -/
noncomputable def jsTruncR (x : ℝ) : ℤ :=
  if 0 ≤ x then ⌊x⌋ else -⌊-x⌋

/-- JavaScript `a % b` on real-modelled numbers. -/
noncomputable def jsModR (a b : ℝ) : ℝ :=
  a - b * (jsTruncR (a / b) : ℤ)

/-- three.js `MathUtils.euclideanModulo(n, m) = ((n % m) + m) % m`. -/
noncomputable def euclideanModulo (n m : ℝ) : ℝ :=
  jsModR (jsModR n m + m) m

/-- three.js `MathUtils.clamp(value, min, max)`. -/
noncomputable def clampR (value lo hi : ℝ) : ℝ :=
  max lo (min value hi)

/-- three.js `hue2rgb` helper of `Color.setHSL`. -/
noncomputable def hue2rgb (p q t : ℝ) : ℝ :=
  let t1 := if t < 0 then t + 1 else t
  let t2 := if 1 < t1 then t1 - 1 else t1
  if t2 < 1/6 then p + (q - p) * 6 * t2
  else if t2 < 1/2 then q
  else if t2 < 2/3 then p + (q - p) * 6 * (2/3 - t2)
  else p

/-- three.js `Color.setHSL` as an RGB triple. -/
noncomputable def setHSL (h s l : ℝ) : ℝ × ℝ × ℝ :=
  let h1 := euclideanModulo h 1
  let s1 := clampR s 0 1
  let l1 := clampR l 0 1
  if s1 = 0 then (l1, l1, l1)
  else
    let p := if l1 ≤ 1/2 then l1 * (1 + s1) else l1 + s1 - l1 * s1
    let q := 2 * l1 - p
    (hue2rgb q p (h1 + 1/3), hue2rgb q p h1, hue2rgb q p (h1 - 1/3))

/-- three.js `Color.setHex` as an RGB triple (for `new Color(number)`). -/
noncomputable def hexToRGB (n : ℕ) : ℝ × ℝ × ℝ :=
  ((((n / 65536) % 256 : ℕ) : ℝ) / 255, (((n / 256) % 256 : ℕ) : ℝ) / 255,
    ((n % 256 : ℕ) : ℝ) / 255)

/-- The `color` argument of `Curves.setCurve`:
`number | THREE.Color | GradientColorConfig`. -/
inductive ColorSpec where
  | num (n : ℕ)
  | rgb (r g b : ℝ)
  | gradient (departureLat departureLng : ℝ)

/-- `GradientParams` of `Curves`. -/
structure GradientParams where
  hue : ℝ
  saturation : ℝ
  lightnessStart : ℝ
  lightnessEnd : ℝ

/-- `Curves._computeGradientParams`: gradient colors directly carry the
departure; otherwise the metadata's departure is used; otherwise no
gradient. -/
noncomputable def computeGradientParams (color : ColorSpec)
    (metadata : Option Geom.Geolocation) : Option GradientParams :=
  let source : Option Geom.Geolocation :=
    match color with
    | ColorSpec.gradient lat lng => some ⟨lat, lng⟩
    | _ => metadata
  match source with
  | none => none
  | some dep =>
    let hue := euclideanModulo (dep.lng + 180) 360 / 360
    let latFactor := min (|dep.lat| / 90) 1
    let saturation := clampR (6/10 + 3/10 * (1 - latFactor)) 0 1
    some ⟨hue, saturation, 35/100, 75/100⟩

/-- `Curves._resolveSolidColor`. -/
noncomputable def resolveSolidColor (color : ColorSpec) : ℝ × ℝ × ℝ :=
  match color with
  | ColorSpec.rgb r g b => (r, g, b)
  | ColorSpec.num n => hexToRGB n
  | ColorSpec.gradient _ _ => hexToRGB 0x4488ff

/-- `Curves._getColorForProgress`. -/
noncomputable def getColorForProgress (params : GradientParams)
    (progress : ℝ) : ℝ × ℝ × ℝ :=
  let clampedProgress := clampR progress 0 1
  let lightness := clampR (params.lightnessStart +
    (params.lightnessEnd - params.lightnessStart) * clampedProgress) 0 1
  setHSL params.hue params.saturation lightness

/-- A `CurveData` slot record of `Curves`. -/
structure CurveSlotData where
  controlPoints : List Geom.Vec3
  color : ColorSpec
  visible : Bool
  metadata : Option Geom.Geolocation

/-- CPU-visible state of `Curves` (`src/curves/Curves.ts`).  The
pre-allocated `Float32Array`s are modelled as total functions; the draw
range is the `(start, count)` pair passed to `setDrawRange`. -/
structure State where
  maxCurves : ℕ
  segmentsPerCurve : ℕ
  verticesPerCurve : ℕ
  dashSize : ℝ
  gapSize : ℝ
  positions : ℕ → ℝ
  colors : ℕ → ℝ
  lineDistances : ℕ → ℝ
  currentCurveCount : ℕ
  needsPositionUpdate : Bool
  needsColorUpdate : Bool
  needsLineDistanceUpdate : Bool
  curveData : ℕ → CurveSlotData
  drawStart : ℕ
  drawCount : ℕ

/-- Constructor plus `initialize()`.  A zero option models an absent
value for the `||`-defaulted numeric options. -/
noncomputable def init (maxCurvesOpt segmentsOpt : ℕ) (dashSize gapSize : ℝ) :
    State where
  maxCurves := if maxCurvesOpt = 0 then 1000 else maxCurvesOpt
  segmentsPerCurve := if segmentsOpt = 0 then 100 else segmentsOpt
  verticesPerCurve := (if segmentsOpt = 0 then 100 else segmentsOpt) * 2
  dashSize := dashSize
  gapSize := gapSize
  positions := fun _ => 0
  colors := fun _ => 0
  lineDistances := fun _ => 0
  currentCurveCount := 0
  needsPositionUpdate := false
  needsColorUpdate := false
  needsLineDistanceUpdate := false
  curveData := fun _ => ⟨[], ColorSpec.num 0xffffff, false, none⟩
  drawStart := 0
  drawCount := 0

/-- Overwrite `count` entries of a flattened buffer starting at `base`
with values given by the local offset. -/
def writeSeg (f : ℕ → ℝ) (base count : ℕ) (g : ℕ → ℝ) : ℕ → ℝ :=
  fun n => if base ≤ n ∧ n < base + count then g (n - base) else f n

/-- Cumulative arc length of the sampled polyline: `polyDist pts k` is
the running distance after `k` sample points. -/
noncomputable def polyDist (pts : List Geom.Vec3) : ℕ → ℝ
  | 0 => 0
  | k + 1 => polyDist pts k +
      Geom.Vec3.length (Geom.Vec3.sub (pts.getD k Geom.zero3)
        (pts.getD (k + 1) Geom.zero3))

/-- `Curves._applyColorToCurve(curveIndex)`: recomputes the per-vertex
colors of one slot (gradient keyed by departure, else solid). -/
noncomputable def applyColorToCurve (s : State) (curveIndex : ℕ) : State :=
  if s.maxCurves ≤ curveIndex then s
  else
    let cd := s.curveData curveIndex
    if cd.visible = false then s
    else
      let gparams := computeGradientParams cd.color cd.metadata
      let vertexOffset := curveIndex * s.verticesPerCurve
      let colors' := writeSeg s.colors (vertexOffset * 3)
        (s.verticesPerCurve * 3) fun k =>
          let v := k / 3
          let c := k % 3
          match gparams with
          | some gp =>
            let progress := ((v / 2 + v % 2 : ℕ) : ℝ) / (s.segmentsPerCurve : ℝ)
            let col := getColorForProgress gp progress
            if c = 0 then col.1 else if c = 1 then col.2.1 else col.2.2
          | none =>
            let col := resolveSolidColor cd.color
            if c = 0 then col.1 else if c = 1 then col.2.1 else col.2.2
      { s with colors := colors', needsColorUpdate := true }

/-- `Curves.setCurve(curveIndex, controlPoints, color, metadata)`.  The
boolean records whether `console.warn` fired (it does for both an
out-of-range index and an insufficient point list). -/
noncomputable def setCurve (s : State) (curveIndex : ℤ)
    (controlPoints : List Geom.Vec3) (color : ColorSpec)
    (metadata : Option Geom.Geolocation) : State × Bool :=
  if curveIndex < 0 ∨ (s.maxCurves : ℤ) ≤ curveIndex then (s, true)
  else if controlPoints.length < 2 then (s, true)
  else
    let i := curveIndex.toNat
    let cd : CurveSlotData := ⟨controlPoints, color, true, metadata⟩
    let pts := Geom.crGetPoints controlPoints s.segmentsPerCurve
    let vertexOffset := i * s.verticesPerCurve
    let positions' := writeSeg s.positions (vertexOffset * 3)
      (s.verticesPerCurve * 3) fun k =>
        let v := k / 3
        let c := k % 3
        let pt := pts.getD (v / 2 + v % 2) Geom.zero3
        if c = 0 then pt.x else if c = 1 then pt.y else pt.z
    let lineDistances' := writeSeg s.lineDistances vertexOffset
      s.verticesPerCurve fun k => polyDist pts (k / 2 + k % 2)
    let sA := { s with
      curveData := fun j => if j = i then cd else s.curveData j
      positions := positions'
      lineDistances := lineDistances' }
    let sB := applyColorToCurve sA i
    let sC := { sB with
      needsPositionUpdate := true
      needsLineDistanceUpdate := true }
    if s.currentCurveCount ≤ i then
      ({ sC with
          currentCurveCount := i + 1
          drawStart := 0
          drawCount := (i + 1) * s.verticesPerCurve }, false)
    else (sC, false)

/-- `Curves.hideCurve(curveIndex)`: zeroes the slot's positions and arc
lengths and clears its visibility; an out-of-range index returns
silently (second component false: no warning is ever logged here). -/
noncomputable def hideCurve (s : State) (curveIndex : ℤ) : State × Bool :=
  if curveIndex < 0 ∨ (s.maxCurves : ℤ) ≤ curveIndex then (s, false)
  else
    let i := curveIndex.toNat
    ({ s with
        curveData := fun j =>
          if j = i then { s.curveData i with visible := false }
          else s.curveData j
        positions := writeSeg s.positions (i * s.verticesPerCurve * 3)
          (s.verticesPerCurve * 3) fun _ => 0
        lineDistances := writeSeg s.lineDistances (i * s.verticesPerCurve)
          s.verticesPerCurve fun _ => 0
        needsPositionUpdate := true
        needsLineDistanceUpdate := true }, false)

/-- `Curves.setVisibleCurveCount(count)` followed by
`updateDrawRange()`. -/
def setVisibleCurveCount (s : State) (count : ℕ) : State :=
  { s with
      currentCurveCount := min count s.maxCurves
      drawStart := 0
      drawCount := min count s.maxCurves * s.verticesPerCurve }

/-- The operations of claim C4. -/
inductive Op where
  | set (curveIndex : ℤ) (controlPoints : List Geom.Vec3) (color : ColorSpec)
      (metadata : Option Geom.Geolocation)
  | hide (curveIndex : ℤ)
  | setVisible (count : ℕ)

noncomputable def step (s : State) (op : Op) : State :=
  match op with
  | Op.set i pts c md => (setCurve s i pts c md).1
  | Op.hide i => (hideCurve s i).1
  | Op.setVisible n => setVisibleCurveCount s n

end CurvesM

/-- `_applyColorToCurve` only touches the color buffer and its dirty
flag. -/
theorem applyColor_proj (s : CurvesM.State) (i : ℕ) :
    (CurvesM.applyColorToCurve s i).drawStart = s.drawStart ∧
    (CurvesM.applyColorToCurve s i).drawCount = s.drawCount ∧
    (CurvesM.applyColorToCurve s i).currentCurveCount = s.currentCurveCount ∧
    (CurvesM.applyColorToCurve s i).maxCurves = s.maxCurves ∧
    (CurvesM.applyColorToCurve s i).verticesPerCurve = s.verticesPerCurve := by
  by_cases h1 : s.maxCurves ≤ i
  · simp [CurvesM.applyColorToCurve, h1]
  · by_cases h2 : (s.curveData i).visible = false <;>
      simp [CurvesM.applyColorToCurve, h1, h2]

/-- Draw-range projection of `_applyColorToCurve`. -/
theorem applyColor_drawStart (s : CurvesM.State) (i : ℕ) :
    (CurvesM.applyColorToCurve s i).drawStart = s.drawStart :=
  (applyColor_proj s i).1

/-- Draw-count projection of `_applyColorToCurve`. -/
theorem applyColor_drawCount (s : CurvesM.State) (i : ℕ) :
    (CurvesM.applyColorToCurve s i).drawCount = s.drawCount :=
  (applyColor_proj s i).2.1

/-- Visible-count projection of `_applyColorToCurve`. -/
theorem applyColor_currentCurveCount (s : CurvesM.State) (i : ℕ) :
    (CurvesM.applyColorToCurve s i).currentCurveCount =
      s.currentCurveCount :=
  (applyColor_proj s i).2.2.1

/-- Capacity projection of `_applyColorToCurve`. -/
theorem applyColor_maxCurves (s : CurvesM.State) (i : ℕ) :
    (CurvesM.applyColorToCurve s i).maxCurves = s.maxCurves :=
  (applyColor_proj s i).2.2.2.1

/-- Vertices-per-curve projection of `_applyColorToCurve`. -/
theorem applyColor_verticesPerCurve (s : CurvesM.State) (i : ℕ) :
    (CurvesM.applyColorToCurve s i).verticesPerCurve =
      s.verticesPerCurve :=
  (applyColor_proj s i).2.2.2.2

/-- One step of claim C4's operations preserves the draw-range
invariant. -/
theorem c4_inv_step (s : CurvesM.State) (op : CurvesM.Op)
    (h0 : s.drawStart = 0)
    (h1 : s.drawCount = s.currentCurveCount * s.verticesPerCurve)
    (h2 : s.currentCurveCount ≤ s.maxCurves) :
    (CurvesM.step s op).drawStart = 0 ∧
    (CurvesM.step s op).drawCount =
      (CurvesM.step s op).currentCurveCount *
        (CurvesM.step s op).verticesPerCurve ∧
    (CurvesM.step s op).currentCurveCount ≤ (CurvesM.step s op).maxCurves := by
  cases op with
  | set i pts c md =>
    simp only [CurvesM.step]
    by_cases hg1 : i < 0 ∨ (s.maxCurves : ℤ) ≤ i
    · rw [CurvesM.setCurve, if_pos hg1]
      exact ⟨h0, h1, h2⟩
    · by_cases hg2 : pts.length < 2
      · rw [CurvesM.setCurve, if_neg hg1, if_pos hg2]
        exact ⟨h0, h1, h2⟩
      · have hilt : i.toNat < s.maxCurves := by
          rcases not_or.mp hg1 with ⟨hn1, hn2⟩
          omega
        simp only [CurvesM.setCurve, if_neg hg1, if_neg hg2]
        by_cases hc : s.currentCurveCount ≤ i.toNat
        · rw [if_pos hc]
          refine ⟨rfl, ?_, ?_⟩
          · simp [applyColor_verticesPerCurve]
          · simp only [applyColor_maxCurves]
            omega
        · rw [if_neg hc]
          refine ⟨?_, ?_, ?_⟩ <;>
            simp [applyColor_drawStart, applyColor_drawCount,
              applyColor_currentCurveCount, applyColor_maxCurves,
              applyColor_verticesPerCurve, h0, h1, h2]
  | hide i =>
    simp only [CurvesM.step]
    by_cases hg : i < 0 ∨ (s.maxCurves : ℤ) ≤ i
    · rw [CurvesM.hideCurve, if_pos hg]
      exact ⟨h0, h1, h2⟩
    · rw [CurvesM.hideCurve, if_neg hg]
      exact ⟨h0, h1, h2⟩
  | setVisible n =>
    refine ⟨rfl, rfl, ?_⟩
    show min n s.maxCurves ≤ s.maxCurves
    exact min_le_right n s.maxCurves

/-- C4 (draw-range invariant of the batched curve renderer): after any
sequence of `setCurve`, `hideCurve` and `setVisibleCurveCount` calls
from a fresh renderer, the submitted draw range is the contiguous
vertex prefix `[0, visibleCurveCount × verticesPerCurve)` (never a
sparse selection: the range always starts at 0), it never exceeds
`maxCurves × verticesPerCurve` vertices, and `setVisibleCurveCount`
always sets the visible curve count to `min(count, maxCurves)`. -/
theorem c4_draw_range_invariant :
    (∀ (maxCurvesOpt segmentsOpt : ℕ) (dash gap : ℝ)
        (ops : List CurvesM.Op),
      (ops.foldl CurvesM.step
        (CurvesM.init maxCurvesOpt segmentsOpt dash gap)).drawStart = 0 ∧
      (ops.foldl CurvesM.step
        (CurvesM.init maxCurvesOpt segmentsOpt dash gap)).drawCount =
        (ops.foldl CurvesM.step
          (CurvesM.init maxCurvesOpt segmentsOpt dash gap)).currentCurveCount *
        (ops.foldl CurvesM.step
          (CurvesM.init maxCurvesOpt segmentsOpt dash gap)).verticesPerCurve ∧
      (ops.foldl CurvesM.step
        (CurvesM.init maxCurvesOpt segmentsOpt dash gap)).currentCurveCount ≤
        (ops.foldl CurvesM.step
          (CurvesM.init maxCurvesOpt segmentsOpt dash gap)).maxCurves ∧
      (ops.foldl CurvesM.step
        (CurvesM.init maxCurvesOpt segmentsOpt dash gap)).drawCount ≤
        (ops.foldl CurvesM.step
          (CurvesM.init maxCurvesOpt segmentsOpt dash gap)).maxCurves *
        (ops.foldl CurvesM.step
          (CurvesM.init maxCurvesOpt segmentsOpt dash gap)).verticesPerCurve) ∧
    (∀ (s : CurvesM.State) (count : ℕ),
      (CurvesM.setVisibleCurveCount s count).currentCurveCount =
        min count s.maxCurves) := by
  constructor
  · intro maxCurvesOpt segmentsOpt dash gap ops
    have hind : ∀ (l : List CurvesM.Op) (s : CurvesM.State),
        s.drawStart = 0 →
        s.drawCount = s.currentCurveCount * s.verticesPerCurve →
        s.currentCurveCount ≤ s.maxCurves →
        (l.foldl CurvesM.step s).drawStart = 0 ∧
        (l.foldl CurvesM.step s).drawCount =
          (l.foldl CurvesM.step s).currentCurveCount *
            (l.foldl CurvesM.step s).verticesPerCurve ∧
        (l.foldl CurvesM.step s).currentCurveCount ≤
          (l.foldl CurvesM.step s).maxCurves := by
      intro l
      induction l with
      | nil => exact fun s h0 h1 h2 => ⟨h0, h1, h2⟩
      | cons op rest ih =>
        intro s h0 h1 h2
        rw [List.foldl_cons]
        obtain ⟨g0, g1, g2⟩ := c4_inv_step s op h0 h1 h2
        exact ih _ g0 g1 g2
    obtain ⟨g0, g1, g2⟩ :=
      hind ops (CurvesM.init maxCurvesOpt segmentsOpt dash gap) rfl
        (Nat.zero_mul _).symm (Nat.zero_le _)
    refine ⟨g0, g1, g2, ?_⟩
    rw [g1]
    exact Nat.mul_le_mul_right _ g2
  · intro s count
    rfl

/-- Counterexample to C6 as stated: out-of-range indices in
`Curves.hideCurve` and `PlanesShader.setCurveControlPoints` are silent
no-ops — the operations return without logging any warning (second
component `false`), although the claim requires a warning to be logged
for every out-of-range slot index. -/
theorem c6_counterexample :
    (((CurvesM.init 0 0 0 0).maxCurves : ℤ) ≤ 1000 ∧
      CurvesM.hideCurve (CurvesM.init 0 0 0 0) 1000 =
        (CurvesM.init 0 0 0 0, false)) ∧
    (((Planes.init 1 false 0 fun _ => 0).maxPanes : ℤ) ≤ 5 ∧
      Planes.setCurveControlPoints (Planes.init 1 false 0 fun _ => 0) 5
        [⟨1, 1, 1⟩, ⟨1, 1, 1⟩, ⟨1, 1, 1⟩, ⟨1, 1, 1⟩] =
        (Planes.init 1 false 0 fun _ => 0, false)) := by
  refine ⟨⟨?_, ?_⟩, ?_, ?_⟩
  · show ((1000 : ℕ) : ℤ) ≤ 1000
    norm_num
  · rw [CurvesM.hideCurve, if_pos (Or.inr (by show ((1000:ℕ):ℤ) ≤ 1000; norm_num))]
  · show ((1 : ℕ) : ℤ) ≤ 5
    norm_num
  · rw [Planes.setCurveControlPoints,
      if_pos (Or.inr (by show ((1:ℕ):ℤ) ≤ 5; norm_num))]

/-- C6 (amended error-handling contract): for the slot-indexed
operations named by the claim, an out-of-range index or an insufficient
control-point list is always non-fatal and a no-op that leaves every
piece of caller-visible state unchanged.  `Curves.setCurve` logs a
warning in both error cases; `PlanesShader.setCurveControlPoints` logs
a warning for an insufficient control-point list but returns silently
for an out-of-range index, and `Curves.hideCurve` returns silently for
an out-of-range index (see `c6_counterexample`). -/
theorem c6_error_no_ops :
    (∀ (s : CurvesM.State) (i : ℤ) (pts : List Geom.Vec3)
        (c : CurvesM.ColorSpec) (md : Option Geom.Geolocation),
      (i < 0 ∨ (s.maxCurves : ℤ) ≤ i) →
        CurvesM.setCurve s i pts c md = (s, true)) ∧
    (∀ (s : CurvesM.State) (i : ℤ) (pts : List Geom.Vec3)
        (c : CurvesM.ColorSpec) (md : Option Geom.Geolocation),
      0 ≤ i → i < (s.maxCurves : ℤ) → pts.length < 2 →
        CurvesM.setCurve s i pts c md = (s, true)) ∧
    (∀ (s : CurvesM.State) (i : ℤ),
      (i < 0 ∨ (s.maxCurves : ℤ) ≤ i) →
        CurvesM.hideCurve s i = (s, false)) ∧
    (∀ (s : Planes.State) (i : ℤ) (pts : List Vec3Q),
      (i < 0 ∨ (s.maxPanes : ℤ) ≤ i) →
        Planes.setCurveControlPoints s i pts = (s, false)) ∧
    (∀ (s : Planes.State) (i : ℤ) (pts : List Vec3Q),
      0 ≤ i → i < (s.maxPanes : ℤ) → pts.length < 4 →
        Planes.setCurveControlPoints s i pts = (s, true)) := by
  refine ⟨?_, ?_, ?_, ?_, ?_⟩
  · intro s i pts c md h
    rw [CurvesM.setCurve, if_pos h]
  · intro s i pts c md h0 h1 h2
    rw [CurvesM.setCurve, if_neg (by push_neg; exact ⟨h0, h1⟩), if_pos h2]
  · intro s i h
    rw [CurvesM.hideCurve, if_pos h]
  · intro s i pts h
    rw [Planes.setCurveControlPoints, if_pos h]
  · intro s i pts h0 h1 h2
    rw [Planes.setCurveControlPoints, if_neg (by push_neg; exact ⟨h0, h1⟩),
      if_pos h2]

/-- Witness for the amended C6 at concrete states and indices. -/
theorem c6_witness :
    (((1000 : ℤ) < 0 ∨ ((CurvesM.init 0 0 0 0).maxCurves : ℤ) ≤ 1000) ∧
      ((5 : ℤ) < 0 ∨ ((Planes.init 1 false 0 fun _ => 0).maxPanes : ℤ) ≤ 5) ∧
      (0 : ℤ) ≤ 0 ∧ (0 : ℤ) < ((Planes.init 1 false 0 fun _ => 0).maxPanes : ℤ) ∧
      ([] : List Vec3Q).length < 4) ∧
    CurvesM.setCurve (CurvesM.init 0 0 0 0) 1000 [] (CurvesM.ColorSpec.num 0)
      none = (CurvesM.init 0 0 0 0, true) ∧
    CurvesM.hideCurve (CurvesM.init 0 0 0 0) 1000 =
      (CurvesM.init 0 0 0 0, false) ∧
    Planes.setCurveControlPoints (Planes.init 1 false 0 fun _ => 0) 5 [] =
      (Planes.init 1 false 0 fun _ => 0, false) ∧
    Planes.setCurveControlPoints (Planes.init 1 false 0 fun _ => 0) 0 [] =
      (Planes.init 1 false 0 fun _ => 0, true) :=
  ⟨⟨Or.inr (by show ((1000:ℕ):ℤ) ≤ 1000; norm_num),
    Or.inr (by show ((1:ℕ):ℤ) ≤ 5; norm_num),
    by norm_num, by show (0:ℤ) < ((1:ℕ):ℤ); norm_num, by norm_num⟩,
    c6_error_no_ops.1 (CurvesM.init 0 0 0 0) 1000 []
      (CurvesM.ColorSpec.num 0) none
      (Or.inr (by show ((1000:ℕ):ℤ) ≤ 1000; norm_num)),
    c6_error_no_ops.2.2.1 (CurvesM.init 0 0 0 0) 1000
      (Or.inr (by show ((1000:ℕ):ℤ) ≤ 1000; norm_num)),
    c6_error_no_ops.2.2.2.1 (Planes.init 1 false 0 fun _ => 0) 5 []
      (Or.inr (by show ((1:ℕ):ℤ) ≤ 5; norm_num)),
    c6_error_no_ops.2.2.2.2 (Planes.init 1 false 0 fun _ => 0) 0 []
      (by norm_num) (by show (0:ℤ) < ((1:ℕ):ℤ); norm_num) (by norm_num)⟩

/-- Witness for C10 at a concrete list containing the origin. -/
theorem c10_witness :
    ((0 : ℕ) < ([Geom.zero3] : List Geom.Vec3).length ∧
      ([Geom.zero3] : List Geom.Vec3).getD 0 Geom.zero3 = Geom.zero3) ∧
    (Geom.ensureMinimumCurveAltitude [Geom.zero3] 3000 20).getD 0 Geom.zero3
      = Geom.zero3 :=
  ⟨⟨by norm_num, rfl⟩,
    (c10_zero_point_not_lifted [Geom.zero3] 3000 20 0 (by norm_num) rfl).1⟩

/-- Inner products commute. -/
theorem Vec3.dot_comm (a b : Geom.Vec3) :
    Geom.Vec3.dot a b = Geom.Vec3.dot b a := by
  unfold Geom.Vec3.dot
  ring

/-- The inner product is additive on the left. -/
theorem Vec3.dot_add_left (a b c : Geom.Vec3) :
    Geom.Vec3.dot (Geom.Vec3.add a b) c =
      Geom.Vec3.dot a c + Geom.Vec3.dot b c := by
  unfold Geom.Vec3.dot Geom.Vec3.add
  ring

/-- The inner product is subtractive on the left. -/
theorem Vec3.dot_sub_left (a b c : Geom.Vec3) :
    Geom.Vec3.dot (Geom.Vec3.sub a b) c =
      Geom.Vec3.dot a c - Geom.Vec3.dot b c := by
  unfold Geom.Vec3.dot Geom.Vec3.sub
  ring

/-- Scalars pull out of the inner product on the left. -/
theorem Vec3.dot_smul_left (k : ℝ) (a b : Geom.Vec3) :
    Geom.Vec3.dot (Geom.Vec3.smul k a) b = k * Geom.Vec3.dot a b := by
  unfold Geom.Vec3.dot Geom.Vec3.smul
  ring

/-- The inner product is additive on the right. -/
theorem Vec3.dot_add_right (a b c : Geom.Vec3) :
    Geom.Vec3.dot a (Geom.Vec3.add b c) =
      Geom.Vec3.dot a b + Geom.Vec3.dot a c := by
  unfold Geom.Vec3.dot Geom.Vec3.add
  ring

/-- The inner product is subtractive on the right. -/
theorem Vec3.dot_sub_right (a b c : Geom.Vec3) :
    Geom.Vec3.dot a (Geom.Vec3.sub b c) =
      Geom.Vec3.dot a b - Geom.Vec3.dot a c := by
  unfold Geom.Vec3.dot Geom.Vec3.sub
  ring

/-- Scalars pull out of the inner product on the right. -/
theorem Vec3.dot_smul_right (k : ℝ) (a b : Geom.Vec3) :
    Geom.Vec3.dot a (Geom.Vec3.smul k b) = k * Geom.Vec3.dot a b := by
  unfold Geom.Vec3.dot Geom.Vec3.smul
  ring

/-- Cauchy–Schwarz for the `Vector3` inner product (Lagrange form). -/
theorem Vec3.dot_sq_le (a b : Geom.Vec3) :
    Geom.Vec3.dot a b ^ 2 ≤
      Geom.Vec3.lengthSq a * Geom.Vec3.lengthSq b := by
  unfold Geom.Vec3.lengthSq Geom.Vec3.dot
  nlinarith [sq_nonneg (a.x * b.y - a.y * b.x), sq_nonneg (a.x * b.z - a.z * b.x),
    sq_nonneg (a.y * b.z - a.z * b.y)]

/-- The squared norm is the square of the norm. -/
theorem Vec3.length_sq_eq (a : Geom.Vec3) :
    Geom.Vec3.length a ^ 2 = Geom.Vec3.lengthSq a :=
  Real.sq_sqrt (Vec3.lengthSq_nonneg a)

/-- Cauchy–Schwarz in norm form. -/
theorem Vec3.abs_dot_le (a b : Geom.Vec3) :
    |Geom.Vec3.dot a b| ≤ Geom.Vec3.length a * Geom.Vec3.length b := by
  rw [show |Geom.Vec3.dot a b| = Real.sqrt (Geom.Vec3.dot a b ^ 2) from
    (Real.sqrt_sq_eq_abs _).symm]
  calc Real.sqrt (Geom.Vec3.dot a b ^ 2)
      ≤ Real.sqrt (Geom.Vec3.lengthSq a * Geom.Vec3.lengthSq b) :=
        Real.sqrt_le_sqrt (Vec3.dot_sq_le a b)
    _ = Geom.Vec3.length a * Geom.Vec3.length b :=
        Real.sqrt_mul (Vec3.lengthSq_nonneg a) _

/-- A vector with a positive inner product against anything is itself
away from the origin. -/
theorem Vec3.length_pos_of_dot_pos (a b : Geom.Vec3)
    (h : 0 < Geom.Vec3.dot a b) : 0 < Geom.Vec3.length a := by
  have hls : 0 < Geom.Vec3.lengthSq a := by
    by_contra hns
    push_neg at hns
    have h0 : Geom.Vec3.lengthSq a = 0 :=
      le_antisymm hns (Vec3.lengthSq_nonneg a)
    have hx : a.x = 0 ∧ a.y = 0 ∧ a.z = 0 := by
      unfold Geom.Vec3.lengthSq Geom.Vec3.dot at h0
      refine ⟨?_, ?_, ?_⟩ <;> nlinarith [sq_nonneg a.x, sq_nonneg a.y, sq_nonneg a.z]
    have : Geom.Vec3.dot a b = 0 := by
      unfold Geom.Vec3.dot
      rw [hx.1, hx.2.1, hx.2.2]
      ring
    linarith
  exact Real.sqrt_pos.mpr hls

/-- `normalize()` is an explicit rescale for a vector of known nonzero
norm. -/
theorem Vec3.normalizeJS_eq (a : Geom.Vec3) (m : ℝ)
    (hm : Geom.Vec3.length a = m) (h0 : m ≠ 0) :
    Geom.Vec3.normalizeJS a = Geom.Vec3.smul (1 / m) a := by
  rw [Geom.Vec3.normalizeJS, hm, if_neg h0]

/-- `normalize()` of a vector away from the origin is a unit vector. -/
theorem Vec3.length_normalizeJS (a : Geom.Vec3)
    (h : Geom.Vec3.length a ≠ 0) :
    Geom.Vec3.length (Geom.Vec3.normalizeJS a) = 1 := by
  rw [Vec3.normalizeJS_eq a (Geom.Vec3.length a) rfl h, Vec3.length_smul]
  have hpos : 0 < Geom.Vec3.length a :=
    lt_of_le_of_ne (Vec3.length_nonneg a) (Ne.symm h)
  rw [abs_of_pos (by positivity)]
  field_simp

/-- `normalize()` never produces a vector longer than 1 (the zero
vector stays at 0). -/
theorem Vec3.length_normalizeJS_le_one (a : Geom.Vec3) :
    Geom.Vec3.length (Geom.Vec3.normalizeJS a) ≤ 1 := by
  by_cases h : Geom.Vec3.length a = 0
  · rw [Geom.Vec3.normalizeJS, if_pos h, Vec3.length_smul, h]
    norm_num
  · rw [Vec3.length_normalizeJS a h]

/-- Reverse triangle inequality for the `Vector3` norm. -/
theorem Vec3.length_add_lower (a b : Geom.Vec3) :
    Geom.Vec3.length a - Geom.Vec3.length b ≤
      Geom.Vec3.length (Geom.Vec3.add a b) := by
  have habs := abs_le.mp (Vec3.abs_dot_le a b)
  have h1 : (Geom.Vec3.length a - Geom.Vec3.length b) ^ 2 ≤
      Geom.Vec3.lengthSq (Geom.Vec3.add a b) := by
    have hexp : Geom.Vec3.lengthSq (Geom.Vec3.add a b) =
        Geom.Vec3.lengthSq a + 2 * Geom.Vec3.dot a b +
          Geom.Vec3.lengthSq b := by
      unfold Geom.Vec3.lengthSq Geom.Vec3.dot Geom.Vec3.add
      ring
    rw [hexp, ← Vec3.length_sq_eq a, ← Vec3.length_sq_eq b]
    nlinarith [habs.1]
  calc Geom.Vec3.length a - Geom.Vec3.length b
      ≤ |Geom.Vec3.length a - Geom.Vec3.length b| := le_abs_self _
    _ = Real.sqrt ((Geom.Vec3.length a - Geom.Vec3.length b) ^ 2) :=
        (Real.sqrt_sq_eq_abs _).symm
    _ ≤ Real.sqrt (Geom.Vec3.lengthSq (Geom.Vec3.add a b)) :=
        Real.sqrt_le_sqrt h1
    _ = Geom.Vec3.length (Geom.Vec3.add a b) := rfl

/-- Two-sided bounds on a square root from bounds on the radicand. -/
theorem sqrtBounds (x a b : ℝ) (ha : 0 ≤ a) (hb : 0 ≤ b)
    (h1 : a ^ 2 ≤ x) (h2 : x ≤ b ^ 2) :
    a ≤ Real.sqrt x ∧ Real.sqrt x ≤ b :=
  ⟨by
    calc a = Real.sqrt (a ^ 2) := (Real.sqrt_sq ha).symm
      _ ≤ Real.sqrt x := Real.sqrt_le_sqrt h1,
   by
    calc Real.sqrt x ≤ Real.sqrt (b ^ 2) := Real.sqrt_le_sqrt h2
      _ = b := Real.sqrt_sq hb⟩

/-- Two-sided bounds on a `Vector3` norm from bounds on its squared
norm. -/
theorem lengthBounds (v : Geom.Vec3) (a b : ℝ) (ha : 0 ≤ a) (hb : 0 ≤ b)
    (h1 : a ^ 2 ≤ Geom.Vec3.lengthSq v) (h2 : Geom.Vec3.lengthSq v ≤ b ^ 2) :
    a ≤ Geom.Vec3.length v ∧ Geom.Vec3.length v ≤ b :=
  sqrtBounds _ a b ha hb h1 h2

/-- Cubic Taylor window for the sine over a subinterval of `[0, 1]`. -/
theorem sinWindow (x a b : ℝ) (hax : a ≤ x) (hxb : x ≤ b) (ha : 0 ≤ a)
    (hb : b ≤ 1) :
    a - b ^ 3 / 6 - b ^ 4 * (5 / 96) ≤ Real.sin x ∧
      Real.sin x ≤ b - a ^ 3 / 6 + b ^ 4 * (5 / 96) := by
  have hx0 : 0 ≤ x := le_trans ha hax
  have habs : |x| ≤ 1 := by
    rw [abs_of_nonneg hx0]
    linarith
  have h := Real.sin_bound habs
  rw [abs_of_nonneg hx0] at h
  have h' := abs_le.mp h
  have hx3 : x ^ 3 ≤ b ^ 3 := pow_le_pow_left hx0 hxb 3
  have hx3' : a ^ 3 ≤ x ^ 3 := pow_le_pow_left ha hax 3
  have hx4 : x ^ 4 ≤ b ^ 4 := pow_le_pow_left hx0 hxb 4
  have hx40 : 0 ≤ x ^ 4 := by positivity
  exact ⟨by linarith [h'.1], by linarith [h'.2]⟩

/-- Quadratic Taylor window for the cosine over a subinterval of
`[0, 1]`. -/
theorem cosWindow (x a b : ℝ) (hax : a ≤ x) (hxb : x ≤ b) (ha : 0 ≤ a)
    (hb : b ≤ 1) :
    1 - b ^ 2 / 2 - b ^ 4 * (5 / 96) ≤ Real.cos x ∧
      Real.cos x ≤ 1 - a ^ 2 / 2 + b ^ 4 * (5 / 96) := by
  have hx0 : 0 ≤ x := le_trans ha hax
  have habs : |x| ≤ 1 := by
    rw [abs_of_nonneg hx0]
    linarith
  have h := Real.cos_bound habs
  rw [abs_of_nonneg hx0] at h
  have h' := abs_le.mp h
  have hx2 : x ^ 2 ≤ b ^ 2 := pow_le_pow_left hx0 hxb 2
  have hx2' : a ^ 2 ≤ x ^ 2 := pow_le_pow_left ha hax 2
  have hx4 : x ^ 4 ≤ b ^ 4 := pow_le_pow_left hx0 hxb 4
  have hx40 : 0 ≤ x ^ 4 := by positivity
  exact ⟨by linarith [h'.1], by linarith [h'.2]⟩

/-- The double-angle cosine in terms of the sine. -/
theorem cosDoubleSin (x : ℝ) :
    Real.cos (2 * x) = 1 - 2 * Real.sin x ^ 2 := by
  rw [Real.cos_two_mul]
  have h := Real.sin_sq_add_cos_sq x
  linarith

namespace Scen

/-- Departure surface point of the C5 scenario (lat 37.6, lng −122.4,
radius 3000). -/
noncomputable def sOrig : Geom.Vec3 := Geom.latLngToVector3 37.6 (-122.4) 3000

/-- Arrival surface point of the C5 scenario (lat 40.6, lng −73.8,
radius 3000). -/
noncomputable def eOrig : Geom.Vec3 := Geom.latLngToVector3 40.6 (-73.8) 3000

end Scen

/-- Sine of the departure half-colatitude `131π/900`. -/
theorem sin_h1_window :
    0.4390 ≤ Real.sin (131 * Real.pi / 900) ∧
      Real.sin (131 * Real.pi / 900) ≤ 0.4437 := by
  have hpl := Real.pi_gt_d6
  have hpu := Real.pi_lt_d6
  have h := sinWindow (131 * Real.pi / 900) 0.4572761 0.4572764
    (by nlinarith) (by nlinarith) (by norm_num) (by norm_num)
  exact ⟨by nlinarith [h.1], by nlinarith [h.2]⟩

/-- Cosine of the departure half-colatitude `131π/900`. -/
theorem cos_h1_window :
    0.8931 ≤ Real.cos (131 * Real.pi / 900) ∧
      Real.cos (131 * Real.pi / 900) ≤ 0.8978 := by
  have hpl := Real.pi_gt_d6
  have hpu := Real.pi_lt_d6
  have h := cosWindow (131 * Real.pi / 900) 0.4572761 0.4572764
    (by nlinarith) (by nlinarith) (by norm_num) (by norm_num)
  exact ⟨by nlinarith [h.1], by nlinarith [h.2]⟩

/-- Sine of the arrival half-colatitude `247π/1800`. -/
theorem sin_h2_window :
    0.4159 ≤ Real.sin (247 * Real.pi / 1800) ∧
      Real.sin (247 * Real.pi / 1800) ≤ 0.4196 := by
  have hpl := Real.pi_gt_d6
  have hpu := Real.pi_lt_d6
  have h := sinWindow (247 * Real.pi / 1800) 0.4310962 0.4310964
    (by nlinarith) (by nlinarith) (by norm_num) (by norm_num)
  exact ⟨by nlinarith [h.1], by nlinarith [h.2]⟩

/-- Cosine of the arrival half-colatitude `247π/1800`. -/
theorem cos_h2_window :
    0.9052 ≤ Real.cos (247 * Real.pi / 1800) ∧
      Real.cos (247 * Real.pi / 1800) ≤ 0.9089 := by
  have hpl := Real.pi_gt_d6
  have hpu := Real.pi_lt_d6
  have h := cosWindow (247 * Real.pi / 1800) 0.4310962 0.4310964
    (by nlinarith) (by nlinarith) (by norm_num) (by norm_num)
  exact ⟨by nlinarith [h.1], by nlinarith [h.2]⟩

/-- Sine of the half longitude gap `27π/200`. -/
theorem sin_hd_window :
    0.4097 ≤ Real.sin (27 * Real.pi / 200) ∧
      Real.sin (27 * Real.pi / 200) ≤ 0.4131 := by
  have hpl := Real.pi_gt_d6
  have hpu := Real.pi_lt_d6
  have h := sinWindow (27 * Real.pi / 200) 0.4241149 0.4241151
    (by nlinarith) (by nlinarith) (by norm_num) (by norm_num)
  exact ⟨by nlinarith [h.1], by nlinarith [h.2]⟩

/-- Sine of the departure colatitude `52.4°`. -/
theorem sinPhi1_window :
    0.7841 ≤ Real.sin ((90 - 37.6) * Real.pi / 180) ∧
      Real.sin ((90 - 37.6) * Real.pi / 180) ≤ 0.7968 := by
  rw [show ((90 - 37.6 : ℝ)) * Real.pi / 180 = 2 * (131 * Real.pi / 900) by
    ring]
  rw [Real.sin_two_mul]
  obtain ⟨h1, h2⟩ := sin_h1_window
  obtain ⟨h3, h4⟩ := cos_h1_window
  constructor <;> nlinarith

/-- Cosine of the departure colatitude `52.4°`. -/
theorem cosPhi1_window :
    0.6062 ≤ Real.cos ((90 - 37.6) * Real.pi / 180) ∧
      Real.cos ((90 - 37.6) * Real.pi / 180) ≤ 0.6146 := by
  rw [show ((90 - 37.6 : ℝ)) * Real.pi / 180 = 2 * (131 * Real.pi / 900) by
    ring]
  rw [cosDoubleSin]
  obtain ⟨h1, h2⟩ := sin_h1_window
  constructor <;> nlinarith

/-- Sine of the arrival colatitude `49.4°`. -/
theorem sinPhi2_window :
    0.7529 ≤ Real.sin ((90 - 40.6) * Real.pi / 180) ∧
      Real.sin ((90 - 40.6) * Real.pi / 180) ≤ 0.7628 := by
  rw [show ((90 - 40.6 : ℝ)) * Real.pi / 180 = 2 * (247 * Real.pi / 1800) by
    ring]
  rw [Real.sin_two_mul]
  obtain ⟨h1, h2⟩ := sin_h2_window
  obtain ⟨h3, h4⟩ := cos_h2_window
  constructor <;> nlinarith

/-- Cosine of the arrival colatitude `49.4°`. -/
theorem cosPhi2_window :
    0.6478 ≤ Real.cos ((90 - 40.6) * Real.pi / 180) ∧
      Real.cos ((90 - 40.6) * Real.pi / 180) ≤ 0.6541 := by
  rw [show ((90 - 40.6 : ℝ)) * Real.pi / 180 = 2 * (247 * Real.pi / 1800) by
    ring]
  rw [cosDoubleSin]
  obtain ⟨h1, h2⟩ := sin_h2_window
  constructor <;> nlinarith

/-- Cosine of the longitude gap `48.6°`. -/
theorem cosDth_window :
    0.6586 ≤ Real.cos (2 * (27 * Real.pi / 200)) ∧
      Real.cos (2 * (27 * Real.pi / 200)) ≤ 0.6643 := by
  rw [cosDoubleSin]
  obtain ⟨h1, h2⟩ := sin_hd_window
  constructor <;> nlinarith

/-- The departure point lies on the radius-3000 sphere. -/
theorem dot_sOrig_sOrig : Geom.Vec3.dot Scen.sOrig Scen.sOrig = 3000 ^ 2 := by
  simp only [Scen.sOrig, Geom.latLngToVector3, Geom.Vec3.dot]
  linear_combination
    (3000 ^ 2 * Real.sin ((90 - 37.6) * Real.pi / 180) ^ 2) *
      Real.sin_sq_add_cos_sq ((-(-122.4) + 180) * Real.pi / 180) +
    3000 ^ 2 * Real.sin_sq_add_cos_sq ((90 - 37.6) * Real.pi / 180)

/-- The arrival point lies on the radius-3000 sphere. -/
theorem dot_eOrig_eOrig : Geom.Vec3.dot Scen.eOrig Scen.eOrig = 3000 ^ 2 := by
  simp only [Scen.eOrig, Geom.latLngToVector3, Geom.Vec3.dot]
  linear_combination
    (3000 ^ 2 * Real.sin ((90 - 40.6) * Real.pi / 180) ^ 2) *
      Real.sin_sq_add_cos_sq ((-(-73.8) + 180) * Real.pi / 180) +
    3000 ^ 2 * Real.sin_sq_add_cos_sq ((90 - 40.6) * Real.pi / 180)

/-- The inner product of the two surface points in terms of the
great-circle angle data. -/
theorem dot_sOrig_eOrig_eq : Geom.Vec3.dot Scen.sOrig Scen.eOrig =
    3000 ^ 2 * (Real.sin ((90 - 37.6) * Real.pi / 180) *
      Real.sin ((90 - 40.6) * Real.pi / 180) *
      Real.cos (2 * (27 * Real.pi / 200)) +
      Real.cos ((90 - 37.6) * Real.pi / 180) *
      Real.cos ((90 - 40.6) * Real.pi / 180)) := by
  rw [show (2 : ℝ) * (27 * Real.pi / 200) =
    (-(-122.4) + 180) * Real.pi / 180 - (-(-73.8) + 180) * Real.pi / 180 by
    ring]
  rw [Real.cos_sub]
  simp only [Scen.sOrig, Scen.eOrig, Geom.latLngToVector3, Geom.Vec3.dot]
  ring

/-- Window for the inner product of the two surface points. -/
theorem dot_sOrig_eOrig_window :
    7029900 ≤ Geom.Vec3.dot Scen.sOrig Scen.eOrig ∧
      Geom.Vec3.dot Scen.sOrig Scen.eOrig ≤ 7254600 := by
  rw [dot_sOrig_eOrig_eq]
  obtain ⟨ha1, ha2⟩ := sinPhi1_window
  obtain ⟨hb1, hb2⟩ := sinPhi2_window
  obtain ⟨hc1, hc2⟩ := cosDth_window
  obtain ⟨hd1, hd2⟩ := cosPhi1_window
  obtain ⟨he1, he2⟩ := cosPhi2_window
  have hp1 : 0.5903 ≤ Real.sin ((90 - 37.6) * Real.pi / 180) *
      Real.sin ((90 - 40.6) * Real.pi / 180) := by nlinarith
  have hp2 : Real.sin ((90 - 37.6) * Real.pi / 180) *
      Real.sin ((90 - 40.6) * Real.pi / 180) ≤ 0.6079 := by nlinarith
  have hq1 : 0.3887 ≤ Real.sin ((90 - 37.6) * Real.pi / 180) *
      Real.sin ((90 - 40.6) * Real.pi / 180) *
      Real.cos (2 * (27 * Real.pi / 200)) := by nlinarith
  have hq2 : Real.sin ((90 - 37.6) * Real.pi / 180) *
      Real.sin ((90 - 40.6) * Real.pi / 180) *
      Real.cos (2 * (27 * Real.pi / 200)) ≤ 0.4039 := by nlinarith
  have hr1 : 0.3926 ≤ Real.cos ((90 - 37.6) * Real.pi / 180) *
      Real.cos ((90 - 40.6) * Real.pi / 180) := by nlinarith
  have hr2 : Real.cos ((90 - 37.6) * Real.pi / 180) *
      Real.cos ((90 - 40.6) * Real.pi / 180) ≤ 0.4021 := by nlinarith
  constructor <;> nlinarith

namespace Scen

/-- `startSurface` of the scenario: the departure point lifted to the
surface offset `radius + 20`. -/
noncomputable def sS : Geom.Vec3 :=
  Geom.Vec3.smul 3020 (Geom.Vec3.normalizeJS sOrig)

/-- `endSurface` of the scenario. -/
noncomputable def eS : Geom.Vec3 :=
  Geom.Vec3.smul 3020 (Geom.Vec3.normalizeJS eOrig)

/-- The inner product of the two lifted surface points. -/
noncomputable def W : ℝ := Geom.Vec3.dot sS eS

end Scen

/-- The departure point has norm 3000. -/
theorem length_sOrig : Geom.Vec3.length Scen.sOrig = 3000 := by
  show Real.sqrt (Geom.Vec3.lengthSq Scen.sOrig) = 3000
  rw [show Geom.Vec3.lengthSq Scen.sOrig = 3000 ^ 2 from dot_sOrig_sOrig]
  exact Real.sqrt_sq (by norm_num)

/-- The arrival point has norm 3000. -/
theorem length_eOrig : Geom.Vec3.length Scen.eOrig = 3000 := by
  show Real.sqrt (Geom.Vec3.lengthSq Scen.eOrig) = 3000
  rw [show Geom.Vec3.lengthSq Scen.eOrig = 3000 ^ 2 from dot_eOrig_eOrig]
  exact Real.sqrt_sq (by norm_num)

/-- `startSurface` is an explicit rescale of the departure point. -/
theorem sS_eq : Scen.sS = Geom.Vec3.smul (151 / 150) Scen.sOrig := by
  rw [Scen.sS, Vec3.normalizeJS_eq Scen.sOrig 3000 length_sOrig (by norm_num),
    Vec3.smul_smul]
  norm_num

/-- `endSurface` is an explicit rescale of the arrival point. -/
theorem eS_eq : Scen.eS = Geom.Vec3.smul (151 / 150) Scen.eOrig := by
  rw [Scen.eS, Vec3.normalizeJS_eq Scen.eOrig 3000 length_eOrig (by norm_num),
    Vec3.smul_smul]
  norm_num

/-- `startSurface` lies at squared distance `3020²` from the origin. -/
theorem dot_sS_sS : Geom.Vec3.dot Scen.sS Scen.sS = 3020 ^ 2 := by
  rw [sS_eq, Vec3.dot_smul_left, Vec3.dot_smul_right, dot_sOrig_sOrig]
  norm_num

/-- `endSurface` lies at squared distance `3020²` from the origin. -/
theorem dot_eS_eS : Geom.Vec3.dot Scen.eS Scen.eS = 3020 ^ 2 := by
  rw [eS_eq, Vec3.dot_smul_left, Vec3.dot_smul_right, dot_eOrig_eOrig]
  norm_num

/-- Window for the inner product of the lifted surface points:
`0.77·3020² ≤ W ≤ 0.81·3020²`. -/
theorem W_window : 7022708 ≤ Scen.W ∧ Scen.W ≤ 7387524 := by
  have h : Scen.W = (151 / 150) * ((151 / 150) *
      Geom.Vec3.dot Scen.sOrig Scen.eOrig) := by
    rw [Scen.W, sS_eq, eS_eq, Vec3.dot_smul_left, Vec3.dot_smul_right]
  obtain ⟨h1, h2⟩ := dot_sOrig_eOrig_window
  rw [h]
  constructor <;> nlinarith

/-- Scaling a vector by 1 changes nothing. -/
theorem Vec3.one_smul (a : Geom.Vec3) : Geom.Vec3.smul 1 a = a := by
  simp [Geom.Vec3.smul]

namespace Scen

/-- `3020⁴ − W²`, the squared scaled norm of the surface tangents. -/
noncomputable def Zq : ℝ := 3020 ^ 4 - W ^ 2

/-- The chord points `startSurface.lerp(endSurface, t)`. -/
noncomputable def lp (t : ℝ) : Geom.Vec3 := Geom.Vec3.lerp sS eS t

/-- The half-space functional used to separate every inner control
point from the origin. -/
noncomputable def U : Geom.Vec3 := Geom.Vec3.add sS eS

/-- The raw departure tangent (`tangentStart` before normalization). -/
noncomputable def tS0 : Geom.Vec3 :=
  Geom.Vec3.sub (Geom.Vec3.sub eS sS)
    (Geom.Vec3.smul
      (Geom.Vec3.dot (Geom.Vec3.sub eS sS) (Geom.Vec3.normalizeJS sS))
      (Geom.Vec3.normalizeJS sS))

/-- The raw arrival tangent (`tangentEnd` before normalization). -/
noncomputable def tE0 : Geom.Vec3 :=
  Geom.Vec3.sub (Geom.Vec3.sub sS eS)
    (Geom.Vec3.smul
      (Geom.Vec3.dot (Geom.Vec3.sub sS eS) (Geom.Vec3.normalizeJS eS))
      (Geom.Vec3.normalizeJS eS))

/-- Norm of the raw departure tangent. -/
noncomputable def mT : ℝ := Geom.Vec3.length tS0

/-- Norm of the raw arrival tangent. -/
noncomputable def mTe : ℝ := Geom.Vec3.length tE0

/-- `startSurface + 240·tangentStart`, the un-normalized departure
tangent point. -/
noncomputable def XS : Geom.Vec3 :=
  Geom.Vec3.add sS (Geom.Vec3.smul 240 (Geom.Vec3.normalizeJS tS0))

/-- `endSurface + 240·tangentEnd`, the un-normalized arrival tangent
point. -/
noncomputable def XE : Geom.Vec3 :=
  Geom.Vec3.add eS (Geom.Vec3.smul 240 (Geom.Vec3.normalizeJS tE0))

/-- Norm of the un-normalized departure tangent point. -/
noncomputable def mX : ℝ := Geom.Vec3.length XS

/-- Norm of the un-normalized arrival tangent point. -/
noncomputable def mXe : ℝ := Geom.Vec3.length XE

end Scen

/-- `startSurface` has norm exactly 3020. -/
theorem length_sS : Geom.Vec3.length Scen.sS = 3020 := by
  rw [Scen.sS, Vec3.length_smul,
    Vec3.length_normalizeJS Scen.sOrig (by rw [length_sOrig]; norm_num)]
  norm_num

/-- `endSurface` has norm exactly 3020. -/
theorem length_eS : Geom.Vec3.length Scen.eS = 3020 := by
  rw [Scen.eS, Vec3.length_smul,
    Vec3.length_normalizeJS Scen.eOrig (by rw [length_eOrig]; norm_num)]
  norm_num

/-- The raw departure tangent is the arrival point minus its component
along the departure direction. -/
theorem tS0_eq : Scen.tS0 =
    Geom.Vec3.sub Scen.eS (Geom.Vec3.smul (Scen.W / 3020 ^ 2) Scen.sS) := by
  have hn := Vec3.normalizeJS_eq Scen.sS 3020 length_sS (by norm_num)
  have hds : Geom.Vec3.dot (Geom.Vec3.sub Scen.eS Scen.sS) Scen.sS =
      Scen.W - 3020 ^ 2 := by
    rw [Vec3.dot_sub_left, dot_sS_sS, Vec3.dot_comm]
    rfl
  rw [Scen.tS0, hn, Vec3.dot_smul_right, hds, Vec3.smul_smul]
  simp only [Geom.Vec3.sub, Geom.Vec3.smul, Geom.Vec3.mk.injEq]
  refine ⟨by ring, by ring, by ring⟩

/-- The raw arrival tangent is the departure point minus its component
along the arrival direction. -/
theorem tE0_eq : Scen.tE0 =
    Geom.Vec3.sub Scen.sS (Geom.Vec3.smul (Scen.W / 3020 ^ 2) Scen.eS) := by
  have hn := Vec3.normalizeJS_eq Scen.eS 3020 length_eS (by norm_num)
  have hds : Geom.Vec3.dot (Geom.Vec3.sub Scen.sS Scen.eS) Scen.eS =
      Scen.W - 3020 ^ 2 := by
    rw [Vec3.dot_sub_left, dot_eS_eS]
    rfl
  rw [Scen.tE0, hn, Vec3.dot_smul_right, hds, Vec3.smul_smul]
  simp only [Geom.Vec3.sub, Geom.Vec3.smul, Geom.Vec3.mk.injEq]
  refine ⟨by ring, by ring, by ring⟩

/-- The departure tangent is orthogonal to the departure point. -/
theorem dot_sS_tS0 : Geom.Vec3.dot Scen.sS Scen.tS0 = 0 := by
  have hW : Geom.Vec3.dot Scen.sS Scen.eS = Scen.W := rfl
  rw [tS0_eq, Vec3.dot_sub_right, Vec3.dot_smul_right, dot_sS_sS, hW]
  ring

/-- The arrival tangent is orthogonal to the arrival point. -/
theorem dot_eS_tE0 : Geom.Vec3.dot Scen.eS Scen.tE0 = 0 := by
  have hW : Geom.Vec3.dot Scen.eS Scen.sS = Scen.W := Vec3.dot_comm _ _
  rw [tE0_eq, Vec3.dot_sub_right, Vec3.dot_smul_right, dot_eS_eS, hW]
  ring

/-- Component of the arrival point along the departure tangent. -/
theorem dot_eS_tS0 : Geom.Vec3.dot Scen.eS Scen.tS0 = Scen.Zq / 3020 ^ 2 := by
  have hW : Geom.Vec3.dot Scen.eS Scen.sS = Scen.W := Vec3.dot_comm _ _
  rw [tS0_eq, Vec3.dot_sub_right, Vec3.dot_smul_right, dot_eS_eS, hW, Scen.Zq]
  ring

/-- Component of the departure point along the arrival tangent. -/
theorem dot_sS_tE0 : Geom.Vec3.dot Scen.sS Scen.tE0 = Scen.Zq / 3020 ^ 2 := by
  have hW : Geom.Vec3.dot Scen.sS Scen.eS = Scen.W := rfl
  rw [tE0_eq, Vec3.dot_sub_right, Vec3.dot_smul_right, dot_sS_sS, hW, Scen.Zq]
  ring

/-- Squared norm of the raw departure tangent. -/
theorem dot_tS0_tS0 : Geom.Vec3.dot Scen.tS0 Scen.tS0 =
    Scen.Zq / 3020 ^ 2 := by
  have hW : Geom.Vec3.dot Scen.sS Scen.eS = Scen.W := rfl
  have hW' : Geom.Vec3.dot Scen.eS Scen.sS = Scen.W := Vec3.dot_comm _ _
  rw [tS0_eq]
  rw [Vec3.dot_sub_left, Vec3.dot_sub_right, Vec3.dot_sub_right,
    Vec3.dot_smul_left, Vec3.dot_smul_left, Vec3.dot_smul_right,
    Vec3.dot_smul_right, dot_sS_sS, dot_eS_eS, hW, hW', Scen.Zq]
  ring

/-- Squared norm of the raw arrival tangent. -/
theorem dot_tE0_tE0 : Geom.Vec3.dot Scen.tE0 Scen.tE0 =
    Scen.Zq / 3020 ^ 2 := by
  have hW : Geom.Vec3.dot Scen.sS Scen.eS = Scen.W := rfl
  have hW' : Geom.Vec3.dot Scen.eS Scen.sS = Scen.W := Vec3.dot_comm _ _
  rw [tE0_eq]
  rw [Vec3.dot_sub_left, Vec3.dot_sub_right, Vec3.dot_sub_right,
    Vec3.dot_smul_left, Vec3.dot_smul_left, Vec3.dot_smul_right,
    Vec3.dot_smul_right, dot_sS_sS, dot_eS_eS, hW, hW', Scen.Zq]
  ring

/-- Window for `Zq = 3020⁴ − W²`. -/
theorem Zq_window : 28600000000000 ≤ Scen.Zq ∧ Scen.Zq ≤ 33870000000000 := by
  obtain ⟨h1, h2⟩ := W_window
  rw [Scen.Zq]
  constructor <;> nlinarith

/-- Window for the norm of the raw departure tangent. -/
theorem mT_window : 1770 ≤ Scen.mT ∧ Scen.mT ≤ 1928 := by
  obtain ⟨h1, h2⟩ := Zq_window
  refine lengthBounds Scen.tS0 1770 1928 (by norm_num) (by norm_num) ?_ ?_ <;>
    rw [show Geom.Vec3.lengthSq Scen.tS0 = Scen.Zq / 3020 ^ 2 from
      dot_tS0_tS0] <;> nlinarith

/-- Window for the norm of the raw arrival tangent. -/
theorem mTe_window : 1770 ≤ Scen.mTe ∧ Scen.mTe ≤ 1928 := by
  obtain ⟨h1, h2⟩ := Zq_window
  refine lengthBounds Scen.tE0 1770 1928 (by norm_num) (by norm_num) ?_ ?_ <;>
    rw [show Geom.Vec3.lengthSq Scen.tE0 = Scen.Zq / 3020 ^ 2 from
      dot_tE0_tE0] <;> nlinarith

/-- Inner products between chord points. -/
theorem dot_lp_lp (a b : ℝ) : Geom.Vec3.dot (Scen.lp a) (Scen.lp b) =
    ((1 - a) * (1 - b) + a * b) * 3020 ^ 2 +
      (a * (1 - b) + b * (1 - a)) * Scen.W := by
  have hW : Geom.Vec3.dot Scen.sS Scen.eS = Scen.W := rfl
  have hW' : Geom.Vec3.dot Scen.eS Scen.sS = Scen.W := Vec3.dot_comm _ _
  rw [Scen.lp, Scen.lp, Geom.Vec3.lerp, Geom.Vec3.lerp]
  simp only [Vec3.dot_add_left, Vec3.dot_add_right, Vec3.dot_smul_left,
    Vec3.dot_smul_right, Vec3.dot_sub_left, Vec3.dot_sub_right]
  rw [dot_sS_sS, dot_eS_eS, hW, hW']
  ring

/-- Component of a chord point along the departure tangent. -/
theorem dot_lp_tS0 (t : ℝ) : Geom.Vec3.dot (Scen.lp t) Scen.tS0 =
    t * Scen.Zq / 3020 ^ 2 := by
  rw [Scen.lp, Geom.Vec3.lerp, Vec3.dot_add_left, Vec3.dot_smul_left,
    Vec3.dot_sub_left, dot_sS_tS0, dot_eS_tS0]
  ring

/-- Component of a chord point along the arrival tangent. -/
theorem dot_lp_tE0 (t : ℝ) : Geom.Vec3.dot (Scen.lp t) Scen.tE0 =
    (1 - t) * Scen.Zq / 3020 ^ 2 := by
  rw [Scen.lp, Geom.Vec3.lerp, Vec3.dot_add_left, Vec3.dot_smul_left,
    Vec3.dot_sub_left, dot_sS_tE0, dot_eS_tE0]
  ring

/-- Component of a chord point along the half-space functional. -/
theorem dot_lp_U (t : ℝ) : Geom.Vec3.dot (Scen.lp t) Scen.U =
    3020 ^ 2 + Scen.W := by
  have hW : Geom.Vec3.dot Scen.sS Scen.eS = Scen.W := rfl
  have hW' : Geom.Vec3.dot Scen.eS Scen.sS = Scen.W := Vec3.dot_comm _ _
  rw [Scen.lp, Scen.U, Geom.Vec3.lerp]
  simp only [Vec3.dot_add_left, Vec3.dot_add_right, Vec3.dot_smul_left,
    Vec3.dot_smul_right, Vec3.dot_sub_left, Vec3.dot_sub_right]
  rw [dot_sS_sS, dot_eS_eS, hW, hW']
  ring

/-- The departure tangent's norm is nonzero. -/
theorem mT_ne : Scen.mT ≠ 0 :=
  ne_of_gt (lt_of_lt_of_le (by norm_num) mT_window.1)

/-- The arrival tangent's norm is nonzero. -/
theorem mTe_ne : Scen.mTe ≠ 0 :=
  ne_of_gt (lt_of_lt_of_le (by norm_num) mTe_window.1)

/-- The squared norm of the departure tangent in terms of `Zq`. -/
theorem mT_sq : Scen.mT ^ 2 = Scen.Zq / 3020 ^ 2 := by
  rw [Scen.mT, Vec3.length_sq_eq]
  exact dot_tS0_tS0

/-- The squared norm of the arrival tangent in terms of `Zq`. -/
theorem mTe_sq : Scen.mTe ^ 2 = Scen.Zq / 3020 ^ 2 := by
  rw [Scen.mTe, Vec3.length_sq_eq]
  exact dot_tE0_tE0

/-- Component of `startSurface` along the half-space functional. -/
theorem dot_sS_U : Geom.Vec3.dot Scen.sS Scen.U = 3020 ^ 2 + Scen.W := by
  have hW : Geom.Vec3.dot Scen.sS Scen.eS = Scen.W := rfl
  rw [Scen.U, Vec3.dot_add_right, dot_sS_sS, hW]

/-- Component of `endSurface` along the half-space functional. -/
theorem dot_eS_U : Geom.Vec3.dot Scen.eS Scen.U = 3020 ^ 2 + Scen.W := by
  have hW' : Geom.Vec3.dot Scen.eS Scen.sS = Scen.W := Vec3.dot_comm _ _
  rw [Scen.U, Vec3.dot_add_right, dot_eS_eS, hW']
  ring

/-- Component of the departure tangent along the half-space
functional. -/
theorem dot_tS0_U : Geom.Vec3.dot Scen.tS0 Scen.U = Scen.Zq / 3020 ^ 2 := by
  have h1 : Geom.Vec3.dot Scen.tS0 Scen.sS = 0 := by
    rw [Vec3.dot_comm]
    exact dot_sS_tS0
  have h2 : Geom.Vec3.dot Scen.tS0 Scen.eS = Scen.Zq / 3020 ^ 2 := by
    rw [Vec3.dot_comm]
    exact dot_eS_tS0
  rw [Scen.U, Vec3.dot_add_right, h1, h2]
  ring

/-- Component of the arrival tangent along the half-space functional. -/
theorem dot_tE0_U : Geom.Vec3.dot Scen.tE0 Scen.U = Scen.Zq / 3020 ^ 2 := by
  have h1 : Geom.Vec3.dot Scen.tE0 Scen.eS = 0 := by
    rw [Vec3.dot_comm]
    exact dot_eS_tE0
  have h2 : Geom.Vec3.dot Scen.tE0 Scen.sS = Scen.Zq / 3020 ^ 2 := by
    rw [Vec3.dot_comm]
    exact dot_sS_tE0
  rw [Scen.U, Vec3.dot_add_right, h2, h1]
  ring

/-- Squared norm of the un-normalized departure tangent point. -/
theorem dot_XS_XS : Geom.Vec3.dot Scen.XS Scen.XS = 9178000 := by
  have hn := Vec3.normalizeJS_eq Scen.tS0 Scen.mT rfl mT_ne
  have h0 : Geom.Vec3.dot Scen.tS0 Scen.sS = 0 := by
    rw [Vec3.dot_comm]
    exact dot_sS_tS0
  rw [Scen.XS, hn, Vec3.smul_smul]
  simp only [Vec3.dot_add_left, Vec3.dot_add_right, Vec3.dot_smul_left,
    Vec3.dot_smul_right]
  rw [dot_sS_sS, dot_sS_tS0, dot_tS0_tS0, h0, ← mT_sq]
  field_simp
  rw [show (240:ℝ) * (240 * Scen.mT ^ 2) / (Scen.mT * Scen.mT) =
    57600 * (Scen.mT * Scen.mT) / (Scen.mT * Scen.mT) by ring]
  rw [mul_div_assoc, div_self (mul_ne_zero mT_ne mT_ne), mul_one]
  norm_num

/-- Squared norm of the un-normalized arrival tangent point. -/
theorem dot_XE_XE : Geom.Vec3.dot Scen.XE Scen.XE = 9178000 := by
  have hn := Vec3.normalizeJS_eq Scen.tE0 Scen.mTe rfl mTe_ne
  have h0 : Geom.Vec3.dot Scen.tE0 Scen.eS = 0 := by
    rw [Vec3.dot_comm]
    exact dot_eS_tE0
  rw [Scen.XE, hn, Vec3.smul_smul]
  simp only [Vec3.dot_add_left, Vec3.dot_add_right, Vec3.dot_smul_left,
    Vec3.dot_smul_right]
  rw [dot_eS_eS, dot_eS_tE0, dot_tE0_tE0, h0, ← mTe_sq]
  field_simp
  rw [show (240:ℝ) * (240 * Scen.mTe ^ 2) / (Scen.mTe * Scen.mTe) =
    57600 * (Scen.mTe * Scen.mTe) / (Scen.mTe * Scen.mTe) by ring]
  rw [mul_div_assoc, div_self (mul_ne_zero mTe_ne mTe_ne), mul_one]
  norm_num

/-- Window for the norm of the un-normalized departure tangent point. -/
theorem mX_window : 3029 ≤ Scen.mX ∧ Scen.mX ≤ 3030 := by
  refine lengthBounds Scen.XS 3029 3030 (by norm_num) (by norm_num) ?_ ?_ <;>
    rw [show Geom.Vec3.lengthSq Scen.XS = 9178000 from dot_XS_XS] <;> norm_num

/-- Window for the norm of the un-normalized arrival tangent point. -/
theorem mXe_window : 3029 ≤ Scen.mXe ∧ Scen.mXe ≤ 3030 := by
  refine lengthBounds Scen.XE 3029 3030 (by norm_num) (by norm_num) ?_ ?_ <;>
    rw [show Geom.Vec3.lengthSq Scen.XE = 9178000 from dot_XE_XE] <;> norm_num

/-- Component of the un-normalized departure tangent point along the
half-space functional. -/
theorem dot_XS_U : Geom.Vec3.dot Scen.XS Scen.U =
    3020 ^ 2 + Scen.W + 240 / Scen.mT * (Scen.Zq / 3020 ^ 2) := by
  have hn := Vec3.normalizeJS_eq Scen.tS0 Scen.mT rfl mT_ne
  rw [Scen.XS, hn, Vec3.smul_smul, Vec3.dot_add_left, Vec3.dot_smul_left,
    dot_sS_U, dot_tS0_U]
  ring

/-- Component of the un-normalized arrival tangent point along the
half-space functional. -/
theorem dot_XE_U : Geom.Vec3.dot Scen.XE Scen.U =
    3020 ^ 2 + Scen.W + 240 / Scen.mTe * (Scen.Zq / 3020 ^ 2) := by
  have hn := Vec3.normalizeJS_eq Scen.tE0 Scen.mTe rfl mTe_ne
  rw [Scen.XE, hn, Vec3.smul_smul, Vec3.dot_add_left, Vec3.dot_smul_left,
    dot_eS_U, dot_tE0_U]
  ring

/-- Component of the un-normalized departure tangent point along the
departure tangent. -/
theorem dot_XS_tS0 : Geom.Vec3.dot Scen.XS Scen.tS0 =
    240 / Scen.mT * (Scen.Zq / 3020 ^ 2) := by
  have hn := Vec3.normalizeJS_eq Scen.tS0 Scen.mT rfl mT_ne
  rw [Scen.XS, hn, Vec3.smul_smul, Vec3.dot_add_left, Vec3.dot_smul_left,
    dot_sS_tS0, dot_tS0_tS0]
  ring

/-- Component of the un-normalized arrival tangent point along the
arrival tangent. -/
theorem dot_XE_tE0 : Geom.Vec3.dot Scen.XE Scen.tE0 =
    240 / Scen.mTe * (Scen.Zq / 3020 ^ 2) := by
  have hn := Vec3.normalizeJS_eq Scen.tE0 Scen.mTe rfl mTe_ne
  rw [Scen.XE, hn, Vec3.smul_smul, Vec3.dot_add_left, Vec3.dot_smul_left,
    dot_eS_tE0, dot_tE0_tE0]
  ring

/-- Squared norm of a chord point. -/
theorem lenSq_lp (t : ℝ) : Geom.Vec3.lengthSq (Scen.lp t) =
    ((1 - t) * (1 - t) + t * t) * 3020 ^ 2 +
      (t * (1 - t) + t * (1 - t)) * Scen.W :=
  dot_lp_lp t t

/-- Window for the norm of the `t = 0.2` chord point (also `t = 0.8`
by symmetry of the formula). -/
theorem len_lp02_window :
    2906 ≤ Geom.Vec3.length (Scen.lp 0.2) ∧
      Geom.Vec3.length (Scen.lp 0.2) ≤ 2927 := by
  obtain ⟨h1, h2⟩ := W_window
  refine lengthBounds _ 2906 2927 (by norm_num) (by norm_num) ?_ ?_ <;>
    rw [lenSq_lp] <;> nlinarith

/-- Window for the norm of the `t = 0.8` chord point. -/
theorem len_lp08_window :
    2906 ≤ Geom.Vec3.length (Scen.lp 0.8) ∧
      Geom.Vec3.length (Scen.lp 0.8) ≤ 2927 := by
  obtain ⟨h1, h2⟩ := W_window
  refine lengthBounds _ 2906 2927 (by norm_num) (by norm_num) ?_ ?_ <;>
    rw [lenSq_lp] <;> nlinarith

/-- Window for the norm of the `t = 0.35` chord point. -/
theorem len_lp035_window :
    2857 ≤ Geom.Vec3.length (Scen.lp 0.35) ∧
      Geom.Vec3.length (Scen.lp 0.35) ≤ 2887 := by
  obtain ⟨h1, h2⟩ := W_window
  refine lengthBounds _ 2857 2887 (by norm_num) (by norm_num) ?_ ?_ <;>
    rw [lenSq_lp] <;> nlinarith

/-- Window for the norm of the `t = 0.65` chord point. -/
theorem len_lp065_window :
    2857 ≤ Geom.Vec3.length (Scen.lp 0.65) ∧
      Geom.Vec3.length (Scen.lp 0.65) ≤ 2887 := by
  obtain ⟨h1, h2⟩ := W_window
  refine lengthBounds _ 2857 2887 (by norm_num) (by norm_num) ?_ ?_ <;>
    rw [lenSq_lp] <;> nlinarith

/-- Window for the norm of the `t = 0.5` chord point. -/
theorem len_lp05_window :
    2840 ≤ Geom.Vec3.length (Scen.lp 0.5) ∧
      Geom.Vec3.length (Scen.lp 0.5) ≤ 2873 := by
  obtain ⟨h1, h2⟩ := W_window
  refine lengthBounds _ 2840 2873 (by norm_num) (by norm_num) ?_ ?_ <;>
    rw [lenSq_lp] <;> nlinarith

namespace Scen

/-- The cruise altitude of the scenario (the `cruiseAltitude` local of
`generateParabolicControlPoints` with the scenario's options). -/
noncomputable def A : ℝ :=
  30 + 190 * Real.rpow
    (min (Geom.Vec3.length (Geom.Vec3.sub sS eS) / (3000 * Real.pi * 0.3)) 1)
    0.7

/-- `startTangentPoint` of the scenario. -/
noncomputable def pST : Geom.Vec3 :=
  Geom.Vec3.smul 3020 (Geom.Vec3.normalizeJS XS)

/-- `endTangentPoint` of the scenario. -/
noncomputable def pET : Geom.Vec3 :=
  Geom.Vec3.smul 3020 (Geom.Vec3.normalizeJS XE)

/-- `climbPoint1` of the scenario. -/
noncomputable def pC1 : Geom.Vec3 :=
  Geom.Vec3.smul (3000 + A * 0.4) (Geom.Vec3.normalizeJS (lp 0.2))

/-- `climbPoint2` of the scenario. -/
noncomputable def pC2 : Geom.Vec3 :=
  Geom.Vec3.smul (3000 + A * 0.75) (Geom.Vec3.normalizeJS (lp 0.35))

/-- `cruisePeak` of the scenario. -/
noncomputable def pCR : Geom.Vec3 :=
  Geom.Vec3.smul (3000 + A * 0.85) (Geom.Vec3.normalizeJS (lp 0.5))

/-- `descentPoint1` of the scenario. -/
noncomputable def pD1 : Geom.Vec3 :=
  Geom.Vec3.smul (3000 + A * 0.75) (Geom.Vec3.normalizeJS (lp 0.65))

/-- `descentPoint2` of the scenario. -/
noncomputable def pD2 : Geom.Vec3 :=
  Geom.Vec3.smul (3000 + A * 0.4) (Geom.Vec3.normalizeJS (lp 0.8))

/-- The raw 9-point control list before the altitude floor. -/
noncomputable def rawPts : List Geom.Vec3 :=
  [sS, pST, pC1, pC2, pCR, pD1, pD2, pET, eS]

/-- One entry of the altitude floor at safe radius `3020`. -/
noncomputable def em (p : Geom.Vec3) : Geom.Vec3 :=
  if 0 < Geom.Vec3.length p ∧ Geom.Vec3.length p < 3020 then
    Geom.Vec3.smul 3020 (Geom.Vec3.normalizeJS p)
  else p

/-- The 9 control points returned by the scenario. -/
noncomputable def pts9 : List Geom.Vec3 :=
  [em sS, em pST, em pC1, em pC2, em pCR, em pD1, em pD2, em pET, em eS]

/-- The scenario's `generateParabolicControlPoints` call. -/
noncomputable def flight9 (rnd1 rnd2 : Geom.Vec3) : List Geom.Vec3 :=
  Geom.generateParabolicControlPoints ⟨37.6, -122.4⟩ ⟨40.6, -73.8⟩
    3000 18 20 30 220 rnd1 rnd2

/-- The scenario's follow-up `normalizeControlPoints` call. -/
noncomputable def flight4 (rnd1 rnd2 : Geom.Vec3) : List Geom.Vec3 :=
  Geom.normalizeControlPoints (flight9 rnd1 rnd2) 3000 20

end Scen

/-- Window for the scenario's cruise altitude. -/
theorem A_window : 30 ≤ Scen.A ∧ Scen.A ≤ 220 := by
  have hd0 : 0 ≤ Geom.Vec3.length (Geom.Vec3.sub Scen.sS Scen.eS) /
      (3000 * Real.pi * 0.3) := by
    apply div_nonneg (Vec3.length_nonneg _)
    have := Real.pi_pos
    nlinarith
  have hm0 : 0 ≤ min (Geom.Vec3.length (Geom.Vec3.sub Scen.sS Scen.eS) /
      (3000 * Real.pi * 0.3)) 1 := le_min hd0 (by norm_num)
  have hm1 : min (Geom.Vec3.length (Geom.Vec3.sub Scen.sS Scen.eS) /
      (3000 * Real.pi * 0.3)) 1 ≤ 1 := min_le_right _ _
  have hr0 : 0 ≤ Real.rpow (min (Geom.Vec3.length
      (Geom.Vec3.sub Scen.sS Scen.eS) / (3000 * Real.pi * 0.3)) 1) 0.7 :=
    Real.rpow_nonneg hm0 0.7
  have hr1 : Real.rpow (min (Geom.Vec3.length
      (Geom.Vec3.sub Scen.sS Scen.eS) / (3000 * Real.pi * 0.3)) 1) 0.7 ≤ 1 :=
    Real.rpow_le_one hm0 hm1 (by norm_num)
  rw [Scen.A]
  constructor <;> nlinarith

/-- Squared norm of the surface chord. -/
theorem lenSq_chord : Geom.Vec3.lengthSq (Geom.Vec3.sub Scen.eS Scen.sS) =
    2 * 3020 ^ 2 - 2 * Scen.W := by
  have hW : Geom.Vec3.dot Scen.sS Scen.eS = Scen.W := rfl
  have hW' : Geom.Vec3.dot Scen.eS Scen.sS = Scen.W := Vec3.dot_comm _ _
  show Geom.Vec3.dot _ _ = _
  rw [Vec3.dot_sub_left, Vec3.dot_sub_right, Vec3.dot_sub_right, dot_sS_sS,
    dot_eS_eS, hW, hW']
  ring

/-- Squared norm of the reversed surface chord. -/
theorem lenSq_chord' : Geom.Vec3.lengthSq (Geom.Vec3.sub Scen.sS Scen.eS) =
    2 * 3020 ^ 2 - 2 * Scen.W := by
  have hW : Geom.Vec3.dot Scen.sS Scen.eS = Scen.W := rfl
  have hW' : Geom.Vec3.dot Scen.eS Scen.sS = Scen.W := Vec3.dot_comm _ _
  show Geom.Vec3.dot _ _ = _
  rw [Vec3.dot_sub_left, Vec3.dot_sub_right, Vec3.dot_sub_right, dot_sS_sS,
    dot_eS_eS, hW, hW']
  ring

/-- The departure-path guard of `generateParabolicControlPoints` is
never taken in the scenario. -/
theorem guard1 :
    ¬ Geom.Vec3.lengthSq (Geom.Vec3.sub Scen.eS Scen.sS) < 1 / 1000000 := by
  rw [lenSq_chord]
  obtain ⟨h1, h2⟩ := W_window
  push_neg
  nlinarith

/-- The arrival-path guard is never taken in the scenario. -/
theorem guard3 :
    ¬ Geom.Vec3.lengthSq (Geom.Vec3.sub Scen.sS Scen.eS) < 1 / 1000000 := by
  rw [lenSq_chord']
  obtain ⟨h1, h2⟩ := W_window
  push_neg
  nlinarith

/-- The departure-tangent guard is never taken in the scenario. -/
theorem guard2 : ¬ Geom.Vec3.lengthSq Scen.tS0 < 1 / 1000000 := by
  rw [show Geom.Vec3.lengthSq Scen.tS0 = Scen.Zq / 3020 ^ 2 from dot_tS0_tS0]
  obtain ⟨h1, h2⟩ := Zq_window
  push_neg
  nlinarith

/-- The arrival-tangent guard is never taken in the scenario. -/
theorem guard4 : ¬ Geom.Vec3.lengthSq Scen.tE0 < 1 / 1000000 := by
  rw [show Geom.Vec3.lengthSq Scen.tE0 = Scen.Zq / 3020 ^ 2 from dot_tE0_tE0]
  obtain ⟨h1, h2⟩ := Zq_window
  push_neg
  nlinarith

/-- The altitude floor of the raw scenario list is the entrywise
floor. -/
theorem ensureMin_rawPts :
    Geom.ensureMinimumCurveAltitude Scen.rawPts 3000 20 = Scen.pts9 := by
  simp only [Geom.ensureMinimumCurveAltitude, Scen.rawPts, Scen.pts9,
    List.map, Scen.em]
  norm_num

/-- The scenario's `generateParabolicControlPoints` output, with every
local guard resolved: the nine named control points through the
altitude floor, independently of the random fallback directions. -/
theorem flight9_eq (rnd1 rnd2 : Geom.Vec3) :
    Scen.flight9 rnd1 rnd2 = Scen.pts9 := by
  have hg1 : ∀ X : Geom.Vec3,
      (if Geom.Vec3.lengthSq (Geom.Vec3.sub Scen.eS Scen.sS) < 1 / 1000000
        then X else Geom.Vec3.sub Scen.eS Scen.sS) =
        Geom.Vec3.sub Scen.eS Scen.sS := fun X => if_neg guard1
  have hg2 : ∀ X : Geom.Vec3,
      (if Geom.Vec3.lengthSq Scen.tS0 < 1 / 1000000 then X else Scen.tS0) =
        Scen.tS0 := fun X => if_neg guard2
  have hg3 : ∀ X : Geom.Vec3,
      (if Geom.Vec3.lengthSq (Geom.Vec3.sub Scen.sS Scen.eS) < 1 / 1000000
        then X else Geom.Vec3.sub Scen.sS Scen.eS) =
        Geom.Vec3.sub Scen.sS Scen.eS := fun X => if_neg guard3
  have hg4 : ∀ X : Geom.Vec3,
      (if Geom.Vec3.lengthSq Scen.tE0 < 1 / 1000000 then X else Scen.tE0) =
        Scen.tE0 := fun X => if_neg guard4
  have hn1 : (max (18 : ℝ) 20) = 20 := by norm_num
  have hn2 : (max (30 : ℝ) (20 + 5)) = 30 := by norm_num
  have hn3 : ((3000 : ℝ) + 20) = 3020 := by norm_num
  have hn4 : ((220 : ℝ) - 30) = 190 := by norm_num
  have hn5 : ((3000 : ℝ) * 0.08) = 240 := by norm_num
  have hf1 : Geom.latLngToVector3 37.6 (-122.4) 3000 = Scen.sOrig := rfl
  have hf2 : Geom.latLngToVector3 40.6 (-73.8) 3000 = Scen.eOrig := rfl
  have hf3 : Geom.Vec3.smul 3020 (Geom.Vec3.normalizeJS Scen.sOrig) =
      Scen.sS := rfl
  have hf4 : Geom.Vec3.smul 3020 (Geom.Vec3.normalizeJS Scen.eOrig) =
      Scen.eS := rfl
  have hfA : 30 + 190 * Real.rpow (min (Geom.Vec3.length
      (Geom.Vec3.sub Scen.sS Scen.eS) / (3000 * Real.pi * 0.3)) 1) 0.7 =
      Scen.A := rfl
  have hlp : ∀ t : ℝ, Geom.Vec3.lerp Scen.sS Scen.eS t = Scen.lp t :=
    fun t => rfl
  have hfT : Geom.Vec3.sub (Geom.Vec3.sub Scen.eS Scen.sS)
      (Geom.Vec3.smul (Geom.Vec3.dot (Geom.Vec3.sub Scen.eS Scen.sS)
        (Geom.Vec3.normalizeJS Scen.sS)) (Geom.Vec3.normalizeJS Scen.sS)) =
      Scen.tS0 := rfl
  have hfTe : Geom.Vec3.sub (Geom.Vec3.sub Scen.sS Scen.eS)
      (Geom.Vec3.smul (Geom.Vec3.dot (Geom.Vec3.sub Scen.sS Scen.eS)
        (Geom.Vec3.normalizeJS Scen.eS)) (Geom.Vec3.normalizeJS Scen.eS)) =
      Scen.tE0 := rfl
  have hlS : Geom.Vec3.length Scen.sS = 3020 := length_sS
  have hlE : Geom.Vec3.length Scen.eS = 3020 := length_eS
  have hfX : Geom.Vec3.add Scen.sS
      (Geom.Vec3.smul 240 (Geom.Vec3.normalizeJS Scen.tS0)) = Scen.XS := rfl
  have hfXe : Geom.Vec3.add Scen.eS
      (Geom.Vec3.smul 240 (Geom.Vec3.normalizeJS Scen.tE0)) = Scen.XE := rfl
  have hfST : Geom.Vec3.smul 3020 (Geom.Vec3.normalizeJS Scen.XS) =
      Scen.pST := rfl
  have hfET : Geom.Vec3.smul 3020 (Geom.Vec3.normalizeJS Scen.XE) =
      Scen.pET := rfl
  have hfC1 : Geom.Vec3.smul (3000 + Scen.A * 0.4)
      (Geom.Vec3.normalizeJS (Scen.lp 0.2)) = Scen.pC1 := rfl
  have hfC2 : Geom.Vec3.smul (3000 + Scen.A * 0.75)
      (Geom.Vec3.normalizeJS (Scen.lp 0.35)) = Scen.pC2 := rfl
  have hfCR : Geom.Vec3.smul (3000 + Scen.A * 0.85)
      (Geom.Vec3.normalizeJS (Scen.lp 0.5)) = Scen.pCR := rfl
  have hfD1 : Geom.Vec3.smul (3000 + Scen.A * 0.75)
      (Geom.Vec3.normalizeJS (Scen.lp 0.65)) = Scen.pD1 := rfl
  have hfD2 : Geom.Vec3.smul (3000 + Scen.A * 0.4)
      (Geom.Vec3.normalizeJS (Scen.lp 0.8)) = Scen.pD2 := rfl
  simp only [Scen.flight9, Geom.generateParabolicControlPoints, hn1, hn2, hn3,
    hn4, hn5, hf1, hf2, hf3, hf4, hfA, hlp, hg1, hfT, hg2, hg3, hfTe, hg4,
    hlS, hlE, hfX, hfXe, hfST, hfET, hfC1, hfC2, hfCR, hfD1, hfD2]
  exact ensureMin_rawPts

/-- The norm of a positively scaled unit direction. -/
theorem length_scaled (ρ : ℝ) (v : Geom.Vec3) (hρ : 0 < ρ)
    (hv : Geom.Vec3.length v ≠ 0) :
    Geom.Vec3.length (Geom.Vec3.smul ρ (Geom.Vec3.normalizeJS v)) = ρ := by
  rw [Vec3.length_smul, Vec3.length_normalizeJS v hv, abs_of_pos hρ, mul_one]

/-- The altitude floor on a positively scaled unit direction clamps the
scale from below by 3020 and keeps the direction. -/
theorem em_scaled (ρ : ℝ) (v : Geom.Vec3) (hρ : 0 < ρ)
    (hv : Geom.Vec3.length v ≠ 0) :
    Scen.em (Geom.Vec3.smul ρ (Geom.Vec3.normalizeJS v)) =
      Geom.Vec3.smul (max ρ 3020) (Geom.Vec3.normalizeJS v) := by
  have hl := length_scaled ρ v hρ hv
  rw [Scen.em, hl]
  by_cases hc : ρ < 3020
  · rw [if_pos ⟨hρ, hc⟩]
    have hinner : Geom.Vec3.normalizeJS
        (Geom.Vec3.smul ρ (Geom.Vec3.normalizeJS v)) =
        Geom.Vec3.normalizeJS v := by
      rw [Vec3.normalizeJS_eq _ ρ hl (ne_of_gt hρ), Vec3.smul_smul,
        show 1 / ρ * ρ = 1 by field_simp, Vec3.one_smul]
    rw [hinner, max_eq_right (le_of_lt hc)]
  · rw [if_neg (by rintro ⟨-, h⟩; exact hc h), max_eq_left (not_lt.mp hc)]

/-- Inner product of a positively scaled unit direction with a test
vector. -/
theorem dot_scaled (ρ : ℝ) (v X : Geom.Vec3) (m : ℝ)
    (hm : Geom.Vec3.length v = m) (hne : m ≠ 0) :
    Geom.Vec3.dot (Geom.Vec3.smul ρ (Geom.Vec3.normalizeJS v)) X =
      ρ * Geom.Vec3.dot v X / m := by
  rw [Vec3.normalizeJS_eq v m hm hne, Vec3.smul_smul, Vec3.dot_smul_left]
  ring

/-- The nonzero-norm facts for the nine scenario directions. -/
theorem len_sOrig_ne : Geom.Vec3.length Scen.sOrig ≠ 0 := by
  rw [length_sOrig]
  norm_num

/-- The arrival direction is nonzero. -/
theorem len_eOrig_ne : Geom.Vec3.length Scen.eOrig ≠ 0 := by
  rw [length_eOrig]
  norm_num

/-- The un-normalized departure tangent point is nonzero. -/
theorem len_XS_ne : Geom.Vec3.length Scen.XS ≠ 0 :=
  ne_of_gt (lt_of_lt_of_le (by norm_num) mX_window.1)

/-- The un-normalized arrival tangent point is nonzero. -/
theorem len_XE_ne : Geom.Vec3.length Scen.XE ≠ 0 :=
  ne_of_gt (lt_of_lt_of_le (by norm_num) mXe_window.1)

/-- The `t = 0.2` chord point is nonzero. -/
theorem len_lp02_ne : Geom.Vec3.length (Scen.lp 0.2) ≠ 0 :=
  ne_of_gt (lt_of_lt_of_le (by norm_num) len_lp02_window.1)

/-- The `t = 0.35` chord point is nonzero. -/
theorem len_lp035_ne : Geom.Vec3.length (Scen.lp 0.35) ≠ 0 :=
  ne_of_gt (lt_of_lt_of_le (by norm_num) len_lp035_window.1)

/-- The `t = 0.5` chord point is nonzero. -/
theorem len_lp05_ne : Geom.Vec3.length (Scen.lp 0.5) ≠ 0 :=
  ne_of_gt (lt_of_lt_of_le (by norm_num) len_lp05_window.1)

/-- The `t = 0.65` chord point is nonzero. -/
theorem len_lp065_ne : Geom.Vec3.length (Scen.lp 0.65) ≠ 0 :=
  ne_of_gt (lt_of_lt_of_le (by norm_num) len_lp065_window.1)

/-- The `t = 0.8` chord point is nonzero. -/
theorem len_lp08_ne : Geom.Vec3.length (Scen.lp 0.8) ≠ 0 :=
  ne_of_gt (lt_of_lt_of_le (by norm_num) len_lp08_window.1)

/-- The floored `startSurface` is unchanged. -/
theorem em_sS : Scen.em Scen.sS = Scen.sS := by
  rw [Scen.sS, em_scaled 3020 Scen.sOrig (by norm_num) len_sOrig_ne, max_self]

/-- The floored `endSurface` is unchanged. -/
theorem em_eS : Scen.em Scen.eS = Scen.eS := by
  rw [Scen.eS, em_scaled 3020 Scen.eOrig (by norm_num) len_eOrig_ne, max_self]

/-- The floored `startTangentPoint` is unchanged. -/
theorem em_pST : Scen.em Scen.pST = Scen.pST := by
  rw [Scen.pST, em_scaled 3020 Scen.XS (by norm_num) len_XS_ne, max_self]

/-- The floored `endTangentPoint` is unchanged. -/
theorem em_pET : Scen.em Scen.pET = Scen.pET := by
  rw [Scen.pET, em_scaled 3020 Scen.XE (by norm_num) len_XE_ne, max_self]

/-- The floored `climbPoint1` keeps its direction with the clamped
scale. -/
theorem em_pC1 : Scen.em Scen.pC1 = Geom.Vec3.smul (max (3000 + Scen.A * 0.4)
    3020) (Geom.Vec3.normalizeJS (Scen.lp 0.2)) :=
  em_scaled _ _ (by nlinarith [A_window.1]) len_lp02_ne

/-- The floored `climbPoint2` keeps its direction with the clamped
scale. -/
theorem em_pC2 : Scen.em Scen.pC2 = Geom.Vec3.smul (max (3000 + Scen.A * 0.75)
    3020) (Geom.Vec3.normalizeJS (Scen.lp 0.35)) :=
  em_scaled _ _ (by nlinarith [A_window.1]) len_lp035_ne

/-- The floored `cruisePeak` keeps its direction with the clamped
scale. -/
theorem em_pCR : Scen.em Scen.pCR = Geom.Vec3.smul (max (3000 + Scen.A * 0.85)
    3020) (Geom.Vec3.normalizeJS (Scen.lp 0.5)) :=
  em_scaled _ _ (by nlinarith [A_window.1]) len_lp05_ne

/-- The floored `descentPoint1` keeps its direction with the clamped
scale. -/
theorem em_pD1 : Scen.em Scen.pD1 = Geom.Vec3.smul (max (3000 + Scen.A * 0.75)
    3020) (Geom.Vec3.normalizeJS (Scen.lp 0.65)) :=
  em_scaled _ _ (by nlinarith [A_window.1]) len_lp065_ne

/-- The floored `descentPoint2` keeps its direction with the clamped
scale. -/
theorem em_pD2 : Scen.em Scen.pD2 = Geom.Vec3.smul (max (3000 + Scen.A * 0.4)
    3020) (Geom.Vec3.normalizeJS (Scen.lp 0.8)) :=
  em_scaled _ _ (by nlinarith [A_window.1]) len_lp08_ne

/-- Every floored scenario point lies at distance at least 3020 from
the origin (part 1 of claim C5). -/
theorem pts9_all_ge : ∀ p ∈ Scen.pts9, 3020 ≤ Geom.Vec3.length p := by
  have hA := A_window.1
  intro p hp
  simp only [Scen.pts9, List.mem_cons, List.not_mem_nil, or_false] at hp
  rcases hp with rfl | rfl | rfl | rfl | rfl | rfl | rfl | rfl | rfl
  · rw [em_sS, length_sS]
  · rw [em_pST, Scen.pST, length_scaled 3020 Scen.XS (by norm_num) len_XS_ne]
  · rw [em_pC1, length_scaled _ _ (by positivity) len_lp02_ne]
    exact le_max_right _ _
  · rw [em_pC2, length_scaled _ _ (by positivity) len_lp035_ne]
    exact le_max_right _ _
  · rw [em_pCR, length_scaled _ _ (by positivity) len_lp05_ne]
    exact le_max_right _ _
  · rw [em_pD1, length_scaled _ _ (by positivity) len_lp065_ne]
    exact le_max_right _ _
  · rw [em_pD2, length_scaled _ _ (by positivity) len_lp08_ne]
    exact le_max_right _ _
  · rw [em_pET, Scen.pET, length_scaled 3020 Scen.XE (by norm_num) len_XE_ne]
  · rw [em_eS, length_eS]

/-- Window for the half-space component of the un-normalized departure
tangent point. -/
theorem dot_XS_U_window : 16520000 ≤ Geom.Vec3.dot Scen.XS Scen.U ∧
    Geom.Vec3.dot Scen.XS Scen.U ≤ 17015000 := by
  have hq : 240 / Scen.mT * (Scen.Zq / 3020 ^ 2) =
      240 * Scen.Zq / (Scen.mT * 3020 ^ 2) := by ring
  have hpos : (0 : ℝ) < Scen.mT * 3020 ^ 2 := by nlinarith [mT_window.1]
  obtain ⟨hz1, hz2⟩ := Zq_window
  obtain ⟨hm1, hm2⟩ := mT_window
  obtain ⟨hw1, hw2⟩ := W_window
  constructor
  · rw [dot_XS_U, hq]
    have h1 : (376892 : ℝ) ≤ 240 * Scen.Zq / (Scen.mT * 3020 ^ 2) := by
      rw [le_div_iff₀ hpos]
      nlinarith
    nlinarith
  · rw [dot_XS_U, hq]
    have h1 : 240 * Scen.Zq / (Scen.mT * 3020 ^ 2) ≤ (507076 : ℝ) := by
      rw [div_le_iff₀ hpos]
      nlinarith
    nlinarith

/-- Window for the half-space component of the un-normalized arrival
tangent point. -/
theorem dot_XE_U_window : 16520000 ≤ Geom.Vec3.dot Scen.XE Scen.U ∧
    Geom.Vec3.dot Scen.XE Scen.U ≤ 17015000 := by
  have hq : 240 / Scen.mTe * (Scen.Zq / 3020 ^ 2) =
      240 * Scen.Zq / (Scen.mTe * 3020 ^ 2) := by ring
  have hpos : (0 : ℝ) < Scen.mTe * 3020 ^ 2 := by nlinarith [mTe_window.1]
  obtain ⟨hz1, hz2⟩ := Zq_window
  obtain ⟨hm1, hm2⟩ := mTe_window
  obtain ⟨hw1, hw2⟩ := W_window
  constructor
  · rw [dot_XE_U, hq]
    have h1 : (376892 : ℝ) ≤ 240 * Scen.Zq / (Scen.mTe * 3020 ^ 2) := by
      rw [le_div_iff₀ hpos]
      nlinarith
    nlinarith
  · rw [dot_XE_U, hq]
    have h1 : 240 * Scen.Zq / (Scen.mTe * 3020 ^ 2) ≤ (507076 : ℝ) := by
      rw [div_le_iff₀ hpos]
      nlinarith
    nlinarith

/-- Half-space window for the floored `startTangentPoint`. -/
theorem u_pST : 16000000 ≤ Geom.Vec3.dot (Scen.em Scen.pST) Scen.U ∧
    Geom.Vec3.dot (Scen.em Scen.pST) Scen.U ≤ 18700000 := by
  rw [em_pST, Scen.pST, dot_scaled 3020 Scen.XS Scen.U Scen.mX rfl len_XS_ne]
  have hpos : (0 : ℝ) < Scen.mX := lt_of_lt_of_le (by norm_num) mX_window.1
  obtain ⟨hx1, hx2⟩ := dot_XS_U_window
  obtain ⟨hm1, hm2⟩ := mX_window
  constructor
  · rw [le_div_iff₀ hpos]
    nlinarith
  · rw [div_le_iff₀ hpos]
    nlinarith

/-- Half-space window for the floored `endTangentPoint`. -/
theorem u_pET : 16000000 ≤ Geom.Vec3.dot (Scen.em Scen.pET) Scen.U ∧
    Geom.Vec3.dot (Scen.em Scen.pET) Scen.U ≤ 18700000 := by
  rw [em_pET, Scen.pET, dot_scaled 3020 Scen.XE Scen.U Scen.mXe rfl len_XE_ne]
  have hpos : (0 : ℝ) < Scen.mXe := lt_of_lt_of_le (by norm_num) mXe_window.1
  obtain ⟨hx1, hx2⟩ := dot_XE_U_window
  obtain ⟨hm1, hm2⟩ := mXe_window
  constructor
  · rw [le_div_iff₀ hpos]
    nlinarith
  · rw [div_le_iff₀ hpos]
    nlinarith

/-- Half-space window for the floored `climbPoint1`. -/
theorem u_pC1 : 16000000 ≤ Geom.Vec3.dot (Scen.em Scen.pC1) Scen.U ∧
    Geom.Vec3.dot (Scen.em Scen.pC1) Scen.U ≤ 18700000 := by
  rw [em_pC1, dot_scaled _ _ Scen.U (Geom.Vec3.length (Scen.lp 0.2)) rfl
    len_lp02_ne, dot_lp_U]
  have hpos : (0 : ℝ) < Geom.Vec3.length (Scen.lp 0.2) :=
    lt_of_lt_of_le (by norm_num) len_lp02_window.1
  obtain ⟨hm1, hm2⟩ := len_lp02_window
  obtain ⟨hw1, hw2⟩ := W_window
  have hr1 : (3020 : ℝ) ≤ max (3000 + Scen.A * 0.4) 3020 := le_max_right _ _
  have hr2 : max (3000 + Scen.A * 0.4) 3020 ≤ 3088 :=
    max_le (by nlinarith [A_window.2]) (by norm_num)
  constructor
  · rw [le_div_iff₀ hpos]
    nlinarith
  · rw [div_le_iff₀ hpos]
    nlinarith

/-- Half-space window for the floored `climbPoint2`. -/
theorem u_pC2 : 16000000 ≤ Geom.Vec3.dot (Scen.em Scen.pC2) Scen.U ∧
    Geom.Vec3.dot (Scen.em Scen.pC2) Scen.U ≤ 18700000 := by
  rw [em_pC2, dot_scaled _ _ Scen.U (Geom.Vec3.length (Scen.lp 0.35)) rfl
    len_lp035_ne, dot_lp_U]
  have hpos : (0 : ℝ) < Geom.Vec3.length (Scen.lp 0.35) :=
    lt_of_lt_of_le (by norm_num) len_lp035_window.1
  obtain ⟨hm1, hm2⟩ := len_lp035_window
  obtain ⟨hw1, hw2⟩ := W_window
  have hr1 : (3020 : ℝ) ≤ max (3000 + Scen.A * 0.75) 3020 := le_max_right _ _
  have hr2 : max (3000 + Scen.A * 0.75) 3020 ≤ 3165 :=
    max_le (by nlinarith [A_window.2]) (by norm_num)
  constructor
  · rw [le_div_iff₀ hpos]
    nlinarith
  · rw [div_le_iff₀ hpos]
    nlinarith

/-- Half-space window for the floored `cruisePeak`. -/
theorem u_pCR : 16000000 ≤ Geom.Vec3.dot (Scen.em Scen.pCR) Scen.U ∧
    Geom.Vec3.dot (Scen.em Scen.pCR) Scen.U ≤ 18700000 := by
  rw [em_pCR, dot_scaled _ _ Scen.U (Geom.Vec3.length (Scen.lp 0.5)) rfl
    len_lp05_ne, dot_lp_U]
  have hpos : (0 : ℝ) < Geom.Vec3.length (Scen.lp 0.5) :=
    lt_of_lt_of_le (by norm_num) len_lp05_window.1
  obtain ⟨hm1, hm2⟩ := len_lp05_window
  obtain ⟨hw1, hw2⟩ := W_window
  have hr1 : (3020 : ℝ) ≤ max (3000 + Scen.A * 0.85) 3020 := le_max_right _ _
  have hr2 : max (3000 + Scen.A * 0.85) 3020 ≤ 3187 :=
    max_le (by nlinarith [A_window.2]) (by norm_num)
  constructor
  · rw [le_div_iff₀ hpos]
    nlinarith
  · rw [div_le_iff₀ hpos]
    nlinarith

/-- Half-space window for the floored `descentPoint1`. -/
theorem u_pD1 : 16000000 ≤ Geom.Vec3.dot (Scen.em Scen.pD1) Scen.U ∧
    Geom.Vec3.dot (Scen.em Scen.pD1) Scen.U ≤ 18700000 := by
  rw [em_pD1, dot_scaled _ _ Scen.U (Geom.Vec3.length (Scen.lp 0.65)) rfl
    len_lp065_ne, dot_lp_U]
  have hpos : (0 : ℝ) < Geom.Vec3.length (Scen.lp 0.65) :=
    lt_of_lt_of_le (by norm_num) len_lp065_window.1
  obtain ⟨hm1, hm2⟩ := len_lp065_window
  obtain ⟨hw1, hw2⟩ := W_window
  have hr1 : (3020 : ℝ) ≤ max (3000 + Scen.A * 0.75) 3020 := le_max_right _ _
  have hr2 : max (3000 + Scen.A * 0.75) 3020 ≤ 3165 :=
    max_le (by nlinarith [A_window.2]) (by norm_num)
  constructor
  · rw [le_div_iff₀ hpos]
    nlinarith
  · rw [div_le_iff₀ hpos]
    nlinarith

/-- Half-space window for the floored `descentPoint2`. -/
theorem u_pD2 : 16000000 ≤ Geom.Vec3.dot (Scen.em Scen.pD2) Scen.U ∧
    Geom.Vec3.dot (Scen.em Scen.pD2) Scen.U ≤ 18700000 := by
  rw [em_pD2, dot_scaled _ _ Scen.U (Geom.Vec3.length (Scen.lp 0.8)) rfl
    len_lp08_ne, dot_lp_U]
  have hpos : (0 : ℝ) < Geom.Vec3.length (Scen.lp 0.8) :=
    lt_of_lt_of_le (by norm_num) len_lp08_window.1
  obtain ⟨hm1, hm2⟩ := len_lp08_window
  obtain ⟨hw1, hw2⟩ := W_window
  have hr1 : (3020 : ℝ) ≤ max (3000 + Scen.A * 0.4) 3020 := le_max_right _ _
  have hr2 : max (3000 + Scen.A * 0.4) 3020 ≤ 3088 :=
    max_le (by nlinarith [A_window.2]) (by norm_num)
  constructor
  · rw [le_div_iff₀ hpos]
    nlinarith
  · rw [div_le_iff₀ hpos]
    nlinarith

namespace Scen

/-- The common tangent normalization factor `Zq / 3020²`. -/
noncomputable def zet : ℝ := Zq / 3020 ^ 2

end Scen

/-- `Zq` in terms of the tangent normalization factor. -/
theorem Zq_as_zet : Scen.Zq = Scen.zet * 3020 ^ 2 := by
  rw [Scen.zet]
  field_simp

/-- Window for the tangent normalization factor. -/
theorem zet_window : 3135825 ≤ Scen.zet ∧ Scen.zet ≤ 3713654 := by
  obtain ⟨h1, h2⟩ := Zq_window
  rw [Scen.zet]
  constructor
  · rw [le_div_iff₀ (by norm_num : (0:ℝ) < 3020 ^ 2)]
    nlinarith
  · rw [div_le_iff₀ (by norm_num : (0:ℝ) < 3020 ^ 2)]
    nlinarith

/-- The tangent normalization factor is nonnegative. -/
theorem zet_nonneg : 0 ≤ Scen.zet :=
  le_trans (by norm_num) zet_window.1

/-- Squared distances are symmetric. -/
theorem distSq_comm (a b : Geom.Vec3) :
    Geom.Vec3.distanceToSquared a b = Geom.Vec3.distanceToSquared b a := by
  unfold Geom.Vec3.distanceToSquared Geom.Vec3.lengthSq Geom.Vec3.dot
    Geom.Vec3.sub
  ring

/-- The law-of-cosines expansion of a squared distance. -/
theorem distSq_expand (a b : Geom.Vec3) :
    Geom.Vec3.distanceToSquared a b =
      Geom.Vec3.dot a a - 2 * Geom.Vec3.dot a b + Geom.Vec3.dot b b := by
  unfold Geom.Vec3.distanceToSquared Geom.Vec3.lengthSq Geom.Vec3.dot
    Geom.Vec3.sub
  ring

/-- A linear functional with a guaranteed gap forces a squared-distance
lower bound (Cauchy–Schwarz). -/
theorem dsq_lower_of_gap (a b F : Geom.Vec3) (g K : ℝ) (hg : 0 ≤ g)
    (hgap : g ≤ Geom.Vec3.dot (Geom.Vec3.sub a b) F)
    (hF : 0 < Geom.Vec3.lengthSq F)
    (hK : K * Geom.Vec3.lengthSq F ≤ g ^ 2) :
    K ≤ Geom.Vec3.distanceToSquared a b := by
  have hcs := Vec3.dot_sq_le (Geom.Vec3.sub a b) F
  have h1 : K * Geom.Vec3.lengthSq F ≤
      Geom.Vec3.lengthSq (Geom.Vec3.sub a b) * Geom.Vec3.lengthSq F := by
    nlinarith
  exact le_of_mul_le_mul_right h1 hF

/-- Departure-tangent component of the floored `startTangentPoint` is
small. -/
theorem nu_ST_hi : Geom.Vec3.dot (Scen.em Scen.pST) Scen.tS0 ≤
    0.13525 * Scen.zet := by
  rw [em_pST, Scen.pST, dot_scaled 3020 Scen.XS Scen.tS0 Scen.mX rfl
    len_XS_ne, dot_XS_tS0]
  have hmX : (0:ℝ) < Scen.mX := lt_of_lt_of_le (by norm_num) mX_window.1
  have hmT : (0:ℝ) < Scen.mT := lt_of_lt_of_le (by norm_num) mT_window.1
  have he : 3020 * (240 / Scen.mT * (Scen.Zq / 3020 ^ 2)) / Scen.mX =
      724800 * Scen.zet / (Scen.mT * Scen.mX) := by
    rw [Zq_as_zet]
    field_simp
    ring
  rw [he, div_le_iff₀ (by positivity)]
  have hprod : (0:ℝ) ≤ (Scen.mT - 1770) * (Scen.mX - 3029) :=
    mul_nonneg (by linarith [mT_window.1]) (by linarith [mX_window.1])
  nlinarith [zet_nonneg, mT_window.1, mX_window.1,
    mul_nonneg (mul_nonneg (by linarith [mT_window.1] : (0:ℝ) ≤ Scen.mT - 1770)
      (by linarith [mX_window.1] : (0:ℝ) ≤ Scen.mX - 3029)) zet_nonneg]

/-- Arrival-tangent component of the floored `endTangentPoint` is
small. -/
theorem mu_ET_hi : Geom.Vec3.dot (Scen.em Scen.pET) Scen.tE0 ≤
    0.13525 * Scen.zet := by
  rw [em_pET, Scen.pET, dot_scaled 3020 Scen.XE Scen.tE0 Scen.mXe rfl
    len_XE_ne, dot_XE_tE0]
  have hmX : (0:ℝ) < Scen.mXe := lt_of_lt_of_le (by norm_num) mXe_window.1
  have hmT : (0:ℝ) < Scen.mTe := lt_of_lt_of_le (by norm_num) mTe_window.1
  have he : 3020 * (240 / Scen.mTe * (Scen.Zq / 3020 ^ 2)) / Scen.mXe =
      724800 * Scen.zet / (Scen.mTe * Scen.mXe) := by
    rw [Zq_as_zet]
    field_simp
    ring
  rw [he, div_le_iff₀ (by positivity)]
  nlinarith [zet_nonneg, mTe_window.1, mXe_window.1,
    mul_nonneg (mul_nonneg
      (by linarith [mTe_window.1] : (0:ℝ) ≤ Scen.mTe - 1770)
      (by linarith [mXe_window.1] : (0:ℝ) ≤ Scen.mXe - 3029)) zet_nonneg]

/-- Departure-tangent component of the floored `climbPoint1` (window
relative to `zet`). -/
theorem nu_C1_window : 0.2063 * Scen.zet ≤
    Geom.Vec3.dot (Scen.em Scen.pC1) Scen.tS0 ∧
    Geom.Vec3.dot (Scen.em Scen.pC1) Scen.tS0 ≤ 0.2126 * Scen.zet := by
  rw [em_pC1, dot_scaled _ _ Scen.tS0 (Geom.Vec3.length (Scen.lp 0.2)) rfl
    len_lp02_ne, dot_lp_tS0]
  have hpos : (0:ℝ) < Geom.Vec3.length (Scen.lp 0.2) :=
    lt_of_lt_of_le (by norm_num) len_lp02_window.1
  obtain ⟨hm1, hm2⟩ := len_lp02_window
  have hr1 : (3020 : ℝ) ≤ max (3000 + Scen.A * 0.4) 3020 := le_max_right _ _
  have hr2 : max (3000 + Scen.A * 0.4) 3020 ≤ 3088 :=
    max_le (by nlinarith [A_window.2]) (by norm_num)
  rw [show (0.2 : ℝ) * Scen.Zq / 3020 ^ 2 = 0.2 * Scen.zet by
    rw [Zq_as_zet]; ring]
  constructor
  · rw [le_div_iff₀ hpos]
    nlinarith [zet_nonneg,
      mul_nonneg (by linarith : (0:ℝ) ≤ max (3000 + Scen.A * 0.4) 3020 - 3020)
        zet_nonneg,
      mul_nonneg (by linarith : (0:ℝ) ≤ 2927 - Geom.Vec3.length (Scen.lp 0.2))
        zet_nonneg]
  · rw [div_le_iff₀ hpos]
    nlinarith [zet_nonneg,
      mul_nonneg (by linarith : (0:ℝ) ≤ 3088 - max (3000 + Scen.A * 0.4) 3020)
        zet_nonneg,
      mul_nonneg (by linarith : (0:ℝ) ≤ Geom.Vec3.length (Scen.lp 0.2) - 2906)
        zet_nonneg]

/-- Departure-tangent component of the floored `climbPoint2` (window
relative to `zet`). -/
theorem nu_C2_window : 0.3661 * Scen.zet ≤
    Geom.Vec3.dot (Scen.em Scen.pC2) Scen.tS0 ∧
    Geom.Vec3.dot (Scen.em Scen.pC2) Scen.tS0 ≤ 0.3878 * Scen.zet := by
  rw [em_pC2, dot_scaled _ _ Scen.tS0 (Geom.Vec3.length (Scen.lp 0.35)) rfl
    len_lp035_ne, dot_lp_tS0]
  have hpos : (0:ℝ) < Geom.Vec3.length (Scen.lp 0.35) :=
    lt_of_lt_of_le (by norm_num) len_lp035_window.1
  obtain ⟨hm1, hm2⟩ := len_lp035_window
  have hr1 : (3020 : ℝ) ≤ max (3000 + Scen.A * 0.75) 3020 := le_max_right _ _
  have hr2 : max (3000 + Scen.A * 0.75) 3020 ≤ 3165 :=
    max_le (by nlinarith [A_window.2]) (by norm_num)
  rw [show (0.35 : ℝ) * Scen.Zq / 3020 ^ 2 = 0.35 * Scen.zet by
    rw [Zq_as_zet]; ring]
  constructor
  · rw [le_div_iff₀ hpos]
    nlinarith [zet_nonneg,
      mul_nonneg (by linarith : (0:ℝ) ≤ max (3000 + Scen.A * 0.75) 3020 - 3020)
        zet_nonneg,
      mul_nonneg (by linarith : (0:ℝ) ≤ 2887 - Geom.Vec3.length (Scen.lp 0.35))
        zet_nonneg]
  · rw [div_le_iff₀ hpos]
    nlinarith [zet_nonneg,
      mul_nonneg (by linarith : (0:ℝ) ≤ 3165 - max (3000 + Scen.A * 0.75) 3020)
        zet_nonneg,
      mul_nonneg (by linarith : (0:ℝ) ≤ Geom.Vec3.length (Scen.lp 0.35) - 2857)
        zet_nonneg]

/-- Departure-tangent component of the floored `cruisePeak` is large. -/
theorem nu_CR_lo : 0.5255 * Scen.zet ≤
    Geom.Vec3.dot (Scen.em Scen.pCR) Scen.tS0 := by
  rw [em_pCR, dot_scaled _ _ Scen.tS0 (Geom.Vec3.length (Scen.lp 0.5)) rfl
    len_lp05_ne, dot_lp_tS0]
  have hpos : (0:ℝ) < Geom.Vec3.length (Scen.lp 0.5) :=
    lt_of_lt_of_le (by norm_num) len_lp05_window.1
  obtain ⟨hm1, hm2⟩ := len_lp05_window
  have hr1 : (3020 : ℝ) ≤ max (3000 + Scen.A * 0.85) 3020 := le_max_right _ _
  rw [show (0.5 : ℝ) * Scen.Zq / 3020 ^ 2 = 0.5 * Scen.zet by
    rw [Zq_as_zet]; ring]
  rw [le_div_iff₀ hpos]
  nlinarith [zet_nonneg,
    mul_nonneg (by linarith : (0:ℝ) ≤ max (3000 + Scen.A * 0.85) 3020 - 3020)
      zet_nonneg,
    mul_nonneg (by linarith : (0:ℝ) ≤ 2873 - Geom.Vec3.length (Scen.lp 0.5))
      zet_nonneg]

/-- Arrival-tangent component of the floored `descentPoint2` (window
relative to `zet`). -/
theorem mu_D2_window : 0.2063 * Scen.zet ≤
    Geom.Vec3.dot (Scen.em Scen.pD2) Scen.tE0 ∧
    Geom.Vec3.dot (Scen.em Scen.pD2) Scen.tE0 ≤ 0.2126 * Scen.zet := by
  rw [em_pD2, dot_scaled _ _ Scen.tE0 (Geom.Vec3.length (Scen.lp 0.8)) rfl
    len_lp08_ne, dot_lp_tE0]
  have hpos : (0:ℝ) < Geom.Vec3.length (Scen.lp 0.8) :=
    lt_of_lt_of_le (by norm_num) len_lp08_window.1
  obtain ⟨hm1, hm2⟩ := len_lp08_window
  have hr1 : (3020 : ℝ) ≤ max (3000 + Scen.A * 0.4) 3020 := le_max_right _ _
  have hr2 : max (3000 + Scen.A * 0.4) 3020 ≤ 3088 :=
    max_le (by nlinarith [A_window.2]) (by norm_num)
  rw [show ((1:ℝ) - 0.8) * Scen.Zq / 3020 ^ 2 = 0.2 * Scen.zet by
    rw [Zq_as_zet]; ring]
  constructor
  · rw [le_div_iff₀ hpos]
    nlinarith [zet_nonneg,
      mul_nonneg (by linarith : (0:ℝ) ≤ max (3000 + Scen.A * 0.4) 3020 - 3020)
        zet_nonneg,
      mul_nonneg (by linarith : (0:ℝ) ≤ 2927 - Geom.Vec3.length (Scen.lp 0.8))
        zet_nonneg]
  · rw [div_le_iff₀ hpos]
    nlinarith [zet_nonneg,
      mul_nonneg (by linarith : (0:ℝ) ≤ 3088 - max (3000 + Scen.A * 0.4) 3020)
        zet_nonneg,
      mul_nonneg (by linarith : (0:ℝ) ≤ Geom.Vec3.length (Scen.lp 0.8) - 2906)
        zet_nonneg]

/-- Arrival-tangent component of the floored `descentPoint1` (window
relative to `zet`). -/
theorem mu_D1_window : 0.3661 * Scen.zet ≤
    Geom.Vec3.dot (Scen.em Scen.pD1) Scen.tE0 ∧
    Geom.Vec3.dot (Scen.em Scen.pD1) Scen.tE0 ≤ 0.3878 * Scen.zet := by
  rw [em_pD1, dot_scaled _ _ Scen.tE0 (Geom.Vec3.length (Scen.lp 0.65)) rfl
    len_lp065_ne, dot_lp_tE0]
  have hpos : (0:ℝ) < Geom.Vec3.length (Scen.lp 0.65) :=
    lt_of_lt_of_le (by norm_num) len_lp065_window.1
  obtain ⟨hm1, hm2⟩ := len_lp065_window
  have hr1 : (3020 : ℝ) ≤ max (3000 + Scen.A * 0.75) 3020 := le_max_right _ _
  have hr2 : max (3000 + Scen.A * 0.75) 3020 ≤ 3165 :=
    max_le (by nlinarith [A_window.2]) (by norm_num)
  rw [show ((1:ℝ) - 0.65) * Scen.Zq / 3020 ^ 2 = 0.35 * Scen.zet by
    rw [Zq_as_zet]; ring]
  constructor
  · rw [le_div_iff₀ hpos]
    nlinarith [zet_nonneg,
      mul_nonneg (by linarith : (0:ℝ) ≤ max (3000 + Scen.A * 0.75) 3020 - 3020)
        zet_nonneg,
      mul_nonneg (by linarith : (0:ℝ) ≤ 2887 - Geom.Vec3.length (Scen.lp 0.65))
        zet_nonneg]
  · rw [div_le_iff₀ hpos]
    nlinarith [zet_nonneg,
      mul_nonneg (by linarith : (0:ℝ) ≤ 3165 - max (3000 + Scen.A * 0.75) 3020)
        zet_nonneg,
      mul_nonneg (by linarith : (0:ℝ) ≤ Geom.Vec3.length (Scen.lp 0.65) - 2857)
        zet_nonneg]

/-- Arrival-tangent component of the floored `cruisePeak` is large. -/
theorem mu_CR_lo : 0.5255 * Scen.zet ≤
    Geom.Vec3.dot (Scen.em Scen.pCR) Scen.tE0 := by
  rw [em_pCR, dot_scaled _ _ Scen.tE0 (Geom.Vec3.length (Scen.lp 0.5)) rfl
    len_lp05_ne, dot_lp_tE0]
  have hpos : (0:ℝ) < Geom.Vec3.length (Scen.lp 0.5) :=
    lt_of_lt_of_le (by norm_num) len_lp05_window.1
  obtain ⟨hm1, hm2⟩ := len_lp05_window
  have hr1 : (3020 : ℝ) ≤ max (3000 + Scen.A * 0.85) 3020 := le_max_right _ _
  rw [show ((1:ℝ) - 0.5) * Scen.Zq / 3020 ^ 2 = 0.5 * Scen.zet by
    rw [Zq_as_zet]; ring]
  rw [le_div_iff₀ hpos]
  nlinarith [zet_nonneg,
    mul_nonneg (by linarith : (0:ℝ) ≤ max (3000 + Scen.A * 0.85) 3020 - 3020)
      zet_nonneg,
    mul_nonneg (by linarith : (0:ℝ) ≤ 2873 - Geom.Vec3.length (Scen.lp 0.5))
      zet_nonneg]

/-- The squared norm of the departure tangent equals `zet`. -/
theorem lsq_tS0_eq : Geom.Vec3.lengthSq Scen.tS0 = Scen.zet := by
  show Geom.Vec3.dot _ _ = _
  rw [dot_tS0_tS0, Scen.zet]

/-- The squared norm of the arrival tangent equals `zet`. -/
theorem lsq_tE0_eq : Geom.Vec3.lengthSq Scen.tE0 = Scen.zet := by
  show Geom.Vec3.dot _ _ = _
  rw [dot_tE0_tE0, Scen.zet]

/-- The curve chord from the floored tangent point to `climbPoint1` is
far from degenerate. -/
theorem dsq01_q1 : 13000 ≤
    Geom.Vec3.distanceToSquared (Scen.em Scen.pST) (Scen.em Scen.pC1) := by
  rw [distSq_comm]
  refine dsq_lower_of_gap _ _ Scen.tS0 222000 13000 (by norm_num) ?_ ?_ ?_
  · rw [Vec3.dot_sub_left]
    have h1 := nu_C1_window.1
    have h2 := nu_ST_hi
    have hz := zet_window.1
    nlinarith
  · rw [lsq_tS0_eq]
    linarith [zet_window.1]
  · rw [lsq_tS0_eq]
    nlinarith [zet_window.2]

/-- The chord from `climbPoint1` to `climbPoint2` is far from
degenerate. -/
theorem dsq12_q1 : 62000 ≤
    Geom.Vec3.distanceToSquared (Scen.em Scen.pC1) (Scen.em Scen.pC2) := by
  rw [distSq_comm]
  refine dsq_lower_of_gap _ _ Scen.tS0 481000 62000 (by norm_num) ?_ ?_ ?_
  · rw [Vec3.dot_sub_left]
    have h1 := nu_C2_window.1
    have h2 := nu_C1_window.2
    have hz := zet_window.1
    nlinarith
  · rw [lsq_tS0_eq]
    linarith [zet_window.1]
  · rw [lsq_tS0_eq]
    nlinarith [zet_window.2]

/-- The chord from `climbPoint2` to `cruisePeak` is far from
degenerate. -/
theorem dsq23_q1 : 49000 ≤
    Geom.Vec3.distanceToSquared (Scen.em Scen.pC2) (Scen.em Scen.pCR) := by
  rw [distSq_comm]
  refine dsq_lower_of_gap _ _ Scen.tS0 431000 49000 (by norm_num) ?_ ?_ ?_
  · rw [Vec3.dot_sub_left]
    have h1 := nu_CR_lo
    have h2 := nu_C2_window.2
    have hz := zet_window.1
    nlinarith
  · rw [lsq_tS0_eq]
    linarith [zet_window.1]
  · rw [lsq_tS0_eq]
    nlinarith [zet_window.2]

/-- The chord from `cruisePeak` to `descentPoint1` is far from
degenerate. -/
theorem dsq01_q2 : 49000 ≤
    Geom.Vec3.distanceToSquared (Scen.em Scen.pCR) (Scen.em Scen.pD1) := by
  refine dsq_lower_of_gap _ _ Scen.tE0 431000 49000 (by norm_num) ?_ ?_ ?_
  · rw [Vec3.dot_sub_left]
    have h1 := mu_CR_lo
    have h2 := mu_D1_window.2
    have hz := zet_window.1
    nlinarith
  · rw [lsq_tE0_eq]
    linarith [zet_window.1]
  · rw [lsq_tE0_eq]
    nlinarith [zet_window.2]

/-- The chord from `descentPoint1` to `descentPoint2` is far from
degenerate. -/
theorem dsq12_q2 : 62000 ≤
    Geom.Vec3.distanceToSquared (Scen.em Scen.pD1) (Scen.em Scen.pD2) := by
  refine dsq_lower_of_gap _ _ Scen.tE0 481000 62000 (by norm_num) ?_ ?_ ?_
  · rw [Vec3.dot_sub_left]
    have h1 := mu_D1_window.1
    have h2 := mu_D2_window.2
    have hz := zet_window.1
    nlinarith
  · rw [lsq_tE0_eq]
    linarith [zet_window.1]
  · rw [lsq_tE0_eq]
    nlinarith [zet_window.2]

/-- The chord from `descentPoint2` to the floored arrival tangent point
is far from degenerate. -/
theorem dsq23_q2 : 13000 ≤
    Geom.Vec3.distanceToSquared (Scen.em Scen.pD2) (Scen.em Scen.pET) := by
  refine dsq_lower_of_gap _ _ Scen.tE0 222000 13000 (by norm_num) ?_ ?_ ?_
  · rw [Vec3.dot_sub_left]
    have h1 := mu_D2_window.1
    have h2 := mu_ET_hi
    have hz := zet_window.1
    nlinarith
  · rw [lsq_tE0_eq]
    linarith [zet_window.1]
  · rw [lsq_tE0_eq]
    nlinarith [zet_window.2]

/-- The squared norm of a positively scaled unit direction. -/
theorem dot_self_scaled (ρ : ℝ) (v : Geom.Vec3) (hρ : 0 < ρ)
    (hv : Geom.Vec3.length v ≠ 0) :
    Geom.Vec3.dot (Geom.Vec3.smul ρ (Geom.Vec3.normalizeJS v))
      (Geom.Vec3.smul ρ (Geom.Vec3.normalizeJS v)) = ρ ^ 2 := by
  have h : Geom.Vec3.lengthSq
      (Geom.Vec3.smul ρ (Geom.Vec3.normalizeJS v)) = ρ ^ 2 := by
    rw [← Vec3.length_sq_eq, length_scaled ρ v hρ hv]
  exact h

/-- The two mid-climb points stay within chord distance `√500000`. -/
theorem dsq12_q1_hi :
    Geom.Vec3.distanceToSquared (Scen.em Scen.pC1) (Scen.em Scen.pC2) ≤
      500000 := by
  have hA := A_window
  have hρ1pos : (0:ℝ) < 3000 + Scen.A * 0.4 := by nlinarith [hA.1]
  have hρ2pos : (0:ℝ) < 3000 + Scen.A * 0.75 := by nlinarith [hA.1]
  have hr11 : (3020 : ℝ) ≤ max (3000 + Scen.A * 0.4) 3020 := le_max_right _ _
  have hr12 : max (3000 + Scen.A * 0.4) 3020 ≤ 3088 :=
    max_le (by nlinarith [hA.2]) (by norm_num)
  have hr21 : (3020 : ℝ) ≤ max (3000 + Scen.A * 0.75) 3020 := le_max_right _ _
  have hr22 : max (3000 + Scen.A * 0.75) 3020 ≤ 3165 :=
    max_le (by nlinarith [hA.2]) (by norm_num)
  have hm2pos : (0:ℝ) < Geom.Vec3.length (Scen.lp 0.2) :=
    lt_of_lt_of_le (by norm_num) len_lp02_window.1
  have hm35pos : (0:ℝ) < Geom.Vec3.length (Scen.lp 0.35) :=
    lt_of_lt_of_le (by norm_num) len_lp035_window.1
  have haa : Geom.Vec3.dot (Scen.em Scen.pC1) (Scen.em Scen.pC1) =
      (max (3000 + Scen.A * 0.4) 3020) ^ 2 := by
    rw [em_pC1]
    exact dot_self_scaled _ _ (by positivity) len_lp02_ne
  have hbb : Geom.Vec3.dot (Scen.em Scen.pC2) (Scen.em Scen.pC2) =
      (max (3000 + Scen.A * 0.75) 3020) ^ 2 := by
    rw [em_pC2]
    exact dot_self_scaled _ _ (by positivity) len_lp035_ne
  have hab : 0.977 * (max (3000 + Scen.A * 0.4) 3020 *
      max (3000 + Scen.A * 0.75) 3020) ≤
      Geom.Vec3.dot (Scen.em Scen.pC1) (Scen.em Scen.pC2) := by
    rw [em_pC1, em_pC2, dot_scaled _ _ _ (Geom.Vec3.length (Scen.lp 0.2)) rfl
      len_lp02_ne, Vec3.dot_comm (Scen.lp 0.2),
      dot_scaled _ _ _ (Geom.Vec3.length (Scen.lp 0.35)) rfl len_lp035_ne,
      dot_lp_lp]
    rw [le_div_iff₀ hm2pos, ← mul_div_assoc, le_div_iff₀ hm35pos]
    have hD : (8260346 : ℝ) ≤
        ((1 - 0.35) * (1 - 0.2) + 0.35 * 0.2) * 3020 ^ 2 +
          (0.35 * (1 - 0.2) + 0.2 * (1 - 0.35)) * Scen.W := by
      nlinarith [W_window.1]
    have hlen : 0.977 * (Geom.Vec3.length (Scen.lp 0.2) *
        Geom.Vec3.length (Scen.lp 0.35)) ≤
        ((1 - 0.35) * (1 - 0.2) + 0.35 * 0.2) * 3020 ^ 2 +
          (0.35 * (1 - 0.2) + 0.2 * (1 - 0.35)) * Scen.W := by
      nlinarith [W_window.1, len_lp02_window.2, len_lp035_window.2,
        mul_nonneg (by linarith [len_lp02_window.2] :
          (0:ℝ) ≤ 2927 - Geom.Vec3.length (Scen.lp 0.2))
          (by linarith [len_lp035_window.2] :
          (0:ℝ) ≤ 2887 - Geom.Vec3.length (Scen.lp 0.35))]
    have hρρ : (0:ℝ) ≤ max (3000 + Scen.A * 0.4) 3020 *
        max (3000 + Scen.A * 0.75) 3020 := by positivity
    nlinarith [mul_nonneg hρρ (by linarith :
      (0:ℝ) ≤ ((1 - 0.35) * (1 - 0.2) + 0.35 * 0.2) * 3020 ^ 2 +
        (0.35 * (1 - 0.2) + 0.2 * (1 - 0.35)) * Scen.W -
        0.977 * (Geom.Vec3.length (Scen.lp 0.2) *
          Geom.Vec3.length (Scen.lp 0.35)))]
  rw [distSq_expand, haa, hbb]
  nlinarith [hab,
    mul_nonneg (by linarith : (0:ℝ) ≤ max (3000 + Scen.A * 0.4) 3020 - 3020)
      (by linarith : (0:ℝ) ≤ max (3000 + Scen.A * 0.75) 3020 - 3020),
    mul_nonneg (by linarith : (0:ℝ) ≤ 3088 - max (3000 + Scen.A * 0.4) 3020)
      (by linarith : (0:ℝ) ≤ 3165 - max (3000 + Scen.A * 0.75) 3020),
    mul_nonneg (by linarith : (0:ℝ) ≤ 3088 - max (3000 + Scen.A * 0.4) 3020)
      (by linarith : (0:ℝ) ≤ max (3000 + Scen.A * 0.75) 3020 - 3020),
    mul_nonneg (by linarith : (0:ℝ) ≤ max (3000 + Scen.A * 0.4) 3020 - 3020)
      (by linarith : (0:ℝ) ≤ 3165 - max (3000 + Scen.A * 0.75) 3020)]

/-- The two mid-descent points stay within chord distance `√500000`. -/
theorem dsq12_q2_hi :
    Geom.Vec3.distanceToSquared (Scen.em Scen.pD1) (Scen.em Scen.pD2) ≤
      500000 := by
  have hA := A_window
  have hr11 : (3020 : ℝ) ≤ max (3000 + Scen.A * 0.75) 3020 := le_max_right _ _
  have hr12 : max (3000 + Scen.A * 0.75) 3020 ≤ 3165 :=
    max_le (by nlinarith [hA.2]) (by norm_num)
  have hr21 : (3020 : ℝ) ≤ max (3000 + Scen.A * 0.4) 3020 := le_max_right _ _
  have hr22 : max (3000 + Scen.A * 0.4) 3020 ≤ 3088 :=
    max_le (by nlinarith [hA.2]) (by norm_num)
  have hm65pos : (0:ℝ) < Geom.Vec3.length (Scen.lp 0.65) :=
    lt_of_lt_of_le (by norm_num) len_lp065_window.1
  have hm8pos : (0:ℝ) < Geom.Vec3.length (Scen.lp 0.8) :=
    lt_of_lt_of_le (by norm_num) len_lp08_window.1
  have haa : Geom.Vec3.dot (Scen.em Scen.pD1) (Scen.em Scen.pD1) =
      (max (3000 + Scen.A * 0.75) 3020) ^ 2 := by
    rw [em_pD1]
    exact dot_self_scaled _ _ (by positivity) len_lp065_ne
  have hbb : Geom.Vec3.dot (Scen.em Scen.pD2) (Scen.em Scen.pD2) =
      (max (3000 + Scen.A * 0.4) 3020) ^ 2 := by
    rw [em_pD2]
    exact dot_self_scaled _ _ (by positivity) len_lp08_ne
  have hab : 0.977 * (max (3000 + Scen.A * 0.75) 3020 *
      max (3000 + Scen.A * 0.4) 3020) ≤
      Geom.Vec3.dot (Scen.em Scen.pD1) (Scen.em Scen.pD2) := by
    rw [em_pD1, em_pD2, dot_scaled _ _ _ (Geom.Vec3.length (Scen.lp 0.65)) rfl
      len_lp065_ne, Vec3.dot_comm (Scen.lp 0.65),
      dot_scaled _ _ _ (Geom.Vec3.length (Scen.lp 0.8)) rfl len_lp08_ne,
      dot_lp_lp]
    rw [le_div_iff₀ hm65pos, ← mul_div_assoc, le_div_iff₀ hm8pos]
    have hlen : 0.977 * (Geom.Vec3.length (Scen.lp 0.65) *
        Geom.Vec3.length (Scen.lp 0.8)) ≤
        ((1 - 0.8) * (1 - 0.65) + 0.8 * 0.65) * 3020 ^ 2 +
          (0.8 * (1 - 0.65) + 0.65 * (1 - 0.8)) * Scen.W := by
      nlinarith [W_window.1, len_lp065_window.2, len_lp08_window.2,
        mul_nonneg (by linarith [len_lp065_window.2] :
          (0:ℝ) ≤ 2887 - Geom.Vec3.length (Scen.lp 0.65))
          (by linarith [len_lp08_window.2] :
          (0:ℝ) ≤ 2927 - Geom.Vec3.length (Scen.lp 0.8))]
    have hρρ : (0:ℝ) ≤ max (3000 + Scen.A * 0.75) 3020 *
        max (3000 + Scen.A * 0.4) 3020 := by positivity
    nlinarith [mul_nonneg hρρ (by linarith :
      (0:ℝ) ≤ ((1 - 0.8) * (1 - 0.65) + 0.8 * 0.65) * 3020 ^ 2 +
        (0.8 * (1 - 0.65) + 0.65 * (1 - 0.8)) * Scen.W -
        0.977 * (Geom.Vec3.length (Scen.lp 0.65) *
          Geom.Vec3.length (Scen.lp 0.8)))]
  rw [distSq_expand, haa, hbb]
  nlinarith [hab,
    mul_nonneg (by linarith : (0:ℝ) ≤ max (3000 + Scen.A * 0.75) 3020 - 3020)
      (by linarith : (0:ℝ) ≤ max (3000 + Scen.A * 0.4) 3020 - 3020),
    mul_nonneg (by linarith : (0:ℝ) ≤ 3165 - max (3000 + Scen.A * 0.75) 3020)
      (by linarith : (0:ℝ) ≤ 3088 - max (3000 + Scen.A * 0.4) 3020),
    mul_nonneg (by linarith : (0:ℝ) ≤ 3165 - max (3000 + Scen.A * 0.75) 3020)
      (by linarith : (0:ℝ) ≤ max (3000 + Scen.A * 0.4) 3020 - 3020),
    mul_nonneg (by linarith : (0:ℝ) ≤ max (3000 + Scen.A * 0.75) 3020 - 3020)
      (by linarith : (0:ℝ) ≤ 3088 - max (3000 + Scen.A * 0.4) 3020)]

/-- Fourth roots respect the factor-81 domination. -/
theorem rpow_quarter_le (x y : ℝ) (hx : 0 ≤ x) (hy : 0 ≤ y)
    (h : x ≤ 81 * y) :
    Real.rpow x 0.25 ≤ 3 * Real.rpow y 0.25 := by
  have h81 : Real.rpow (81 : ℝ) 0.25 = 3 := by
    have hgoal : ((81 : ℝ) ^ (0.25 : ℝ)) = 3 := by
      rw [show (81 : ℝ) = 3 ^ (4 : ℝ) by
        rw [show (4 : ℝ) = ((4 : ℕ) : ℝ) by norm_num, Real.rpow_natCast]
        norm_num]
      rw [← Real.rpow_mul (by norm_num : (0:ℝ) ≤ 3),
        show (4 : ℝ) * 0.25 = 1 by norm_num, Real.rpow_one]
    exact hgoal
  calc Real.rpow x 0.25 ≤ Real.rpow (81 * y) 0.25 :=
        Real.rpow_le_rpow hx h (by norm_num)
    _ = Real.rpow 81 0.25 * Real.rpow y 0.25 :=
        Real.mul_rpow (by norm_num) hy
    _ = 3 * Real.rpow y 0.25 := by rw [h81]

/-- The fourth root of a quantity at least 1 is at least 1. -/
theorem rpow_quarter_ge_one (x : ℝ) (h : 1 ≤ x) :
    1 ≤ Real.rpow x 0.25 := by
  calc (1 : ℝ) = Real.rpow 1 0.25 := (Real.one_rpow _).symm
    _ ≤ Real.rpow x 0.25 := Real.rpow_le_rpow (by norm_num) h (by norm_num)

set_option maxHeartbeats 1600000 in
/-- Positivity of the centripetal Hermite blend: if the two anchor
values are at least `L`, all pairwise differences of the knot values
are within `D`, the middle knot spacing does not exceed three times its
neighbours and `5D/2 < L`, the blended value stays positive for every
weight in `[0, 1]`. -/
theorem cpCalc_blend_pos (x0 x1 x2 x3 dt0 dt1 dt2 w L D : ℝ)
    (hdt0 : 0 < dt0) (hdt1 : 0 < dt1) (hdt2 : 0 < dt2)
    (hr0 : dt1 ≤ 3 * dt0) (hr2 : dt1 ≤ 3 * dt2)
    (hw0 : 0 ≤ w) (hw1 : w ≤ 1)
    (hx1 : L ≤ x1) (hx2 : L ≤ x2)
    (h10 : |x1 - x0| ≤ D) (h20 : |x2 - x0| ≤ D) (h21 : |x2 - x1| ≤ D)
    (h31 : |x3 - x1| ≤ D) (h32 : |x3 - x2| ≤ D)
    (hD : 0 ≤ D) (hLD : 5 * D / 2 < L) :
    0 < Geom.cpCalc (Geom.cpInitNonuniform x0 x1 x2 x3 dt0 dt1 dt2) w := by
  have hq0 : (0:ℝ) < dt0 + dt1 := by linarith
  have hq2 : (0:ℝ) < dt1 + dt2 := by linarith
  have e1 : ((x1 - x0) / dt0 - (x2 - x0) / (dt0 + dt1) +
      (x2 - x1) / dt1) * dt1 =
      dt1 / dt0 * (x1 - x0) - dt1 / (dt0 + dt1) * (x2 - x0) + (x2 - x1) := by
    field_simp
    ring
  have e2 : ((x2 - x1) / dt1 - (x3 - x1) / (dt1 + dt2) +
      (x3 - x2) / dt2) * dt1 =
      (x2 - x1) - dt1 / (dt1 + dt2) * (x3 - x1) + dt1 / dt2 * (x3 - x2) := by
    field_simp
    ring
  have hA : |dt1 / dt0 * (x1 - x0)| ≤ 3 * D := by
    rw [abs_mul, abs_of_pos (div_pos hdt1 hdt0)]
    have hr : dt1 / dt0 ≤ 3 := (div_le_iff₀ hdt0).mpr (by linarith)
    nlinarith [abs_nonneg (x1 - x0),
      mul_nonneg (by linarith : (0:ℝ) ≤ 3 - dt1 / dt0) (abs_nonneg (x1 - x0))]
  have hB : |dt1 / (dt0 + dt1) * (x2 - x0)| ≤ D := by
    rw [abs_mul, abs_of_pos (div_pos hdt1 hq0)]
    have hr : dt1 / (dt0 + dt1) ≤ 1 := (div_le_iff₀ hq0).mpr (by linarith)
    nlinarith [abs_nonneg (x2 - x0),
      mul_nonneg (by linarith : (0:ℝ) ≤ 1 - dt1 / (dt0 + dt1))
        (abs_nonneg (x2 - x0))]
  have hBe : |dt1 / (dt1 + dt2) * (x3 - x1)| ≤ D := by
    rw [abs_mul, abs_of_pos (div_pos hdt1 hq2)]
    have hr : dt1 / (dt1 + dt2) ≤ 1 := (div_le_iff₀ hq2).mpr (by linarith)
    nlinarith [abs_nonneg (x3 - x1),
      mul_nonneg (by linarith : (0:ℝ) ≤ 1 - dt1 / (dt1 + dt2))
        (abs_nonneg (x3 - x1))]
  have hAe : |dt1 / dt2 * (x3 - x2)| ≤ 3 * D := by
    rw [abs_mul, abs_of_pos (div_pos hdt1 hdt2)]
    have hr : dt1 / dt2 ≤ 3 := (div_le_iff₀ hdt2).mpr (by linarith)
    nlinarith [abs_nonneg (x3 - x2),
      mul_nonneg (by linarith : (0:ℝ) ≤ 3 - dt1 / dt2) (abs_nonneg (x3 - x2))]
  obtain ⟨hAl, hAu⟩ := abs_le.mp hA
  obtain ⟨hBl, hBu⟩ := abs_le.mp hB
  obtain ⟨hBel, hBeu⟩ := abs_le.mp hBe
  obtain ⟨hAel, hAeu⟩ := abs_le.mp hAe
  obtain ⟨hCl, hCu⟩ := abs_le.mp h21
  have hs1l : -(5 * D) ≤ ((x1 - x0) / dt0 - (x2 - x0) / (dt0 + dt1) +
      (x2 - x1) / dt1) * dt1 := by
    rw [e1]
    linarith
  have hs1u : ((x1 - x0) / dt0 - (x2 - x0) / (dt0 + dt1) +
      (x2 - x1) / dt1) * dt1 ≤ 5 * D := by
    rw [e1]
    linarith
  have hs2l : -(5 * D) ≤ ((x2 - x1) / dt1 - (x3 - x1) / (dt1 + dt2) +
      (x3 - x2) / dt2) * dt1 := by
    rw [e2]
    linarith
  have hs2u : ((x2 - x1) / dt1 - (x3 - x1) / (dt1 + dt2) +
      (x3 - x2) / dt2) * dt1 ≤ 5 * D := by
    rw [e2]
    linarith
  simp only [Geom.cpCalc, Geom.cpInitNonuniform, Geom.cpInit]
  nlinarith [mul_nonneg (by linarith : (0:ℝ) ≤ x1 - L)
      (mul_nonneg (sq_nonneg (1 - w)) (by linarith : (0:ℝ) ≤ 1 + 2 * w)),
    mul_nonneg (by linarith : (0:ℝ) ≤ x2 - L)
      (mul_nonneg (sq_nonneg w) (by linarith : (0:ℝ) ≤ 3 - 2 * w)),
    mul_nonneg (by linarith : (0:ℝ) ≤ ((x1 - x0) / dt0 -
        (x2 - x0) / (dt0 + dt1) + (x2 - x1) / dt1) * dt1 + 5 * D)
      (mul_nonneg hw0 (sq_nonneg (1 - w))),
    mul_nonneg (by linarith : (0:ℝ) ≤ 5 * D - ((x2 - x1) / dt1 -
        (x3 - x1) / (dt1 + dt2) + (x3 - x2) / dt2) * dt1)
      (mul_nonneg (sq_nonneg w) (by linarith : (0:ℝ) ≤ 1 - w)),
    mul_nonneg (by linarith : (0:ℝ) ≤ 5 * D) (sq_nonneg (w - 1 / 2))]

/-- The centripetal blend commutes with any linear functional. -/
theorem dot_crBlend (p0 p1 p2 p3 X : Geom.Vec3) (dt0 dt1 dt2 w : ℝ) :
    Geom.Vec3.dot
      ⟨Geom.cpCalc (Geom.cpInitNonuniform p0.x p1.x p2.x p3.x dt0 dt1 dt2) w,
       Geom.cpCalc (Geom.cpInitNonuniform p0.y p1.y p2.y p3.y dt0 dt1 dt2) w,
       Geom.cpCalc (Geom.cpInitNonuniform p0.z p1.z p2.z p3.z dt0 dt1 dt2) w⟩
      X =
    Geom.cpCalc (Geom.cpInitNonuniform (Geom.Vec3.dot p0 X)
      (Geom.Vec3.dot p1 X) (Geom.Vec3.dot p2 X) (Geom.Vec3.dot p3 X)
      dt0 dt1 dt2) w := by
  unfold Geom.cpCalc Geom.cpInitNonuniform Geom.cpInit Geom.Vec3.dot
  ring

/-- `getPoint(0)` on a 9-point open centripetal curve is the first
control point. -/
theorem crGetPoint_zero (v1 v2 v3 v4 v5 v6 v7 v8 v9 : Geom.Vec3) :
    Geom.crGetPoint [v1, v2, v3, v4, v5, v6, v7, v8, v9] 0 = v1 := by
  have hlen : List.length [v1, v2, v3, v4, v5, v6, v7, v8, v9] = 9 := rfl
  simp only [Geom.crGetPoint, hlen]
  have hfl : (⌊(((9 : ℕ) : ℝ) - 1) * 0⌋ : ℤ) = 0 := by
    rw [Int.floor_eq_iff]
    norm_num
  simp only [hfl]
  have hcond : ¬ ((((9 : ℕ) : ℝ) - 1) * 0 - ((0 : ℤ) : ℝ) = 0 ∧
      (0 : ℤ) = ((9 : ℕ) : ℤ) - 1) := by
    rintro ⟨-, hC⟩
    norm_num at hC
  rw [if_neg hcond, if_neg hcond, if_neg (show ¬ (0 : ℤ) < 0 by norm_num),
    if_pos (show (0 : ℤ) + 2 < ((9 : ℕ) : ℤ) by norm_num)]
  have e1 : List.getD [v1, v2, v3, v4, v5, v6, v7, v8, v9]
      (Int.toNat (0 : ℤ) % 9) Geom.zero3 = v1 := rfl
  have e2 : List.getD [v1, v2, v3, v4, v5, v6, v7, v8, v9]
      (Int.toNat ((0 : ℤ) + 1) % 9) Geom.zero3 = v2 := rfl
  have e3 : List.getD [v1, v2, v3, v4, v5, v6, v7, v8, v9]
      (Int.toNat ((0 : ℤ) + 2) % 9) Geom.zero3 = v3 := rfl
  rw [e1, e2, e3]
  have hw : (((9 : ℕ) : ℝ) - 1) * 0 - ((0 : ℤ) : ℝ) = 0 := by norm_num
  rw [hw]
  conv_rhs => rw [show v1 = (⟨v1.x, v1.y, v1.z⟩ : Geom.Vec3) from rfl]
  simp only [Geom.cpCalc, Geom.cpInitNonuniform, Geom.cpInit,
    Geom.Vec3.mk.injEq]
  refine ⟨by ring, by ring, by ring⟩

/-- `getPoint(1)` on a 9-point open centripetal curve is the last
control point. -/
theorem crGetPoint_one (v1 v2 v3 v4 v5 v6 v7 v8 v9 : Geom.Vec3) :
    Geom.crGetPoint [v1, v2, v3, v4, v5, v6, v7, v8, v9] 1 = v9 := by
  have hlen : List.length [v1, v2, v3, v4, v5, v6, v7, v8, v9] = 9 := rfl
  simp only [Geom.crGetPoint, hlen]
  have hfl : (⌊(((9 : ℕ) : ℝ) - 1) * 1⌋ : ℤ) = 8 := by
    rw [Int.floor_eq_iff]
    norm_num
  simp only [hfl]
  have hcond : ((((9 : ℕ) : ℝ) - 1) * 1 - ((8 : ℤ) : ℝ) = 0 ∧
      (8 : ℤ) = ((9 : ℕ) : ℤ) - 1) := by
    norm_num
  rw [if_pos hcond, if_pos hcond,
    if_pos (show (0 : ℤ) < ((9 : ℕ) : ℤ) - 2 by norm_num),
    if_neg (show ¬ ((9 : ℕ) : ℤ) - 2 + 2 < ((9 : ℕ) : ℤ) by norm_num)]
  have e0 : List.getD [v1, v2, v3, v4, v5, v6, v7, v8, v9]
      (Int.toNat (((9 : ℕ) : ℤ) - 2 - 1) % 9) Geom.zero3 = v7 := rfl
  have e1 : List.getD [v1, v2, v3, v4, v5, v6, v7, v8, v9]
      (Int.toNat (((9 : ℕ) : ℤ) - 2) % 9) Geom.zero3 = v8 := rfl
  have e2 : List.getD [v1, v2, v3, v4, v5, v6, v7, v8, v9]
      (Int.toNat (((9 : ℕ) : ℤ) - 2 + 1) % 9) Geom.zero3 = v9 := rfl
  have e8 : List.getD [v1, v2, v3, v4, v5, v6, v7, v8, v9] (9 - 1)
      Geom.zero3 = v9 := rfl
  have e7 : List.getD [v1, v2, v3, v4, v5, v6, v7, v8, v9] (9 - 2)
      Geom.zero3 = v8 := rfl
  rw [e0, e1, e2, e8, e7]
  conv_rhs => rw [show v9 = (⟨v9.x, v9.y, v9.z⟩ : Geom.Vec3) from rfl]
  simp only [Geom.cpCalc, Geom.cpInitNonuniform, Geom.cpInit,
    Geom.Vec3.mk.injEq]
  refine ⟨by ring, by ring, by ring⟩

/-- `getPoint(0.333)` on a 9-point open centripetal curve, when the
middle knots are non-degenerate, is the Hermite blend of points 2–5
at weight `0.664`. -/
theorem crGetPoint_c1 (v1 v2 v3 v4 v5 v6 v7 v8 v9 : Geom.Vec3)
    (hd0 : 1 ≤ Geom.Vec3.distanceToSquared v2 v3)
    (hd1 : 1 ≤ Geom.Vec3.distanceToSquared v3 v4)
    (hd2 : 1 ≤ Geom.Vec3.distanceToSquared v4 v5) :
    Geom.crGetPoint [v1, v2, v3, v4, v5, v6, v7, v8, v9] 0.333 =
      ⟨Geom.cpCalc (Geom.cpInitNonuniform v2.x v3.x v4.x v5.x
          (Real.rpow (Geom.Vec3.distanceToSquared v2 v3) 0.25)
          (Real.rpow (Geom.Vec3.distanceToSquared v3 v4) 0.25)
          (Real.rpow (Geom.Vec3.distanceToSquared v4 v5) 0.25)) 0.664,
       Geom.cpCalc (Geom.cpInitNonuniform v2.y v3.y v4.y v5.y
          (Real.rpow (Geom.Vec3.distanceToSquared v2 v3) 0.25)
          (Real.rpow (Geom.Vec3.distanceToSquared v3 v4) 0.25)
          (Real.rpow (Geom.Vec3.distanceToSquared v4 v5) 0.25)) 0.664,
       Geom.cpCalc (Geom.cpInitNonuniform v2.z v3.z v4.z v5.z
          (Real.rpow (Geom.Vec3.distanceToSquared v2 v3) 0.25)
          (Real.rpow (Geom.Vec3.distanceToSquared v3 v4) 0.25)
          (Real.rpow (Geom.Vec3.distanceToSquared v4 v5) 0.25)) 0.664⟩ := by
  have hlen : List.length [v1, v2, v3, v4, v5, v6, v7, v8, v9] = 9 := rfl
  simp only [Geom.crGetPoint, hlen]
  have hfl : (⌊(((9 : ℕ) : ℝ) - 1) * 0.333⌋ : ℤ) = 2 := by
    rw [Int.floor_eq_iff]
    norm_num
  simp only [hfl]
  have hcond : ¬ ((((9 : ℕ) : ℝ) - 1) * 0.333 - ((2 : ℤ) : ℝ) = 0 ∧
      (2 : ℤ) = ((9 : ℕ) : ℤ) - 1) := by
    rintro ⟨-, hC⟩
    norm_num at hC
  rw [if_neg hcond, if_neg hcond,
    if_pos (show (0 : ℤ) < 2 by norm_num),
    if_pos (show (2 : ℤ) + 2 < ((9 : ℕ) : ℤ) by norm_num)]
  have e0 : List.getD [v1, v2, v3, v4, v5, v6, v7, v8, v9]
      (Int.toNat ((2 : ℤ) - 1) % 9) Geom.zero3 = v2 := rfl
  have e1 : List.getD [v1, v2, v3, v4, v5, v6, v7, v8, v9]
      (Int.toNat (2 : ℤ) % 9) Geom.zero3 = v3 := rfl
  have e2 : List.getD [v1, v2, v3, v4, v5, v6, v7, v8, v9]
      (Int.toNat ((2 : ℤ) + 1) % 9) Geom.zero3 = v4 := rfl
  have e3 : List.getD [v1, v2, v3, v4, v5, v6, v7, v8, v9]
      (Int.toNat ((2 : ℤ) + 2) % 9) Geom.zero3 = v5 := rfl
  rw [e0, e1, e2, e3]
  have hg0 : ¬ Real.rpow (Geom.Vec3.distanceToSquared v2 v3) 0.25 <
      1 / 10000 :=
    not_lt.mpr (by linarith [rpow_quarter_ge_one _ hd0])
  have hg1 : ¬ Real.rpow (Geom.Vec3.distanceToSquared v3 v4) 0.25 <
      1 / 10000 :=
    not_lt.mpr (by linarith [rpow_quarter_ge_one _ hd1])
  have hg2 : ¬ Real.rpow (Geom.Vec3.distanceToSquared v4 v5) 0.25 <
      1 / 10000 :=
    not_lt.mpr (by linarith [rpow_quarter_ge_one _ hd2])
  rw [if_neg hg1, if_neg hg0, if_neg hg2]
  have hw : (((9 : ℕ) : ℝ) - 1) * 0.333 - ((2 : ℤ) : ℝ) = 0.664 := by
    norm_num
  rw [hw]

/-- `getPoint(0.666)` on a 9-point open centripetal curve, when the
middle knots are non-degenerate, is the Hermite blend of points 5–8
at weight `0.328`. -/
theorem crGetPoint_d2 (v1 v2 v3 v4 v5 v6 v7 v8 v9 : Geom.Vec3)
    (hd0 : 1 ≤ Geom.Vec3.distanceToSquared v5 v6)
    (hd1 : 1 ≤ Geom.Vec3.distanceToSquared v6 v7)
    (hd2 : 1 ≤ Geom.Vec3.distanceToSquared v7 v8) :
    Geom.crGetPoint [v1, v2, v3, v4, v5, v6, v7, v8, v9] 0.666 =
      ⟨Geom.cpCalc (Geom.cpInitNonuniform v5.x v6.x v7.x v8.x
          (Real.rpow (Geom.Vec3.distanceToSquared v5 v6) 0.25)
          (Real.rpow (Geom.Vec3.distanceToSquared v6 v7) 0.25)
          (Real.rpow (Geom.Vec3.distanceToSquared v7 v8) 0.25)) 0.328,
       Geom.cpCalc (Geom.cpInitNonuniform v5.y v6.y v7.y v8.y
          (Real.rpow (Geom.Vec3.distanceToSquared v5 v6) 0.25)
          (Real.rpow (Geom.Vec3.distanceToSquared v6 v7) 0.25)
          (Real.rpow (Geom.Vec3.distanceToSquared v7 v8) 0.25)) 0.328,
       Geom.cpCalc (Geom.cpInitNonuniform v5.z v6.z v7.z v8.z
          (Real.rpow (Geom.Vec3.distanceToSquared v5 v6) 0.25)
          (Real.rpow (Geom.Vec3.distanceToSquared v6 v7) 0.25)
          (Real.rpow (Geom.Vec3.distanceToSquared v7 v8) 0.25)) 0.328⟩ := by
  have hlen : List.length [v1, v2, v3, v4, v5, v6, v7, v8, v9] = 9 := rfl
  simp only [Geom.crGetPoint, hlen]
  have hfl : (⌊(((9 : ℕ) : ℝ) - 1) * 0.666⌋ : ℤ) = 5 := by
    rw [Int.floor_eq_iff]
    norm_num
  simp only [hfl]
  have hcond : ¬ ((((9 : ℕ) : ℝ) - 1) * 0.666 - ((5 : ℤ) : ℝ) = 0 ∧
      (5 : ℤ) = ((9 : ℕ) : ℤ) - 1) := by
    rintro ⟨-, hC⟩
    norm_num at hC
  rw [if_neg hcond, if_neg hcond,
    if_pos (show (0 : ℤ) < 5 by norm_num),
    if_pos (show (5 : ℤ) + 2 < ((9 : ℕ) : ℤ) by norm_num)]
  have e0 : List.getD [v1, v2, v3, v4, v5, v6, v7, v8, v9]
      (Int.toNat ((5 : ℤ) - 1) % 9) Geom.zero3 = v5 := rfl
  have e1 : List.getD [v1, v2, v3, v4, v5, v6, v7, v8, v9]
      (Int.toNat (5 : ℤ) % 9) Geom.zero3 = v6 := rfl
  have e2 : List.getD [v1, v2, v3, v4, v5, v6, v7, v8, v9]
      (Int.toNat ((5 : ℤ) + 1) % 9) Geom.zero3 = v7 := rfl
  have e3 : List.getD [v1, v2, v3, v4, v5, v6, v7, v8, v9]
      (Int.toNat ((5 : ℤ) + 2) % 9) Geom.zero3 = v8 := rfl
  rw [e0, e1, e2, e3]
  have hg0 : ¬ Real.rpow (Geom.Vec3.distanceToSquared v5 v6) 0.25 <
      1 / 10000 :=
    not_lt.mpr (by linarith [rpow_quarter_ge_one _ hd0])
  have hg1 : ¬ Real.rpow (Geom.Vec3.distanceToSquared v6 v7) 0.25 <
      1 / 10000 :=
    not_lt.mpr (by linarith [rpow_quarter_ge_one _ hd1])
  have hg2 : ¬ Real.rpow (Geom.Vec3.distanceToSquared v7 v8) 0.25 <
      1 / 10000 :=
    not_lt.mpr (by linarith [rpow_quarter_ge_one _ hd2])
  rw [if_neg hg1, if_neg hg0, if_neg hg2]
  have hw : (((9 : ℕ) : ℝ) - 1) * 0.666 - ((5 : ℤ) : ℝ) = 0.328 := by
    norm_num
  rw [hw]

/-- The scenario's 9 floored points as a literal list. -/
theorem pts9_lit : Scen.pts9 = [Scen.em Scen.sS, Scen.em Scen.pST,
    Scen.em Scen.pC1, Scen.em Scen.pC2, Scen.em Scen.pCR, Scen.em Scen.pD1,
    Scen.em Scen.pD2, Scen.em Scen.pET, Scen.em Scen.eS] := rfl

/-- The `t = 0.333` sample of the scenario's Catmull-Rom fit is away
from the origin. -/
theorem sample0333_pos :
    0 < Geom.Vec3.length (Geom.crGetPoint Scen.pts9 0.333) := by
  have h0 : (1:ℝ) ≤ Geom.Vec3.distanceToSquared (Scen.em Scen.pST)
      (Scen.em Scen.pC1) := le_trans (by norm_num) dsq01_q1
  have h1 : (1:ℝ) ≤ Geom.Vec3.distanceToSquared (Scen.em Scen.pC1)
      (Scen.em Scen.pC2) := le_trans (by norm_num) dsq12_q1
  have h2 : (1:ℝ) ≤ Geom.Vec3.distanceToSquared (Scen.em Scen.pC2)
      (Scen.em Scen.pCR) := le_trans (by norm_num) dsq23_q1
  rw [pts9_lit, crGetPoint_c1 _ _ _ _ _ _ _ _ _ h0 h1 h2]
  apply Vec3.length_pos_of_dot_pos _ Scen.U
  rw [dot_crBlend]
  refine cpCalc_blend_pos _ _ _ _ _ _ _ _ 16000000 2700000
    (Real.rpow_pos_of_pos (by linarith [dsq01_q1]) 0.25)
    (Real.rpow_pos_of_pos (by linarith [dsq12_q1]) 0.25)
    (Real.rpow_pos_of_pos (by linarith [dsq23_q1]) 0.25)
    (rpow_quarter_le _ _ (by linarith [dsq12_q1]) (by linarith [dsq01_q1])
      (by linarith [dsq12_q1_hi, dsq01_q1]))
    (rpow_quarter_le _ _ (by linarith [dsq12_q1]) (by linarith [dsq23_q1])
      (by linarith [dsq12_q1_hi, dsq23_q1]))
    (by norm_num) (by norm_num) u_pC1.1 u_pC2.1
    (abs_le.mpr ⟨by linarith [u_pC1.1, u_pST.2], by linarith [u_pC1.2, u_pST.1]⟩)
    (abs_le.mpr ⟨by linarith [u_pC2.1, u_pST.2], by linarith [u_pC2.2, u_pST.1]⟩)
    (abs_le.mpr ⟨by linarith [u_pC2.1, u_pC1.2], by linarith [u_pC2.2, u_pC1.1]⟩)
    (abs_le.mpr ⟨by linarith [u_pCR.1, u_pC1.2], by linarith [u_pCR.2, u_pC1.1]⟩)
    (abs_le.mpr ⟨by linarith [u_pCR.1, u_pC2.2], by linarith [u_pCR.2, u_pC2.1]⟩)
    (by norm_num) (by norm_num)

/-- The `t = 0.666` sample of the scenario's Catmull-Rom fit is away
from the origin. -/
theorem sample0666_pos :
    0 < Geom.Vec3.length (Geom.crGetPoint Scen.pts9 0.666) := by
  have h0 : (1:ℝ) ≤ Geom.Vec3.distanceToSquared (Scen.em Scen.pCR)
      (Scen.em Scen.pD1) := le_trans (by norm_num) dsq01_q2
  have h1 : (1:ℝ) ≤ Geom.Vec3.distanceToSquared (Scen.em Scen.pD1)
      (Scen.em Scen.pD2) := le_trans (by norm_num) dsq12_q2
  have h2 : (1:ℝ) ≤ Geom.Vec3.distanceToSquared (Scen.em Scen.pD2)
      (Scen.em Scen.pET) := le_trans (by norm_num) dsq23_q2
  rw [pts9_lit, crGetPoint_d2 _ _ _ _ _ _ _ _ _ h0 h1 h2]
  apply Vec3.length_pos_of_dot_pos _ Scen.U
  rw [dot_crBlend]
  refine cpCalc_blend_pos _ _ _ _ _ _ _ _ 16000000 2700000
    (Real.rpow_pos_of_pos (by linarith [dsq01_q2]) 0.25)
    (Real.rpow_pos_of_pos (by linarith [dsq12_q2]) 0.25)
    (Real.rpow_pos_of_pos (by linarith [dsq23_q2]) 0.25)
    (rpow_quarter_le _ _ (by linarith [dsq12_q2]) (by linarith [dsq01_q2])
      (by linarith [dsq12_q2_hi, dsq01_q2]))
    (rpow_quarter_le _ _ (by linarith [dsq12_q2]) (by linarith [dsq23_q2])
      (by linarith [dsq12_q2_hi, dsq23_q2]))
    (by norm_num) (by norm_num) u_pD1.1 u_pD2.1
    (abs_le.mpr ⟨by linarith [u_pD1.1, u_pCR.2], by linarith [u_pD1.2, u_pCR.1]⟩)
    (abs_le.mpr ⟨by linarith [u_pD2.1, u_pCR.2], by linarith [u_pD2.2, u_pCR.1]⟩)
    (abs_le.mpr ⟨by linarith [u_pD2.1, u_pD1.2], by linarith [u_pD2.2, u_pD1.1]⟩)
    (abs_le.mpr ⟨by linarith [u_pET.1, u_pD1.2], by linarith [u_pET.2, u_pD1.1]⟩)
    (abs_le.mpr ⟨by linarith [u_pET.1, u_pD2.2], by linarith [u_pET.2, u_pD2.1]⟩)
    (by norm_num) (by norm_num)

/-- Every point of the altitude floor's output lies at or above the
floor whenever every input point is nonzero. -/
theorem ensureMin_all_ge (pts : List Geom.Vec3) (r a : ℝ) (hra : 0 < r + a)
    (h : ∀ p ∈ pts, 0 < Geom.Vec3.length p) :
    ∀ q ∈ Geom.ensureMinimumCurveAltitude pts r a,
      r + a ≤ Geom.Vec3.length q := by
  intro q hq
  rw [Geom.ensureMinimumCurveAltitude, List.mem_map] at hq
  obtain ⟨p, hp, rfl⟩ := hq
  by_cases hc : 0 < Geom.Vec3.length p ∧ Geom.Vec3.length p < r + a
  · rw [if_pos hc, Vec3.length_smul,
      Vec3.length_normalizeJS p (ne_of_gt hc.1), abs_of_pos hra, mul_one]
  · rw [if_neg hc]
    rcases not_and_or.mp hc with hc1 | hc2
    · exact absurd (h p hp) hc1
    · exact not_lt.mp hc2

/-- The scenario's `normalizeControlPoints` call: 9 points are fitted
and resampled at 0, 0.333, 0.666, 1, then floored. -/
theorem norm4_pts9 : Geom.normalizeControlPoints Scen.pts9 3000 20 =
    Geom.ensureMinimumCurveAltitude
      [Geom.crGetPoint Scen.pts9 0, Geom.crGetPoint Scen.pts9 0.333,
       Geom.crGetPoint Scen.pts9 0.666, Geom.crGetPoint Scen.pts9 1]
      3000 20 := by
  have hlen9 : Scen.pts9.length = 9 := rfl
  have hne : Scen.pts9.length ≠ 0 := by
    rw [hlen9]
    norm_num
  have hclone : Geom.cloneControlPoints Scen.pts9 = Scen.pts9 :=
    List.map_id _
  rw [Geom.normalizeControlPoints, if_pos hne, hclone,
    if_neg (by rw [hlen9]; norm_num : ¬ Scen.pts9.length = 4),
    if_neg (by rw [hlen9]; norm_num : ¬ Scen.pts9.length = 0)]

/-- C5 (parabolic path generation scenario): with departure
(37.6, −122.4), arrival (40.6, −73.8), radius 3000, takeoffOffset 18,
minCurveAltitude 20, minCruiseAltitude 30 and maxCruiseAltitude 220 —
and any values of the random fallback directions, which this input
never consults — `generateParabolicControlPoints` returns exactly 9
points, each at Euclidean distance at least 3020 = radius +
minCurveAltitude from the origin, and `normalizeControlPoints` applied
to that output with the same radius and minimum altitude returns
exactly 4 points, each at distance at least 3020. -/
theorem c5_parabolic_scenario (rnd1 rnd2 : Geom.Vec3) :
    (Geom.generateParabolicControlPoints ⟨37.6, -122.4⟩ ⟨40.6, -73.8⟩
      3000 18 20 30 220 rnd1 rnd2).length = 9 ∧
    (∀ p ∈ Geom.generateParabolicControlPoints ⟨37.6, -122.4⟩ ⟨40.6, -73.8⟩
      3000 18 20 30 220 rnd1 rnd2, 3020 ≤ Geom.Vec3.length p) ∧
    (Geom.normalizeControlPoints
      (Geom.generateParabolicControlPoints ⟨37.6, -122.4⟩ ⟨40.6, -73.8⟩
        3000 18 20 30 220 rnd1 rnd2) 3000 20).length = 4 ∧
    (∀ p ∈ Geom.normalizeControlPoints
      (Geom.generateParabolicControlPoints ⟨37.6, -122.4⟩ ⟨40.6, -73.8⟩
        3000 18 20 30 220 rnd1 rnd2) 3000 20,
      3020 ≤ Geom.Vec3.length p) := by
  have hfe : Geom.generateParabolicControlPoints ⟨37.6, -122.4⟩
      ⟨40.6, -73.8⟩ 3000 18 20 30 220 rnd1 rnd2 = Scen.pts9 :=
    flight9_eq rnd1 rnd2
  have hmem4 : ∀ p ∈ [Geom.crGetPoint Scen.pts9 0,
      Geom.crGetPoint Scen.pts9 0.333, Geom.crGetPoint Scen.pts9 0.666,
      Geom.crGetPoint Scen.pts9 1], 0 < Geom.Vec3.length p := by
    intro p hp
    simp only [List.mem_cons, List.not_mem_nil, or_false] at hp
    rcases hp with rfl | rfl | rfl | rfl
    · rw [pts9_lit, crGetPoint_zero, em_sS, length_sS]
      norm_num
    · exact sample0333_pos
    · exact sample0666_pos
    · rw [pts9_lit, crGetPoint_one, em_eS, length_eS]
      norm_num
  refine ⟨by rw [hfe]; rfl, ?_, ?_, ?_⟩
  · rw [hfe]
    exact pts9_all_ge
  · rw [hfe, norm4_pts9]
    rfl
  · rw [hfe, norm4_pts9]
    intro p hp
    have := ensureMin_all_ge _ 3000 20 (by norm_num) hmem4 p hp
    linarith

/-- Witness for C5 at the zero random fallbacks: the floored
`startSurface` is among the 9 generated points and satisfies the
altitude bound. -/
theorem c5_witness :
    Scen.em Scen.sS ∈ Geom.generateParabolicControlPoints ⟨37.6, -122.4⟩
      ⟨40.6, -73.8⟩ 3000 18 20 30 220 Geom.zero3 Geom.zero3 ∧
    3020 ≤ Geom.Vec3.length (Scen.em Scen.sS) := by
  have hmem : Scen.em Scen.sS ∈ Geom.generateParabolicControlPoints
      ⟨37.6, -122.4⟩ ⟨40.6, -73.8⟩ 3000 18 20 30 220 Geom.zero3 Geom.zero3 := by
    rw [show Geom.generateParabolicControlPoints ⟨37.6, -122.4⟩ ⟨40.6, -73.8⟩
      3000 18 20 30 220 Geom.zero3 Geom.zero3 = Scen.pts9 from
      flight9_eq _ _, pts9_lit]
    exact List.mem_cons_self _ _
  exact ⟨hmem,
    (c5_parabolic_scenario Geom.zero3 Geom.zero3).2.1 (Scen.em Scen.sS) hmem⟩

end Spec2Proof
